import Mathlib

/-! The TCP object of the bundled LuaSocket (`External/luasocket/tcp.cpp`).

A shallow embedding of the Lua-facing TCP object.  A Lua C function is a
transformer of an explicit `lua_State` (value stack, userdata heap and the
log of calls made into the socket layer) that either returns a number of
results or raises a Lua argument error.  Everything the socket layer, the
resolver, the clock and the buffered I/O layer decide is read from an `Env`
of outcome functions, each of which sees the whole log of earlier calls, so
a statement quantified over `Env` speaks about every outcome of the
underlying operations.

Lua numbers are modelled as integers (descriptors, backlogs, option indices
and family codes are all cast to `int` by the code); floating point is not
modelled.
-/

namespace Luasocket

/-! ## Constants of the platform and LuaSocket headers -/

/-- The invalid-descriptor sentinel (`SOCKET_INVALID`, `-1` on POSIX). -/
def SOCKET_INVALID : Int := -1

/-- The success code of the I/O layer (`IO_DONE` in `io.h`). -/
def IO_DONE : Int := 0

/-- Unspecified address family. -/
def PF_UNSPEC : Int := 0

/-- IPv4 address family (Linux value). -/
def AF_INET : Int := 2

/-- IPv6 address family (Linux value). -/
def AF_INET6 : Int := 10

/-- Protocol-family alias of `AF_INET`. -/
def PF_INET : Int := AF_INET

/-- Protocol-family alias of `AF_INET6`. -/
def PF_INET6 : Int := AF_INET6

/-- Stream socket type. -/
def SOCK_STREAM : Int := 1

/-- Passive (bind-side) resolution flag. -/
def AI_PASSIVE : Int := 1

/-- Protocol level of the IPv6 socket options. -/
def IPPROTO_IPV6 : Int := 41

/-- The IPv6-only socket option. -/
def IPV6_V6ONLY : Int := 26

/-- Class name of a master object. -/
def tcp_master : String := "tcp\x7bmaster\x7d"

/-- Class name of a client object. -/
def tcp_client : String := "tcp\x7bclient\x7d"

/-- Class name of a server object. -/
def tcp_server : String := "tcp\x7bserver\x7d"

/-- Name of the group of all three classes. -/
def tcp_any : String := "tcp\x7bany\x7d"

/-! ## Data model -/

/-- A value on the Lua stack.  Userdata are references into the heap of the
state. -/
inductive LuaValue where
  | nil
  | boolean (b : Bool)
  | number (n : Int)
  | string (s : String)
  | userdata (ref : Nat)
  deriving DecidableEq

/-- The resolver hints record `struct addrinfo`; pointer fields are kept as
addresses, `0` being the null pointer. -/
structure addrinfo where
  ai_flags : Int
  ai_family : Int
  ai_socktype : Int
  ai_protocol : Int
  ai_addrlen : Int
  ai_addr : Int
  ai_canonname : Int
  ai_next : Int
  deriving DecidableEq

/-- The timeout record `t_timeout`: the block and total knobs and the start
time of the current operation. -/
structure t_timeout where
  block : Int
  total : Int
  start : Int
  deriving DecidableEq

/-- The functions an I/O table can point to. -/
inductive IoFn where
  | null
  | socket_send
  | socket_recv
  | socket_ioerror
  deriving DecidableEq

/-- The I/O function table `t_io`.  The context pointer `ctx` is the heap
reference of the object whose `sock` field it points to. -/
structure t_io where
  ctx : Option Nat
  send : IoFn
  recv : IoFn
  error : IoFn
  deriving DecidableEq

/-- The buffer record `t_buffer`: creation time, byte counters, the owners of
the I/O table and of the timeout record it points to, and the read cursors
into the data array (the bytes of the array itself are not tracked). -/
structure t_buffer where
  birthday : Int
  sent : Int
  received : Int
  io : Option Nat
  tm : Option Nat
  first : Nat
  last : Nat
  deriving DecidableEq

/-- The TCP object `t_tcp`. -/
structure t_tcp where
  sock : Int
  io : t_io
  buf : t_buffer
  tm : t_timeout
  family : Int
  deriving DecidableEq

/-- A full userdata: the name of its metatable (its class, if it has been
given one) and its payload. -/
structure Udata where
  meta : Option String
  tcp : t_tcp
  deriving DecidableEq

/-- A call made by the TCP object into the socket, resolver or buffer layer. -/
inductive Call where
  | inet_trycreate (family socktype : Int)
  | inet_trybind (sock : Int) (address serv : String) (hints : addrinfo)
  | inet_tryconnect (sock family : Int) (address serv : String) (tm : t_timeout)
      (hints : addrinfo)
  | inet_tryaccept (server family : Int) (tm : t_timeout)
  | socket_listen (sock backlog : Int)
  | socket_shutdown (sock how : Int)
  | socket_setnonblocking (sock : Int)
  | socket_destroy (sock : Int)
  | close (sock : Int)
  | setsockopt (sock level optname optval : Int)
  | buffer_meth_send (ref : Nat)
  | buffer_meth_receive (ref : Nat)
  | buffer_meth_getstats (ref : Nat)
  | buffer_meth_setstats (ref : Nat)
  | opt_handler (handler : String) (sock : Int)
  | inet_meth_getpeername (sock family : Int)
  | inet_meth_getsockname (sock family : Int)
  deriving DecidableEq

/-- The state a Lua C function works on: the value stack of the running call
(index 1 first, top last), the userdata heap, and the log of calls made so
far into the layers below. -/
structure lua_State where
  stack : List LuaValue
  udata : List Udata
  calls : List Call
  deriving DecidableEq

/-- How a Lua C function ends: it returns `nresults` values (the topmost
ones of the stack), or `luaL_argerror` raises an error about argument `narg`.
A raised error unwinds the stack of the call, so of the state it carries only
the heap and the log matter; the stack is given as it was before the failed
check. -/
inductive Outcome where
  | ret (nresults : Nat) (L : lua_State)
  | error (narg : Int) (extramsg : String) (L : lua_State)
  deriving DecidableEq

/-- What a buffered I/O method hands back: an argument error it raised, or
the values it pushed with their count, and the buffer and timeout records as
it left them. -/
structure Effect where
  raised : Option (Int × String)
  pushed : List LuaValue
  nresults : Nat
  buf : t_buffer
  tm : t_timeout

/-- What an option handler or a name query hands back: an argument error it
raised, or the values it pushed with their count. -/
structure Reply where
  raised : Option (Int × String)
  pushed : List LuaValue
  nresults : Nat

/-- Outcomes of everything that lives below the TCP object.  Each function
receives the log of earlier calls first. -/
structure Env where
  /-- Lua's number-to-string conversion. -/
  lua_number2str : Int → String
  /-- Lua's string-to-number conversion. -/
  lua_str2number : String → Option Int
  /-- The clock. -/
  timeout_gettime : List Call → Int
  /-- The message of a failure code of the socket layer. -/
  socket_strerror : Int → String
  /-- Creating a socket: error message if any, and the descriptor written. -/
  inet_trycreate : List Call → Int → Int → Option String × Int
  /-- Resolving and binding: error message if any, the descriptor and the
  hints as they are left. -/
  inet_trybind : List Call → Int → String → String → addrinfo →
    Option String × Int × addrinfo
  /-- Resolving and connecting: error message if any, and the descriptor,
  family and timeout record as they are left. -/
  inet_tryconnect : List Call → Int → Int → String → String → t_timeout → addrinfo →
    Option String × Int × Int × t_timeout
  /-- Accepting: error message if any, and the new descriptor. -/
  inet_tryaccept : List Call → Int → Int → t_timeout → Option String × Int
  /-- Listening: the code returned. -/
  socket_listen : List Call → Int → Int → Int
  /-- The buffered send method. -/
  buffer_meth_send : List Call → List LuaValue → t_tcp → Effect
  /-- The buffered receive method. -/
  buffer_meth_receive : List Call → List LuaValue → t_tcp → Effect
  /-- The statistics getter. -/
  buffer_meth_getstats : List Call → List LuaValue → t_tcp → Effect
  /-- The statistics setter. -/
  buffer_meth_setstats : List Call → List LuaValue → t_tcp → Effect
  /-- An option handler, by the name of the C function. -/
  opt_handler : String → List Call → List LuaValue → Int → Reply
  /-- The peer-name query. -/
  inet_meth_getpeername : List Call → Int → Int → Reply
  /-- The local-name query. -/
  inet_meth_getsockname : List Call → Int → Int → Reply

/-! ## Zero-initialised records (`memset(p, 0, sizeof ...)`) -/

/-- Hints after `memset` to zero. -/
def addrinfo.zero : addrinfo :=
  { ai_flags := 0, ai_family := 0, ai_socktype := 0, ai_protocol := 0,
    ai_addrlen := 0, ai_addr := 0, ai_canonname := 0, ai_next := 0 }

/-- A timeout record of zero bytes. -/
def t_timeout.zero : t_timeout := { block := 0, total := 0, start := 0 }

/-- An I/O table of zero bytes. -/
def t_io.zero : t_io :=
  { ctx := none, send := IoFn.null, recv := IoFn.null, error := IoFn.null }

/-- A buffer record of zero bytes. -/
def t_buffer.zero : t_buffer :=
  { birthday := 0, sent := 0, received := 0, io := none, tm := none, first := 0, last := 0 }

/-- A TCP object after `memset` to zero. -/
def t_tcp.zero : t_tcp :=
  { sock := 0, io := t_io.zero, buf := t_buffer.zero, tm := t_timeout.zero, family := 0 }

/-- The hints of a bind: `memset` to zero, then stream socket type, the given
family and the passive flag. -/
def bindhints_for (family : Int) : addrinfo :=
  { addrinfo.zero with ai_socktype := SOCK_STREAM, ai_family := family, ai_flags := AI_PASSIVE }

/-- The hints of a connect: `memset` to zero, then stream socket type and the
given family. -/
def connecthints_for (family : Int) : addrinfo :=
  { addrinfo.zero with ai_socktype := SOCK_STREAM, ai_family := family }

/-! ## The Lua API used by the TCP object -/

/-- The value at a stack index: positive indices count from the bottom,
negative ones from the top; anything else is "none". -/
def lua_State.index (L : lua_State) (idx : Int) : Option LuaValue :=
  if 0 < idx then L.stack[idx.toNat - 1]?
  else if idx < 0 ∧ (-idx).toNat ≤ L.stack.length then
    L.stack[L.stack.length - (-idx).toNat]?
  else none

/-- Overwrite the value at a positive stack index. -/
def lua_State.setIndex (L : lua_State) (idx : Int) (v : LuaValue) : lua_State :=
  if 0 < idx then { L with stack := L.stack.set (idx.toNat - 1) v } else L

/-- Push a value. -/
def lua_State.push (L : lua_State) (v : LuaValue) : lua_State :=
  { L with stack := L.stack ++ [v] }

/-- Log a call into the layers below. -/
def lua_State.log (L : lua_State) (c : Call) : lua_State :=
  { L with calls := L.calls ++ [c] }

/-- Dereference an object pointer. -/
def lua_State.tcp (L : lua_State) (ref : Nat) : t_tcp :=
  match L.udata[ref]? with
  | some u => u.tcp
  | none => t_tcp.zero

/-- The class of a heap object, if it has one. -/
def lua_State.classOf (L : lua_State) (ref : Nat) : Option String :=
  match L.udata[ref]? with
  | some u => u.meta
  | none => none

/-- Write through an object pointer. -/
def lua_State.setTcp (L : lua_State) (ref : Nat) (t : t_tcp) : lua_State :=
  match L.udata[ref]? with
  | some u => { L with udata := L.udata.set ref { u with tcp := t } }
  | none => L

/-- Model of `lua_pushnil`. -/
def lua_pushnil (L : lua_State) : lua_State := L.push LuaValue.nil

/-- Model of `lua_pushstring`. -/
def lua_pushstring (L : lua_State) (s : String) : lua_State := L.push (LuaValue.string s)

/-- Model of `lua_pushnumber`. -/
def lua_pushnumber (L : lua_State) (n : Int) : lua_State := L.push (LuaValue.number n)

/-- Model of `lua_pushboolean`. -/
def lua_pushboolean (L : lua_State) (b : Bool) : lua_State := L.push (LuaValue.boolean b)

/-- Model of `lua_newuserdata`: a fresh heap object without metatable, pushed
on the stack; the reference of the new object is returned with the state. -/
def lua_newuserdata (L : lua_State) : Nat × lua_State :=
  (L.udata.length,
   { L with udata := L.udata ++ [{ meta := none, tcp := t_tcp.zero }],
            stack := L.stack ++ [LuaValue.userdata L.udata.length] })

/-- Model of `lua_isnoneornil`. -/
def lua_isnoneornil (L : lua_State) (idx : Int) : Bool :=
  match L.index idx with
  | none => true
  | some LuaValue.nil => true
  | _ => false

/-- Model of `lua_isstring`: true of strings and of numbers. -/
def lua_isstring (L : lua_State) (idx : Int) : Bool :=
  match L.index idx with
  | some (LuaValue.string _) => true
  | some (LuaValue.number _) => true
  | _ => false

/-- Name of the type of a stack slot, as used in argument errors. -/
def luaL_typename (L : lua_State) (idx : Int) : String :=
  match L.index idx with
  | none => "no value"
  | some LuaValue.nil => "nil"
  | some (LuaValue.boolean _) => "boolean"
  | some (LuaValue.number _) => "number"
  | some (LuaValue.string _) => "string"
  | some (LuaValue.userdata _) => "userdata"

/-- Model of `luaL_checkstring`: strings are taken as they are, numbers are
converted to strings in place, anything else is an argument error. -/
def luaL_checkstring (env : Env) (L : lua_State) (idx : Int) :
    Except (Int × String) (String × lua_State) :=
  match L.index idx with
  | some (LuaValue.string s) => Except.ok (s, L)
  | some (LuaValue.number n) =>
      Except.ok (env.lua_number2str n, L.setIndex idx (LuaValue.string (env.lua_number2str n)))
  | _ => Except.error (idx, "string expected, got " ++ luaL_typename L idx)

/-- Model of `luaL_optstring` with a default that may be `NULL`. -/
def luaL_optstring (env : Env) (L : lua_State) (idx : Int) (d : Option String) :
    Except (Int × String) (Option String × lua_State) :=
  if lua_isnoneornil L idx then Except.ok (d, L)
  else match luaL_checkstring env L idx with
    | Except.ok (s, L1) => Except.ok (some s, L1)
    | Except.error e => Except.error e

/-- Model of `luaL_checknumber`: numbers, and strings convertible to
numbers, are accepted. -/
def luaL_checknumber (env : Env) (L : lua_State) (idx : Int) : Except (Int × String) Int :=
  match L.index idx with
  | some (LuaValue.number n) => Except.ok n
  | some (LuaValue.string s) =>
      match env.lua_str2number s with
      | some n => Except.ok n
      | none => Except.error (idx, "number expected, got string")
  | _ => Except.error (idx, "number expected, got " ++ luaL_typename L idx)

/-- Model of `luaL_optnumber`. -/
def luaL_optnumber (env : Env) (L : lua_State) (idx : Int) (d : Int) :
    Except (Int × String) Int :=
  if lua_isnoneornil L idx then Except.ok d else luaL_checknumber env L idx

/-- What a C function reads of a Lua string through its `const char *`: the
characters before the first NUL.  A Lua string may hold NUL characters;
`strcmp` and the `%s` of `lua_pushfstring` stop at the first one. -/
def cstring (s : String) : String :=
  String.mk (s.data.takeWhile (fun c => c ≠ Char.ofNat 0))

/-- Model of `luaL_checkoption`: the position of the (possibly defaulted)
string argument in a list of names.  The argument is compared to each name
with `strcmp`, and the error message is built with
`lua_pushfstring(L, "invalid option '%s'", name)`.  The name is never null
(a default is given or the argument is checked), so the branch for a missing
name is never taken. -/
def luaL_checkoption (env : Env) (L : lua_State) (idx : Int) (d : Option String)
    (lst : List String) : Except (Int × String) (Nat × lua_State) :=
  match (match d with
         | some _ => luaL_optstring env L idx d
         | none =>
            match luaL_checkstring env L idx with
            | Except.ok (s, L1) => Except.ok (some s, L1)
            | Except.error e => Except.error e) with
  | Except.error e => Except.error e
  | Except.ok (none, _) => Except.error (idx, "invalid option")
  | Except.ok (some name, L1) =>
      if cstring name ∈ lst then Except.ok (lst.indexOf (cstring name), L1)
      else Except.error (idx, "invalid option '" ++ cstring name ++ "'")

/-! ## The class registry (`auxiliar.c`) as set up by `tcp_open` -/

/-- The classes `tcp_open` creates. -/
def tcp_open_classes : List String := [tcp_master, tcp_client, tcp_server]

/-- The group memberships `tcp_open` registers, as (class, group) pairs. -/
def tcp_open_groups : List (String × String) :=
  [(tcp_master, tcp_any), (tcp_client, tcp_any), (tcp_server, tcp_any)]

/-- Model of `auxiliar_getclassudata`: the object at `objidx` if it is a
userdata whose metatable is the one registered as `classname`. -/
def auxiliar_getclassudata (L : lua_State) (classname : String) (objidx : Int) : Option Nat :=
  match L.index objidx with
  | some (LuaValue.userdata ref) =>
      match L.udata[ref]? with
      | some u => if u.meta = some classname then some ref else none
      | none => none
  | _ => none

/-- Model of `auxiliar_getgroupudata`: the object at `objidx` if it is a
userdata whose class was added to the group `groupname`. -/
def auxiliar_getgroupudata (L : lua_State) (groupname : String) (objidx : Int) : Option Nat :=
  match L.index objidx with
  | some (LuaValue.userdata ref) =>
      match L.udata[ref]? with
      | some u =>
          match u.meta with
          | some c => if (c, groupname) ∈ tcp_open_groups then some ref else none
          | none => none
      | none => none
  | _ => none

/-- Modelled from the spec: `auxiliar_checkclass` (in `auxiliar.c`, not part
of the sources at hand).  A role-mismatched call is answered with an
invalid-state error: the object is returned when its class is `classname`,
and otherwise an argument error "<classname> expected" is raised for
`objidx`. -/
def auxiliar_checkclass (L : lua_State) (classname : String) (objidx : Int) :
    Except (Int × String) Nat :=
  match auxiliar_getclassudata L classname objidx with
  | some ref => Except.ok ref
  | none => Except.error (objidx, classname.take 35 ++ " expected")

/-- Modelled from the spec: `auxiliar_checkgroup` (in `auxiliar.c`, not part
of the sources at hand), the group counterpart of `auxiliar_checkclass`. -/
def auxiliar_checkgroup (L : lua_State) (groupname : String) (objidx : Int) :
    Except (Int × String) Nat :=
  match auxiliar_getgroupudata L groupname objidx with
  | some ref => Except.ok ref
  | none => Except.error (objidx, groupname.take 35 ++ " expected")

/-- Modelled from the spec: `auxiliar_setclass` (in `auxiliar.c`, not part of
the sources at hand), the re-tagging operation: the userdata at `objidx`
gets the metatable registered as `classname`. -/
def auxiliar_setclass (L : lua_State) (classname : String) (objidx : Int) : lua_State :=
  match L.index objidx with
  | some (LuaValue.userdata ref) =>
      match L.udata[ref]? with
      | some u => { L with udata := L.udata.set ref { u with meta := some classname } }
      | none => L
  | _ => L

/-! ## The layers below: timeout, I/O table, buffer, socket -/

/-- Write through an object pointer after reading through it. -/
def lua_State.modTcp (L : lua_State) (ref : Nat) (f : t_tcp → t_tcp) : lua_State :=
  L.setTcp ref (f (L.tcp ref))

/-- Modelled from the spec: `timeout_markstart` (in the timeout tracker, not
part of the sources at hand), on the timeout record of object `ref`: the
start of the total budget becomes the current time, the knobs are untouched. -/
def timeout_markstart (env : Env) (L : lua_State) (ref : Nat) : lua_State :=
  L.modTcp ref (fun t => { t with tm := { t.tm with start := env.timeout_gettime L.calls } })

/-- Modelled from the spec: `timeout_init` (in the timeout tracker, not part
of the sources at hand), on the timeout record of object `ref`: it sets the
block and the total knob. -/
def timeout_init (L : lua_State) (ref : Nat) (block total : Int) : lua_State :=
  L.modTcp ref (fun t => { t with tm := { t.tm with block := block, total := total } })

/-- Modelled from the spec: `io_init` (in the I/O layer, not part of the
sources at hand), on the I/O table of object `ref`: it binds the send,
receive and error functions to the `sock` field of object `ctx`. -/
def io_init (L : lua_State) (ref : Nat) (send recv error : IoFn) (ctx : Nat) : lua_State :=
  L.modTcp ref (fun t =>
    { t with io := { ctx := some ctx, send := send, recv := recv, error := error } })

/-- Modelled from the spec: `buffer_init` (in the buffered I/O layer, not part
of the sources at hand), on the buffer of object `ref`: empty cursors, zero
byte counters, wired to the I/O table of object `io` and the timeout record
of object `tm`. -/
def buffer_init (env : Env) (L : lua_State) (ref io tm : Nat) : lua_State :=
  L.modTcp ref (fun t =>
    { t with buf := { t.buf with first := 0, last := 0, io := some io, tm := some tm,
                                 received := 0, sent := 0,
                                 birthday := env.timeout_gettime L.calls } })

/-- Modelled from the spec: `buffer_isempty` (in the buffered I/O layer, not
part of the sources at hand): no unconsumed buffered bytes remain. -/
def buffer_isempty (buf : t_buffer) : Bool := decide (buf.first ≥ buf.last)

/-- Modelled from the spec: `socket_setnonblocking` (in the socket primitive,
not part of the sources at hand), on a descriptor: the descriptor number is
untouched, the call is logged. -/
def socket_setnonblocking (L : lua_State) (sock : Int) : lua_State :=
  L.log (Call.socket_setnonblocking sock)

/-- Modelled from the spec: `socket_destroy` (in the socket primitive, not
part of the sources at hand).  Closing is idempotent and releases the
descriptor exactly once: a live descriptor is closed and replaced by the
invalid sentinel, the invalid sentinel is left alone. -/
def socket_destroy (L : lua_State) (ref : Nat) : lua_State :=
  let L1 := L.log (Call.socket_destroy (L.tcp ref).sock)
  if (L1.tcp ref).sock ≠ SOCKET_INVALID then
    (L1.log (Call.close (L1.tcp ref).sock)).modTcp ref (fun t => { t with sock := SOCKET_INVALID })
  else L1

/-- Modelled from the spec: `inet_optfamily` (in `inet.c`, not part of the
sources at hand): the optional family argument, one of "unspec", "inet",
"inet6". -/
def inet_optfamily (env : Env) (L : lua_State) (narg : Int) (d : String) :
    Except (Int × String) (Int × lua_State) :=
  match luaL_checkoption env L narg (some d) ["unspec", "inet", "inet6"] with
  | Except.ok (i, L1) => Except.ok ([PF_UNSPEC, PF_INET, PF_INET6].getD i 0, L1)
  | Except.error e => Except.error e

/-- Finish a buffered I/O method on object `ref`: store the records it
left, then raise its error or push its results. -/
def Effect.finish (e : Effect) (L : lua_State) (ref : Nat) : Outcome :=
  let L1 := L.modTcp ref (fun t => { t with buf := e.buf, tm := e.tm })
  match e.raised with
  | some (narg, msg) => Outcome.error narg msg L1
  | none => Outcome.ret e.nresults { L1 with stack := L1.stack ++ e.pushed }

/-- Finish an option handler or name query: raise its error or push its
results. -/
def Reply.finish (r : Reply) (L : lua_State) : Outcome :=
  match r.raised with
  | some (narg, msg) => Outcome.error narg msg L
  | none => Outcome.ret r.nresults { L with stack := L.stack ++ r.pushed }

/-! ## `tcp.cpp`: tables -/

/-- The C functions behind the methods and library functions. -/
inductive CFunction where
  | tcp_global_create
  | tcp_global_create6
  | tcp_global_connect
  | tcp_meth_connect
  | tcp_meth_listen
  | tcp_meth_getfamily
  | tcp_meth_bind
  | tcp_meth_send
  | tcp_meth_getstats
  | tcp_meth_setstats
  | tcp_meth_getsockname
  | tcp_meth_getpeername
  | tcp_meth_shutdown
  | tcp_meth_receive
  | tcp_meth_accept
  | tcp_meth_close
  | tcp_meth_getoption
  | tcp_meth_setoption
  | tcp_meth_settimeout
  | tcp_meth_getfd
  | tcp_meth_setfd
  | tcp_meth_dirty
  | auxiliar_tostring
  deriving DecidableEq

/-- The method table `tcp_methods`. -/
def tcp_methods : List (String × CFunction) :=
  [("__gc", CFunction.tcp_meth_close),
   ("__tostring", CFunction.auxiliar_tostring),
   ("accept", CFunction.tcp_meth_accept),
   ("bind", CFunction.tcp_meth_bind),
   ("close", CFunction.tcp_meth_close),
   ("connect", CFunction.tcp_meth_connect),
   ("dirty", CFunction.tcp_meth_dirty),
   ("getfamily", CFunction.tcp_meth_getfamily),
   ("getfd", CFunction.tcp_meth_getfd),
   ("getoption", CFunction.tcp_meth_getoption),
   ("getpeername", CFunction.tcp_meth_getpeername),
   ("getsockname", CFunction.tcp_meth_getsockname),
   ("getstats", CFunction.tcp_meth_getstats),
   ("setstats", CFunction.tcp_meth_setstats),
   ("listen", CFunction.tcp_meth_listen),
   ("receive", CFunction.tcp_meth_receive),
   ("send", CFunction.tcp_meth_send),
   ("setfd", CFunction.tcp_meth_setfd),
   ("setoption", CFunction.tcp_meth_setoption),
   ("setpeername", CFunction.tcp_meth_connect),
   ("setsockname", CFunction.tcp_meth_bind),
   ("settimeout", CFunction.tcp_meth_settimeout),
   ("shutdown", CFunction.tcp_meth_shutdown)]

/-- The option table `tcp_optget`, as (option name, handler) pairs. -/
def tcp_optget : List (String × String) :=
  [("keepalive", "opt_get_keepalive"),
   ("reuseaddr", "opt_get_reuseaddr"),
   ("tcp-nodelay", "opt_get_tcp_nodelay"),
   ("linger", "opt_get_linger"),
   ("error", "opt_get_error")]

/-- The option table `tcp_optset`, as (option name, handler) pairs. -/
def tcp_optset : List (String × String) :=
  [("keepalive", "opt_set_keepalive"),
   ("reuseaddr", "opt_set_reuseaddr"),
   ("tcp-nodelay", "opt_set_tcp_nodelay"),
   ("ipv6-v6only", "opt_set_ip6_v6only"),
   ("linger", "opt_set_linger")]

/-- The library table `tcp_func`. -/
def tcp_func : List (String × CFunction) :=
  [("tcp", CFunction.tcp_global_create),
   ("tcp6", CFunction.tcp_global_create6),
   ("connect", CFunction.tcp_global_connect)]

/-- The function a method name is bound to in a table (first entry wins). -/
def lookup (table : List (String × CFunction)) (name : String) : Option CFunction :=
  (table.find? (fun e => e.1 == name)).map (fun e => e.2)

/-! ## `tcp.cpp`: object methods -/

/-- The method `tcp_meth_send`. -/
def tcp_meth_send (env : Env) (L : lua_State) : Outcome :=
  match auxiliar_checkclass L tcp_client 1 with
  | Except.error (narg, msg) => Outcome.error narg msg L
  | Except.ok tcp =>
      (env.buffer_meth_send L.calls L.stack (L.tcp tcp)).finish
        (L.log (Call.buffer_meth_send tcp)) tcp

/-- The method `tcp_meth_receive`. -/
def tcp_meth_receive (env : Env) (L : lua_State) : Outcome :=
  match auxiliar_checkclass L tcp_client 1 with
  | Except.error (narg, msg) => Outcome.error narg msg L
  | Except.ok tcp =>
      (env.buffer_meth_receive L.calls L.stack (L.tcp tcp)).finish
        (L.log (Call.buffer_meth_receive tcp)) tcp

/-- The method `tcp_meth_getstats`. -/
def tcp_meth_getstats (env : Env) (L : lua_State) : Outcome :=
  match auxiliar_checkclass L tcp_client 1 with
  | Except.error (narg, msg) => Outcome.error narg msg L
  | Except.ok tcp =>
      (env.buffer_meth_getstats L.calls L.stack (L.tcp tcp)).finish
        (L.log (Call.buffer_meth_getstats tcp)) tcp

/-- The method `tcp_meth_setstats`. -/
def tcp_meth_setstats (env : Env) (L : lua_State) : Outcome :=
  match auxiliar_checkclass L tcp_client 1 with
  | Except.error (narg, msg) => Outcome.error narg msg L
  | Except.ok tcp =>
      (env.buffer_meth_setstats L.calls L.stack (L.tcp tcp)).finish
        (L.log (Call.buffer_meth_setstats tcp)) tcp

/-- The method `tcp_meth_accept`. -/
def tcp_meth_accept (env : Env) (L : lua_State) : Outcome :=
  match auxiliar_checkclass L tcp_server 1 with
  | Except.error (narg, msg) => Outcome.error narg msg L
  | Except.ok server =>
      let L1 := timeout_markstart env L server
      let r := env.inet_tryaccept L1.calls (L1.tcp server).sock (L1.tcp server).family
        (L1.tcp server).tm
      let L2 := L1.log (Call.inet_tryaccept (L1.tcp server).sock (L1.tcp server).family
        (L1.tcp server).tm)
      let sock := r.2
      match r.1 with
      | none =>
          let clnt := (lua_newuserdata L2).1
          let L3 := (lua_newuserdata L2).2
          let L4 := auxiliar_setclass L3 tcp_client (-1)
          let L5 := L4.setTcp clnt t_tcp.zero
          let L6 := socket_setnonblocking L5 sock
          let L7 := L6.modTcp clnt (fun t => { t with sock := sock })
          let L8 := io_init L7 clnt IoFn.socket_send IoFn.socket_recv IoFn.socket_ioerror clnt
          let L9 := timeout_init L8 clnt (-1) (-1)
          let L10 := buffer_init env L9 clnt clnt clnt
          let L11 := L10.modTcp clnt (fun t => { t with family := (L10.tcp server).family })
          Outcome.ret 1 L11
      | some err => Outcome.ret 2 (lua_pushstring (lua_pushnil L2) err)

/-- The method `tcp_meth_bind`. -/
def tcp_meth_bind (env : Env) (L : lua_State) : Outcome :=
  match auxiliar_checkclass L tcp_master 1 with
  | Except.error (narg, msg) => Outcome.error narg msg L
  | Except.ok tcp =>
  match luaL_checkstring env L 2 with
  | Except.error (narg, msg) => Outcome.error narg msg L
  | Except.ok (address, La) =>
  match luaL_checkstring env La 3 with
  | Except.error (narg, msg) => Outcome.error narg msg La
  | Except.ok (port, Lp) =>
      let bindhints : addrinfo := bindhints_for (Lp.tcp tcp).family
      let r := env.inet_trybind Lp.calls (Lp.tcp tcp).sock address port bindhints
      let L1 := (Lp.log (Call.inet_trybind (Lp.tcp tcp).sock address port bindhints)).modTcp tcp
        (fun t => { t with sock := r.2.1 })
      match r.1 with
      | some err => Outcome.ret 2 (lua_pushstring (lua_pushnil L1) err)
      | none => Outcome.ret 1 (lua_pushnumber L1 1)

/-- The method `tcp_meth_connect`. -/
def tcp_meth_connect (env : Env) (L : lua_State) : Outcome :=
  match auxiliar_checkgroup L tcp_any 1 with
  | Except.error (narg, msg) => Outcome.error narg msg L
  | Except.ok tcp =>
  match luaL_checkstring env L 2 with
  | Except.error (narg, msg) => Outcome.error narg msg L
  | Except.ok (address, La) =>
  match luaL_checkstring env La 3 with
  | Except.error (narg, msg) => Outcome.error narg msg La
  | Except.ok (port, Lp) =>
      let connecthints : addrinfo := connecthints_for (Lp.tcp tcp).family
      let L1 := timeout_markstart env Lp tcp
      let r := env.inet_tryconnect L1.calls (L1.tcp tcp).sock (L1.tcp tcp).family address port
        (L1.tcp tcp).tm connecthints
      let L2 := (L1.log (Call.inet_tryconnect (L1.tcp tcp).sock (L1.tcp tcp).family address port
        (L1.tcp tcp).tm connecthints)).modTcp tcp
        (fun t => { t with sock := r.2.1, family := r.2.2.1, tm := r.2.2.2 })
      let L3 := auxiliar_setclass L2 tcp_client 1
      match r.1 with
      | some err => Outcome.ret 2 (lua_pushstring (lua_pushnil L3) err)
      | none => Outcome.ret 1 (lua_pushnumber L3 1)

/-- The method `tcp_meth_close`. -/
def tcp_meth_close (L : lua_State) : Outcome :=
  match auxiliar_checkgroup L tcp_any 1 with
  | Except.error (narg, msg) => Outcome.error narg msg L
  | Except.ok tcp => Outcome.ret 1 (lua_pushnumber (socket_destroy L tcp) 1)

/-- The method `tcp_meth_listen`. -/
def tcp_meth_listen (env : Env) (L : lua_State) : Outcome :=
  match auxiliar_checkclass L tcp_master 1 with
  | Except.error (narg, msg) => Outcome.error narg msg L
  | Except.ok tcp =>
  match luaL_optnumber env L 2 32 with
  | Except.error (narg, msg) => Outcome.error narg msg L
  | Except.ok backlog =>
      let err := env.socket_listen L.calls (L.tcp tcp).sock backlog
      let L1 := L.log (Call.socket_listen (L.tcp tcp).sock backlog)
      if err ≠ IO_DONE then
        Outcome.ret 2 (lua_pushstring (lua_pushnil L1) (env.socket_strerror err))
      else
        Outcome.ret 1 (lua_pushnumber (auxiliar_setclass L1 tcp_server 1) 1)

/-- The method `tcp_meth_shutdown`. -/
def tcp_meth_shutdown (env : Env) (L : lua_State) : Outcome :=
  match auxiliar_checkclass L tcp_client 1 with
  | Except.error (narg, msg) => Outcome.error narg msg L
  | Except.ok tcp =>
  match luaL_checkoption env L 2 (some "both") ["receive", "send", "both"] with
  | Except.error (narg, msg) => Outcome.error narg msg L
  | Except.ok (how, L1) =>
      Outcome.ret 1 (lua_pushnumber (L1.log (Call.socket_shutdown (L1.tcp tcp).sock how)) 1)

/-- Modelled from the spec: the option interface `opt_meth_getoption` /
`opt_meth_setoption` (in `options.c`, not part of the sources at hand): get
or set a socket option by name.  The name at argument 2 is looked up in the
table; a name that is not in it is an argument error, a name that is in it
has its handler called on the descriptor. -/
def opt_meth (env : Env) (L : lua_State) (opt : List (String × String)) (sock : Int) :
    Outcome :=
  match luaL_checkstring env L 2 with
  | Except.error (narg, msg) => Outcome.error narg msg L
  | Except.ok (name, L1) =>
      match opt.find? (fun e => e.1 == name) with
      | none => Outcome.error 2 ("unsupported option \x60" ++ name.take 35 ++ "\x27") L1
      | some e =>
          (env.opt_handler e.2 L1.calls L1.stack sock).finish (L1.log (Call.opt_handler e.2 sock))

/-- Modelled from the spec: `opt_meth_getoption` (see `opt_meth`). -/
def opt_meth_getoption (env : Env) (L : lua_State) (opt : List (String × String))
    (sock : Int) : Outcome :=
  opt_meth env L opt sock

/-- Modelled from the spec: `opt_meth_setoption` (see `opt_meth`). -/
def opt_meth_setoption (env : Env) (L : lua_State) (opt : List (String × String))
    (sock : Int) : Outcome :=
  opt_meth env L opt sock

/-- Modelled from the spec: `timeout_meth_settimeout` (in the timeout
tracker, not part of the sources at hand), on the timeout record of object
`ref`: the value at argument 2 (default -1) is stored in the block knob for a
mode starting with b (the default) and in the total knob for a mode starting
with r or t; any other mode is an argument error. -/
def timeout_meth_settimeout (env : Env) (L : lua_State) (ref : Nat) : Outcome :=
  match luaL_optnumber env L 2 (-1) with
  | Except.error (narg, msg) => Outcome.error narg msg L
  | Except.ok t =>
  match luaL_optstring env L 3 (some "b") with
  | Except.error (narg, msg) => Outcome.error narg msg L
  | Except.ok (mode, L1) =>
      match (mode.getD "b").data.head? with
      | some 'b' =>
          Outcome.ret 1 (lua_pushnumber
            (L1.modTcp ref (fun x => { x with tm := { x.tm with block := t } })) 1)
      | some 'r' =>
          Outcome.ret 1 (lua_pushnumber
            (L1.modTcp ref (fun x => { x with tm := { x.tm with total := t } })) 1)
      | some 't' =>
          Outcome.ret 1 (lua_pushnumber
            (L1.modTcp ref (fun x => { x with tm := { x.tm with total := t } })) 1)
      | _ => Outcome.error 3 "invalid timeout mode" L1

/-- The method `tcp_meth_getoption`. -/
def tcp_meth_getoption (env : Env) (L : lua_State) : Outcome :=
  match auxiliar_checkgroup L tcp_any 1 with
  | Except.error (narg, msg) => Outcome.error narg msg L
  | Except.ok tcp => opt_meth_getoption env L tcp_optget (L.tcp tcp).sock

/-- The method `tcp_meth_setoption`. -/
def tcp_meth_setoption (env : Env) (L : lua_State) : Outcome :=
  match auxiliar_checkgroup L tcp_any 1 with
  | Except.error (narg, msg) => Outcome.error narg msg L
  | Except.ok tcp => opt_meth_setoption env L tcp_optset (L.tcp tcp).sock

/-- The method `tcp_meth_getfd`. -/
def tcp_meth_getfd (L : lua_State) : Outcome :=
  match auxiliar_checkgroup L tcp_any 1 with
  | Except.error (narg, msg) => Outcome.error narg msg L
  | Except.ok tcp => Outcome.ret 1 (lua_pushnumber L (L.tcp tcp).sock)

/-- The method `tcp_meth_setfd`. -/
def tcp_meth_setfd (env : Env) (L : lua_State) : Outcome :=
  match auxiliar_checkgroup L tcp_any 1 with
  | Except.error (narg, msg) => Outcome.error narg msg L
  | Except.ok tcp =>
  match luaL_checknumber env L 2 with
  | Except.error (narg, msg) => Outcome.error narg msg L
  | Except.ok fd => Outcome.ret 0 (L.modTcp tcp (fun t => { t with sock := fd }))

/-- The method `tcp_meth_dirty`. -/
def tcp_meth_dirty (L : lua_State) : Outcome :=
  match auxiliar_checkgroup L tcp_any 1 with
  | Except.error (narg, msg) => Outcome.error narg msg L
  | Except.ok tcp => Outcome.ret 1 (lua_pushboolean L (!buffer_isempty (L.tcp tcp).buf))

/-- The method `tcp_meth_getfamily`. -/
def tcp_meth_getfamily (L : lua_State) : Outcome :=
  match auxiliar_checkgroup L tcp_any 1 with
  | Except.error (narg, msg) => Outcome.error narg msg L
  | Except.ok tcp =>
      if (L.tcp tcp).family = PF_INET6 then Outcome.ret 1 (lua_pushstring L "inet6")
      else Outcome.ret 1 (lua_pushstring L "inet4")

/-- The method `tcp_meth_getpeername`. -/
def tcp_meth_getpeername (env : Env) (L : lua_State) : Outcome :=
  match auxiliar_checkgroup L tcp_any 1 with
  | Except.error (narg, msg) => Outcome.error narg msg L
  | Except.ok tcp =>
      (env.inet_meth_getpeername L.calls (L.tcp tcp).sock (L.tcp tcp).family).finish
        (L.log (Call.inet_meth_getpeername (L.tcp tcp).sock (L.tcp tcp).family))

/-- The method `tcp_meth_getsockname`. -/
def tcp_meth_getsockname (env : Env) (L : lua_State) : Outcome :=
  match auxiliar_checkgroup L tcp_any 1 with
  | Except.error (narg, msg) => Outcome.error narg msg L
  | Except.ok tcp =>
      (env.inet_meth_getsockname L.calls (L.tcp tcp).sock (L.tcp tcp).family).finish
        (L.log (Call.inet_meth_getsockname (L.tcp tcp).sock (L.tcp tcp).family))

/-- The method `tcp_meth_settimeout`. -/
def tcp_meth_settimeout (env : Env) (L : lua_State) : Outcome :=
  match auxiliar_checkgroup L tcp_any 1 with
  | Except.error (narg, msg) => Outcome.error narg msg L
  | Except.ok tcp => timeout_meth_settimeout env L tcp

/-! ## `tcp.cpp`: library functions -/

/-- The function `tcp_create`. -/
def tcp_create (env : Env) (L : lua_State) (family : Int) : Outcome :=
  let r := env.inet_trycreate L.calls family SOCK_STREAM
  let L1 := L.log (Call.inet_trycreate family SOCK_STREAM)
  let sock := r.2
  match r.1 with
  | none =>
      let tcp := (lua_newuserdata L1).1
      let L2 := (lua_newuserdata L1).2
      let L3 := L2.setTcp tcp t_tcp.zero
      let L4 := auxiliar_setclass L3 tcp_master (-1)
      let L5 := socket_setnonblocking L4 sock
      let L6 := if family = PF_INET6 then L5.log (Call.setsockopt sock IPPROTO_IPV6 IPV6_V6ONLY 1)
                else L5
      let L7 := L6.modTcp tcp (fun t => { t with sock := sock })
      let L8 := io_init L7 tcp IoFn.socket_send IoFn.socket_recv IoFn.socket_ioerror tcp
      let L9 := timeout_init L8 tcp (-1) (-1)
      let L10 := buffer_init env L9 tcp tcp tcp
      let L11 := L10.modTcp tcp (fun t => { t with family := family })
      Outcome.ret 1 L11
  | some err => Outcome.ret 2 (lua_pushstring (lua_pushnil L1) err)

/-- The function `tcp_global_create`. -/
def tcp_global_create (env : Env) (L : lua_State) : Outcome := tcp_create env L AF_INET

/-- The function `tcp_global_create6`. -/
def tcp_global_create6 (env : Env) (L : lua_State) : Outcome := tcp_create env L AF_INET6

/-- The function `tcp_global_connect`. -/
def tcp_global_connect (env : Env) (L : lua_State) : Outcome :=
  match luaL_checkstring env L 1 with
  | Except.error (narg, msg) => Outcome.error narg msg L
  | Except.ok (remoteaddr, La) =>
  match luaL_checkstring env La 2 with
  | Except.error (narg, msg) => Outcome.error narg msg La
  | Except.ok (remoteserv, Lb) =>
  match luaL_optstring env Lb 3 none with
  | Except.error (narg, msg) => Outcome.error narg msg Lb
  | Except.ok (localaddr, Lc) =>
  match luaL_optstring env Lc 4 (some "0") with
  | Except.error (narg, msg) => Outcome.error narg msg Lc
  | Except.ok (localserv, Ld) =>
  match inet_optfamily env Ld 5 "unspec" with
  | Except.error (narg, msg) => Outcome.error narg msg Ld
  | Except.ok (family, Le) =>
      let tcp := (lua_newuserdata Le).1
      let L1 := (lua_newuserdata Le).2
      let L2 := L1.setTcp tcp t_tcp.zero
      let L3 := io_init L2 tcp IoFn.socket_send IoFn.socket_recv IoFn.socket_ioerror tcp
      let L4 := timeout_init L3 tcp (-1) (-1)
      let L5 := buffer_init env L4 tcp tcp tcp
      let L6 := L5.modTcp tcp (fun t => { t with sock := SOCKET_INVALID })
      let L7 := L6.modTcp tcp (fun t => { t with family := PF_UNSPEC })
      let bindhints : addrinfo := bindhints_for family
      let connect (L8 : lua_State) (bindhints : addrinfo) : Outcome :=
        let connecthints : addrinfo := connecthints_for bindhints.ai_family
        let r := env.inet_tryconnect L8.calls (L8.tcp tcp).sock (L8.tcp tcp).family remoteaddr
          remoteserv (L8.tcp tcp).tm connecthints
        let L9 := (L8.log (Call.inet_tryconnect (L8.tcp tcp).sock (L8.tcp tcp).family remoteaddr
          remoteserv (L8.tcp tcp).tm connecthints)).modTcp tcp
          (fun t => { t with sock := r.2.1, family := r.2.2.1, tm := r.2.2.2 })
        match r.1 with
        | some err => Outcome.ret 2 (lua_pushstring (lua_pushnil (socket_destroy L9 tcp)) err)
        | none => Outcome.ret 1 (auxiliar_setclass L9 tcp_client (-1))
      match localaddr with
      | some localaddr =>
          let b := env.inet_trybind L7.calls (L7.tcp tcp).sock localaddr (localserv.getD "0")
            bindhints
          let L8 := (L7.log (Call.inet_trybind (L7.tcp tcp).sock localaddr (localserv.getD "0")
            bindhints)).modTcp tcp (fun t => { t with sock := b.2.1 })
          match b.1 with
          | some err => Outcome.ret 2 (lua_pushstring (lua_pushnil L8) err)
          | none => connect (L8.modTcp tcp (fun t => { t with family := b.2.2.ai_family })) b.2.2
      | none => connect L7 bindhints

/-- The values a call hands back to Lua: the topmost `nresults` values of the
stack when it returns, nothing when it raises an error. -/
def Outcome.results : Outcome → Option (List LuaValue)
  | Outcome.ret n L => some (L.stack.drop (L.stack.length - n))
  | Outcome.error _ _ _ => none

/-- The state a call ends in. -/
def Outcome.state : Outcome → lua_State
  | Outcome.ret _ L => L
  | Outcome.error _ _ L => L


/-! ## Properties -/

/-- The two-value convention for a call whose underlying operation ended
with the error `err` (`none` for success): on success exactly one value, not
nil, is returned; on failure exactly nil and the message. -/
def Outcome.obeys (o : Outcome) (err : Option String) : Prop :=
  match err with
  | none => ∃ v, v ≠ LuaValue.nil ∧ o.results = some [v]
  | some msg => o.results = some [LuaValue.nil, LuaValue.string msg]

/-- A ready client is handed back: the only value returned is the object
`ref`, tagged "client". -/
def Outcome.readyClient (o : Outcome) (ref : Nat) : Prop :=
  o.results = some [LuaValue.userdata ref] ∧ o.state.classOf ref = some tcp_client

/-- A failure is handed back: nil and the message are returned, and the
object `ref` has no class. -/
def Outcome.failedWith (o : Outcome) (ref : Nat) (msg : String) : Prop :=
  o.results = some [LuaValue.nil, LuaValue.string msg] ∧ o.state.classOf ref = none

/-- What `socket_destroy` logs when applied to a descriptor: the call itself
and, for a live descriptor, its one release. -/
def destroyCalls (sock : Int) : List Call :=
  Call.socket_destroy sock :: (if sock ≠ SOCKET_INVALID then [Call.close sock] else [])

/-- The timeout record of a fresh object: no block and no total timeout. -/
def noTimeout : t_timeout := { block := -1, total := -1, start := 0 }

/-- The bind attempt of the connect factory: what `inet_trybind` answers for
the fresh object (no descriptor yet) after the calls `calls`. -/
def factoryBind (env : Env) (calls : List Call) (localaddr localserv : String) (family : Int) :
    Option String × Int × addrinfo :=
  env.inet_trybind calls SOCKET_INVALID localaddr localserv (bindhints_for family)

/-- The connect attempt of the connect factory when no local host is given:
what `inet_tryconnect` answers for the fresh object after the calls `calls`. -/
def factoryDirectConnect (env : Env) (calls : List Call) (remoteaddr remoteserv : String)
    (family : Int) : Option String × Int × Int × t_timeout :=
  env.inet_tryconnect calls SOCKET_INVALID PF_UNSPEC remoteaddr remoteserv noTimeout
    (connecthints_for family)

/-- The connect attempt of the connect factory after a successful local bind:
what `inet_tryconnect` answers for the descriptor and the family the bind left. -/
def factoryBoundConnect (env : Env) (calls : List Call) (remoteaddr remoteserv : String)
    (localaddr localserv : String) (family : Int) : Option String × Int × Int × t_timeout :=
  env.inet_tryconnect
    (calls ++ [Call.inet_trybind SOCKET_INVALID localaddr localserv (bindhints_for family)])
    (factoryBind env calls localaddr localserv family).2.1
    (factoryBind env calls localaddr localserv family).2.2.ai_family
    remoteaddr remoteserv noTimeout
    (connecthints_for (factoryBind env calls localaddr localserv family).2.2.ai_family)

/-- The error of the operations underlying the connect factory, if any: the
error of the local bind when a local host is given and the bind fails, and the
error of the remote connect otherwise; `none` when the bind (if requested) and
the connect both succeed. -/
def factoryVerdict (env : Env) (calls : List Call) (remoteaddr remoteserv : String)
    (localaddr : Option String) (localserv : String) (family : Int) : Option String :=
  match localaddr with
  | none => (factoryDirectConnect env calls remoteaddr remoteserv family).1
  | some la =>
      match (factoryBind env calls la localserv family).1 with
      | some msg => some msg
      | none => (factoryBoundConnect env calls remoteaddr remoteserv la localserv family).1

/-- The number of descriptor releases in a log. -/
def releases (calls : List Call) : Nat :=
  (calls.filter (fun c => match c with
    | Call.close _ => true
    | _ => false)).length

/-- The state at the entry of a later call: the heap and the log are kept,
the stack holds the arguments of the new call. -/
def lua_State.call (L : lua_State) (args : List LuaValue) : lua_State :=
  { L with stack := args }

/-- The operations a caller may apply to an object once it has been closed. -/
inductive Operation where
  | connect
  | bind
  | listen
  | accept
  | send
  | receive
  | shutdown
  | setfd
  | setoption
  | settimeout
  | close
  deriving DecidableEq

/-- The method behind an operation. -/
def Operation.run (op : Operation) (env : Env) (L : lua_State) : Outcome :=
  match op with
  | Operation.connect => tcp_meth_connect env L
  | Operation.bind => tcp_meth_bind env L
  | Operation.listen => tcp_meth_listen env L
  | Operation.accept => tcp_meth_accept env L
  | Operation.send => tcp_meth_send env L
  | Operation.receive => tcp_meth_receive env L
  | Operation.shutdown => tcp_meth_shutdown env L
  | Operation.setfd => tcp_meth_setfd env L
  | Operation.setoption => tcp_meth_setoption env L
  | Operation.settimeout => tcp_meth_settimeout env L
  | Operation.close => tcp_meth_close L

/-- The operations that only hand the descriptor of the object to the layers
below: all but setfd, connect and bind, which store a descriptor. -/
def Operation.passesDescriptor (op : Operation) : Bool :=
  match op with
  | Operation.setfd => false
  | Operation.connect => false
  | Operation.bind => false
  | _ => true

/-- A sequence of method calls on the object `ref`, each with its own further
arguments, one after the other: every call starts from the heap and the log
the previous one ended with. -/
def runOperations (env : Env) (ref : Nat) : lua_State → List (Operation × List LuaValue) →
    lua_State
  | L, [] => L
  | L, (op, args) :: rest =>
      runOperations env ref (op.run env (L.call (LuaValue.userdata ref :: args))).state rest

/-- The object `ref` exists and holds no live descriptor. -/
def lua_State.closedAt (L : lua_State) (ref : Nat) : Prop :=
  ref < L.udata.length ∧ (L.tcp ref).sock = SOCKET_INVALID

/-- A freshly initialised buffer record owned by object `ref`, created at
time `now`: empty cursors, zero byte counters, wired to the I/O table and
the timeout record of `ref`. -/
def freshBuffer (ref : Nat) (now : Int) : t_buffer :=
  { birthday := now, sent := 0, received := 0, io := some ref, tm := some ref,
    first := 0, last := 0 }

/-- The I/O table of object `ref` as its constructors set it: the socket send,
receive and error-translate functions over the `sock` field of `ref` itself. -/
def ownIo (ref : Nat) : t_io :=
  { ctx := some ref, send := IoFn.socket_send, recv := IoFn.socket_recv,
    error := IoFn.socket_ioerror }

/-- The C function behind an entry of `tcp_methods` or `tcp_func`, applied to
the state of a call.  `auxiliar_tostring` lives in `auxiliar.c` and has no
model. -/
def CFunction.run (f : CFunction) (env : Env) (L : lua_State) : Option Outcome :=
  match f with
  | CFunction.tcp_global_create => some (Luasocket.tcp_global_create env L)
  | CFunction.tcp_global_create6 => some (Luasocket.tcp_global_create6 env L)
  | CFunction.tcp_global_connect => some (Luasocket.tcp_global_connect env L)
  | CFunction.tcp_meth_connect => some (Luasocket.tcp_meth_connect env L)
  | CFunction.tcp_meth_listen => some (Luasocket.tcp_meth_listen env L)
  | CFunction.tcp_meth_getfamily => some (Luasocket.tcp_meth_getfamily L)
  | CFunction.tcp_meth_bind => some (Luasocket.tcp_meth_bind env L)
  | CFunction.tcp_meth_send => some (Luasocket.tcp_meth_send env L)
  | CFunction.tcp_meth_getstats => some (Luasocket.tcp_meth_getstats env L)
  | CFunction.tcp_meth_setstats => some (Luasocket.tcp_meth_setstats env L)
  | CFunction.tcp_meth_getsockname => some (Luasocket.tcp_meth_getsockname env L)
  | CFunction.tcp_meth_getpeername => some (Luasocket.tcp_meth_getpeername env L)
  | CFunction.tcp_meth_shutdown => some (Luasocket.tcp_meth_shutdown env L)
  | CFunction.tcp_meth_receive => some (Luasocket.tcp_meth_receive env L)
  | CFunction.tcp_meth_accept => some (Luasocket.tcp_meth_accept env L)
  | CFunction.tcp_meth_close => some (Luasocket.tcp_meth_close L)
  | CFunction.tcp_meth_getoption => some (Luasocket.tcp_meth_getoption env L)
  | CFunction.tcp_meth_setoption => some (Luasocket.tcp_meth_setoption env L)
  | CFunction.tcp_meth_settimeout => some (Luasocket.tcp_meth_settimeout env L)
  | CFunction.tcp_meth_getfd => some (Luasocket.tcp_meth_getfd L)
  | CFunction.tcp_meth_setfd => some (Luasocket.tcp_meth_setfd env L)
  | CFunction.tcp_meth_dirty => some (Luasocket.tcp_meth_dirty L)
  | CFunction.auxiliar_tostring => none

/-- A frame property: every object of `L` is still there in `L'`, and what `g`
sees of its class and payload is the same. -/
def lua_State.keeps {α : Type} (g : Option String × t_tcp → α) (L L' : lua_State) : Prop :=
  L.udata.length ≤ L'.udata.length ∧
  ∀ r, r < L.udata.length → g (L'.classOf r, L'.tcp r) = g (L.classOf r, L.tcp r)

/-- The hints of a bind on an object of family `family`, field by field. -/
def passiveStreamHints (family : Int) : addrinfo :=
  { ai_flags := AI_PASSIVE, ai_family := family, ai_socktype := SOCK_STREAM, ai_protocol := 0,
    ai_addrlen := 0, ai_addr := 0, ai_canonname := 0, ai_next := 0 }

/-! ## Sample inputs -/

/-- Decimal reading of a string of digits. -/
def decimal (s : String) : Option Int :=
  if s.data ≠ [] ∧ s.data.all Char.isDigit then
    some (s.data.foldl (fun n c => 10 * n + ((c.toNat : Int) - 48)) 0)
  else none

/-- An environment in which every operation of the layers below succeeds:
sockets are created with descriptor 3, accepted with descriptor 4, and bind
and connect leave descriptor and family as they find them, creating
descriptor 6 when there is none. -/
def sampleEnv : Env :=
  { lua_number2str := fun n => toString n
    lua_str2number := decimal
    timeout_gettime := fun _ => 100
    socket_strerror := fun _ => "address already in use"
    inet_trycreate := fun _ _ _ => (none, 3)
    inet_trybind := fun _ sock _ _ hints => (none, if sock = SOCKET_INVALID then 6 else sock, hints)
    inet_tryconnect := fun _ sock family _ _ tm _ =>
      (none, if sock = SOCKET_INVALID then 6 else sock, family, tm)
    inet_tryaccept := fun _ _ _ _ => (none, 4)
    socket_listen := fun _ _ _ => IO_DONE
    buffer_meth_send := fun _ _ t => { raised := none, pushed := [], nresults := 0,
                                       buf := t.buf, tm := t.tm }
    buffer_meth_receive := fun _ _ t => { raised := none, pushed := [], nresults := 0,
                                          buf := t.buf, tm := t.tm }
    buffer_meth_getstats := fun _ _ t => { raised := none, pushed := [], nresults := 0,
                                           buf := t.buf, tm := t.tm }
    buffer_meth_setstats := fun _ _ t => { raised := none, pushed := [], nresults := 0,
                                           buf := t.buf, tm := t.tm }
    opt_handler := fun _ _ _ _ => { raised := none, pushed := [], nresults := 0 }
    inet_meth_getpeername := fun _ _ _ => { raised := none, pushed := [], nresults := 0 }
    inet_meth_getsockname := fun _ _ _ => { raised := none, pushed := [], nresults := 0 } }

/-- The sample environment with every remote connect refused; a refused
connect leaves the descriptor it opened (descriptor 6 when there was none). -/
def refusingEnv : Env :=
  { sampleEnv with
    inet_tryconnect := fun _ sock family _ _ tm _ =>
      (some "connection refused", if sock = SOCKET_INVALID then 6 else sock, family, tm) }

/-- The sample environment with every bind failing; a failed bind leaves the
descriptor and the hints as it found them. -/
def unbindableEnv : Env :=
  { sampleEnv with
    inet_trybind := fun _ sock _ _ hints => (some "address already in use", sock, hints) }

/-- The sample environment with listen failing with code 98. -/
def deafEnv : Env := { sampleEnv with socket_listen := fun _ _ _ => 98 }

/-- The sample environment with socket creation and accept failing. -/
def exhaustedEnv : Env :=
  { sampleEnv with
    inet_trycreate := fun _ _ _ => (some "too many open files", SOCKET_INVALID)
    inet_tryaccept := fun _ _ _ _ => (some "timeout", SOCKET_INVALID) }

/-- A live IPv4 object of class `cls`, descriptor 5, without timeouts. -/
def sampleObject (cls : String) (sock : Int) : Udata :=
  { meta := some cls
    tcp := { sock := sock
             io := { ctx := some 0, send := IoFn.socket_send, recv := IoFn.socket_recv,
                     error := IoFn.socket_ioerror }
             buf := { birthday := 0, sent := 0, received := 0, io := some 0, tm := some 0,
                      first := 0, last := 0 }
             tm := { block := -1, total := -1, start := 0 }
             family := AF_INET } }

/-- The state at the entry of a method call on the only object of the heap, an
object of class `cls` with descriptor `sock`, with further arguments `args`. -/
def methodCall (cls : String) (sock : Int) (args : List LuaValue) : lua_State :=
  { stack := LuaValue.userdata 0 :: args, udata := [sampleObject cls sock], calls := [] }

/-- The state at the entry of a library function call with arguments `args`
on an empty heap. -/
def functionCall (args : List LuaValue) : lua_State :=
  { stack := args, udata := [], calls := [] }

end Luasocket

/-! The script binding of objects and delegates (`Public/LuaObject.h`,
`Private/LuaDelegate.cpp`).

A shallow embedding of the userdata tagging and of the single-cast delegate
wrapper.  The state is explicit: the Lua value stack of the running call,
the heaps of full userdata and tables, and the C++ objects the code touches
(wrapper records, script delegates, `ULuaDelegate` objects, the table of
referenced objects, the addresses handed to `delete`).  A null pointer is the
address `0`.  A function either returns a value (`Res.ok`), raises a Lua
error (`Res.error`) in the state it raised in, or dereferences a pointer it
must not (`Res.fault`).
-/

namespace Slua

/-! ## `LuaObject.h`: userdata flags

The flag macros are written without parentheses (`#define UD_HADFREE 1<<2`).
In every expression modelled below (`flag & UD_X`, `flag |= UD_X`,
`UD_X | UD_Y`, `F|UD_AUTOGC`) the shift binds tighter than the operator
around it, so each macro stands for the value given here. -/

/-- No flag. -/
def UD_NOFLAG : Nat := 0

/-- The userdata is collected through `__gc` and maintained by Lua. -/
def UD_AUTOGC : Nat := 1

/-- The userdata had been freed. -/
def UD_HADFREE : Nat := 1 <<< 2

/-- The userdata holds a `TSharedPtr` box instead of a raw pointer. -/
def UD_SHAREDPTR : Nat := 1 <<< 3

/-- The userdata holds a `TSharedRef` box instead of a raw pointer. -/
def UD_SHAREDREF : Nat := 1 <<< 4

/-- The boxed shared pointer is thread-safe. -/
def UD_THREADSAFEPTR : Nat := 1 <<< 5

/-- The userdata holds a `UObject`. -/
def UD_UOBJECT : Nat := 1 <<< 6

/-- The userdata holds a `UStruct`. -/
def UD_USTRUCT : Nat := 1 <<< 7

/-- The userdata holds a weak `UObject` pointer box. -/
def UD_WEAKUPTR : Nat := 1 <<< 8

/-- The userdata is a reference. -/
def UD_REFERENCE : Nat := 1 <<< 9

/-- Lua type tag of an unacceptable index. -/
def LUA_TNONE : Int := -1

/-- Lua type tag of nil. -/
def LUA_TNIL : Int := 0

/-- Lua type tag of booleans. -/
def LUA_TBOOLEAN : Int := 1

/-- Lua type tag of light userdata. -/
def LUA_TLIGHTUSERDATA : Int := 2

/-- Lua type tag of numbers. -/
def LUA_TNUMBER : Int := 3

/-- Lua type tag of strings. -/
def LUA_TSTRING : Int := 4

/-- Lua type tag of tables. -/
def LUA_TTABLE : Int := 5

/-- Lua type tag of functions. -/
def LUA_TFUNCTION : Int := 6

/-- Lua type tag of full userdata. -/
def LUA_TUSERDATA : Int := 7

/-- The field an exported Lua table keeps its C++ instance in. -/
def SLUA_CPPINST : String := "__cppinst"

/-! ## Data model -/

/-- A pointer to an engine object: null, the `i`-th `ULuaDelegate` made by
`NewObject`, or some other object. -/
inductive UObjectPtr where
  | null
  | luaDelegate (i : Nat)
  | other (p : Nat)
  deriving DecidableEq

/-- A value on the Lua stack.  Full userdata and tables are references into
the heaps of the state; a light userdata carries an engine pointer. -/
inductive Value where
  | nil
  | boolean (b : Bool)
  | number (n : Int)
  | string (s : String)
  | lightuserdata (p : UObjectPtr)
  | function (f : Nat)
  | userdata (ref : Nat)
  | table (ref : Nat)
  deriving DecidableEq

/-- A metatable, as far as the code looks at it: the name it is registered
under in the registry (what `luaL_testudata` compares) and its `__name`
field (nil when absent). -/
structure Metatable where
  registry : Option String
  name : Value
  deriving DecidableEq

/-- A full userdata: the `UserData<T>` block (`UDBase` and the boxed pointer,
`0` being the null pointer) and its metatable. -/
structure UserData where
  flag : Nat
  parent : Nat
  ud : Nat
  meta : Option Metatable
  deriving DecidableEq

/-- A Lua table, as far as the code looks at it: the field `__cppinst` (nil
when absent) and its metatable. -/
structure Table where
  cppinst : Value
  meta : Option Metatable
  deriving DecidableEq

/-- The object `ULuaDelegate`: its Lua function object and its signature
function, `0` being the null pointer. -/
structure ULuaDelegate where
  luafunction : Nat
  ufunction : Nat
  deriving DecidableEq

/-- The record `LuaDelegateWrap`: the address of the script delegate it wraps
and the signature function. -/
structure LuaDelegateWrap where
  delegate : Nat
  ufunc : Nat
  deriving DecidableEq

/-- The engine's `FScriptDelegate`: the object and function it is bound to. -/
structure FScriptDelegate where
  object : UObjectPtr
  functionName : String
  deriving DecidableEq

/-- The state a Lua C function of the binding works on: the value stack of the
running call, the heaps of full userdata and of tables, and the C++ side: the
wrapper records, the script delegates, the `ULuaDelegate` objects (an object
at address `a > 0` of its kind is entry `a - 1` of its list), the table of
objects referenced on behalf of Lua, the number of `LuaVar` objects made so
far (they get the addresses `1, 2, ...`), and the log of the addresses handed
to `delete`. -/
structure lua_State where
  stack : List Value
  udata : List UserData
  tables : List Table
  wraps : List LuaDelegateWrap
  delegates : List FScriptDelegate
  objects : List ULuaDelegate
  refs : List UObjectPtr
  vars : Nat
  deleted : List Nat
  deriving DecidableEq

/-- What `lua_touserdata` and `luaL_testudata` hand back: null, the block of a
full userdata, or the address a light userdata carries (not a block). -/
inductive Pointer where
  | null
  | block (ref : Nat)
  | raw
  deriving DecidableEq

/-- An error raised through `luaL_error` or `luaL_checktype`, by its format. -/
inductive LuaError where
  | hadBeenFreed (arg : Int) (ud : Nat)
  | expectUserdataAt (p : Int)
  | expectUserdata (expected : String) (got : Option String)
  | typeExpected (arg : Int) (tag : Int)
  deriving DecidableEq

/-- How a piece of code ends: it returns a value, raises a Lua error, runs
into undefined behaviour (a null or wild pointer is dereferenced), or the
model runs out of fuel. -/
inductive Res (α : Type) where
  | ok (a : α) (L : lua_State)
  | error (e : LuaError) (L : lua_State)
  | fault
  | exhausted
  deriving DecidableEq

/-- The template argument `T` of `checkUD`, as far as overload resolution and
the code look at it. -/
inductive TypeKind where
  | uobject
  | uobjectChild
  | plain
  deriving DecidableEq

/-- The template argument `T`: which `testudata` overload it selects, the
string `TypeName<T>::value()`, the string `T::StaticClass()->GetName()`, and
whether `T` derives from `TSharedFromThis<T>`. -/
structure TypeDesc where
  kind : TypeKind
  typeName : String
  className : String
  sharedFromThis : Bool
  deriving DecidableEq

/-- Outcomes of everything that lives outside the sources at hand. -/
structure Env where
  /-- Lua's number-to-string conversion. -/
  lua_number2str : Int → String
  /-- The engine's `Cast<T>` on an object address. -/
  Cast : TypeDesc → Nat → Nat
  /-- Whether the weak pointer in the box at an address is valid. -/
  weakIsValid : Nat → Bool
  /-- The object the weak pointer in the box at an address refers to. -/
  weakGet : Nat → Nat
  /-- The raw pointer of the shared pointer or reference in the box at an
  address. -/
  sharedGet : Nat → Nat
  /-- The engine's `FString::Find`. -/
  Find : String → String → Int
  /-- The function `LuaObject::isBaseTypeOf` (in `LuaObject.cpp`). -/
  isBaseTypeOf : Option String → String → Bool
  /-- The metatable `LuaObject::setupMetaTable` (in `LuaObject.cpp`) attaches
  for a type name. -/
  metatableOf : String → Metatable

/-! ## The Lua API used by the binding -/

/-- The value at a stack index: positive indices count from the bottom,
negative ones from the top; anything else is "none". -/
def lua_State.index (L : lua_State) (idx : Int) : Option Value :=
  if 0 < idx then L.stack[idx.toNat - 1]?
  else if idx < 0 ∧ (-idx).toNat ≤ L.stack.length then
    L.stack[L.stack.length - (-idx).toNat]?
  else none

/-- Push a value. -/
def lua_State.push (L : lua_State) (v : Value) : lua_State :=
  { L with stack := L.stack ++ [v] }

/-- Dereference a block pointer. -/
def lua_State.ud (L : lua_State) (ref : Nat) : UserData :=
  L.udata.getD ref { flag := 0, parent := 0, ud := 0, meta := none }

/-- Write through a block pointer. -/
def lua_State.modUd (L : lua_State) (ref : Nat) (f : UserData → UserData) : lua_State :=
  { L with udata := L.udata.set ref (f (L.ud ref)) }

/-- Model of `lua_absindex`. -/
def lua_absindex (L : lua_State) (idx : Int) : Int :=
  if 0 < idx then idx else (L.stack.length : Int) + idx + 1

/-- The Lua type tag of a value. -/
def Value.tag : Value → Int
  | Value.nil => LUA_TNIL
  | Value.boolean _ => LUA_TBOOLEAN
  | Value.lightuserdata _ => LUA_TLIGHTUSERDATA
  | Value.number _ => LUA_TNUMBER
  | Value.string _ => LUA_TSTRING
  | Value.table _ => LUA_TTABLE
  | Value.function _ => LUA_TFUNCTION
  | Value.userdata _ => LUA_TUSERDATA

/-- Model of `lua_type`. -/
def lua_type (L : lua_State) (idx : Int) : Int :=
  match L.index idx with
  | none => LUA_TNONE
  | some v => v.tag

/-- Model of `lua_isnil`. -/
def lua_isnil (L : lua_State) (idx : Int) : Bool := lua_type L idx = LUA_TNIL

/-- Model of `lua_istable`. -/
def lua_istable (L : lua_State) (idx : Int) : Bool := lua_type L idx = LUA_TTABLE

/-- Model of `lua_isuserdata`: true of full and of light userdata. -/
def lua_isuserdata (L : lua_State) (idx : Int) : Bool :=
  lua_type L idx = LUA_TUSERDATA ∨ lua_type L idx = LUA_TLIGHTUSERDATA

/-- Model of `lua_pushnil`. -/
def lua_pushnil (L : lua_State) : lua_State := L.push Value.nil

/-- Model of `lua_pushlightuserdata`. -/
def lua_pushlightuserdata (L : lua_State) (p : UObjectPtr) : lua_State :=
  L.push (Value.lightuserdata p)

/-- Model of `lua_pop(L, 1)`. -/
def lua_pop (L : lua_State) : lua_State := { L with stack := L.stack.dropLast }

/-- Model of `lua_gettop`. -/
def lua_gettop (L : lua_State) : Nat := L.stack.length

/-- Model of `lua_settop` for a non-negative index: the stack is cut, or
filled with nil, to the given height. -/
def lua_settop (L : lua_State) (top : Nat) : lua_State :=
  { L with stack := L.stack.take top ++ List.replicate (top - L.stack.length) Value.nil }

/-- Model of `lua_touserdata`. -/
def lua_touserdata (L : lua_State) (idx : Int) : Pointer :=
  match L.index idx with
  | some (Value.userdata ref) => Pointer.block ref
  | some (Value.lightuserdata _) => Pointer.raw
  | _ => Pointer.null

/-- Model of `lua_tostring(L, -1)`: a string is handed back, a number is
converted in place, anything else gives `NULL`. -/
def lua_tostring (env : Env) (L : lua_State) : Option String × lua_State :=
  match L.index (-1) with
  | some (Value.string s) => (some s, L)
  | some (Value.number n) =>
      (some (env.lua_number2str n),
       { L with stack := L.stack.dropLast ++ [Value.string (env.lua_number2str n)] })
  | _ => (none, L)

/-- The metatable of the value at a stack index; only full userdata and
tables carry one in this model. -/
def lua_State.metatable (L : lua_State) (idx : Int) : Option Metatable :=
  match L.index idx with
  | some (Value.userdata ref) => (L.ud ref).meta
  | some (Value.table ref) =>
      match L.tables[ref]? with
      | some t => t.meta
      | none => none
  | _ => none

/-- Model of `luaL_testudata`: the block of the full userdata at the index if
its metatable is the one registered under `tname`, null otherwise. -/
def luaL_testudata (L : lua_State) (idx : Int) (tname : String) : Pointer :=
  match L.index idx with
  | some (Value.userdata ref) =>
      match (L.ud ref).meta with
      | some m => if m.registry = some tname then Pointer.block ref else Pointer.null
      | none => Pointer.null
  | _ => Pointer.null

/-- Model of `luaL_getmetafield(L, idx, "__name")`: when the value has a
metatable with a non-nil `__name`, the field is pushed and its type tag
returned; otherwise nothing is pushed and `LUA_TNIL` is returned. -/
def luaL_getmetafield_name (L : lua_State) (idx : Int) : Int × lua_State :=
  match L.metatable idx with
  | some m => if m.name = Value.nil then (LUA_TNIL, L) else (m.name.tag, L.push m.name)
  | none => (LUA_TNIL, L)

/-- Model of `lua_getfield(L, idx, SLUA_CPPINST)` on a table, without
metamethods: the field, or nil, is pushed. -/
def lua_getfield_cppinst (L : lua_State) (idx : Int) : lua_State :=
  match L.index idx with
  | some (Value.table ref) =>
      match L.tables[ref]? with
      | some t => L.push t.cppinst
      | none => L.push Value.nil
  | _ => L.push Value.nil

/-- Model of `lua_newuserdata`: a fresh block without metatable, pushed on the
stack; its fields are whatever the code writes next. -/
def lua_newuserdata (L : lua_State) : Nat × lua_State :=
  (L.udata.length,
   { L with udata := L.udata ++ [{ flag := 0, parent := 0, ud := 0, meta := none }],
            stack := L.stack ++ [Value.userdata L.udata.length] })

/-- Model of `luaL_checktype`. -/
def luaL_checktype (L : lua_State) (arg : Int) (t : Int) : Option LuaError :=
  if lua_type L arg ≠ t then some (LuaError.typeExpected arg t) else none

/-! ## Helpers that are not part of the sources at hand -/

/-- Modelled from the spec: `SafeDelete` (in `SluaUtil.h`, not part of the
sources at hand), on a pointer variable holding `ptr`: the object it points
to, if any, is deleted, and the variable is left null.  A disposed delegate
is unbound, and the destructor of `ULuaDelegate` applies `SafeDelete` to the
same member again after `dispose`. -/
def SafeDelete (ptr : Nat) (deleted : List Nat) : Nat × List Nat :=
  (0, if ptr ≠ 0 then deleted ++ [ptr] else deleted)

/-- Modelled from the spec: `LuaObject::setupMetaTable` (in `LuaObject.cpp`,
not part of the sources at hand), in its three overloads: the userdata on
top of the stack gets the metatable of the type name `tn`. -/
def setupMetaTable (env : Env) (L : lua_State) (tn : String) : lua_State :=
  match L.index (-1) with
  | some (Value.userdata ref) => L.modUd ref (fun u => { u with meta := some (env.metatableOf tn) })
  | _ => L

/-- Modelled from the spec: `LuaObject::addRef` (in `LuaObject.cpp`, not part
of the sources at hand): the object is entered in the table of referenced
objects. -/
def addRef (L : lua_State) (obj : UObjectPtr) : lua_State :=
  { L with refs := if obj ∈ L.refs then L.refs else L.refs ++ [obj] }

/-- Modelled from the spec: `LuaObject::removeRef` (in `LuaObject.cpp`, not
part of the sources at hand): the object is taken out of the table of
referenced objects. -/
def removeRef (L : lua_State) (obj : UObjectPtr) : lua_State :=
  { L with refs := L.refs.filter (fun o => o ≠ obj) }

/-- The engine's `NewObject<ULuaDelegate>`: a new object, built by the
constructor `ULuaDelegate::ULuaDelegate`, at the next address. -/
def NewObject (L : lua_State) (made : ULuaDelegate) : UObjectPtr × lua_State :=
  (UObjectPtr.luaDelegate L.objects.length, { L with objects := L.objects ++ [made] })

/-! ## `LuaObject.h`: checking a userdata -/

/-- The method `WeakUObjectUD::get` on the box at address `box`. -/
def WeakUObjectUD.get (env : Env) (box : Nat) : Nat :=
  if env.weakIsValid box then env.weakGet box else 0

/-- The macro `CHECK_UD_VALID(ptr)` inside a function with arguments `p` and
`checkfree`: `some r` when the function is left with `r`, `none` when it goes
on. -/
def CHECK_UD_VALID (L : lua_State) (p : Int) (checkfree : Bool) (ptr : Pointer) :
    Option (Res Nat) :=
  match ptr with
  | Pointer.null => none
  | Pointer.raw => some Res.fault
  | Pointer.block ref =>
      if (L.ud ref).flag &&& UD_HADFREE ≠ 0 then
        if checkfree then
          some (Res.error (LuaError.hadBeenFreed (lua_absindex L p) (L.ud ref).ud) L)
        else some (Res.ok 0 L)
      else none

/-- The function `maybeAnUDTable`; `checkUD` is the function called on the
userdata found in the table.  The `AutoStack` object restores the height of
the stack when the block is left by a return. -/
def maybeAnUDTable (checkUD : lua_State → Int → Bool → Res Nat) (L : lua_State) (p : Int)
    (checkfree : Bool) : Res Nat :=
  if lua_istable L p then
    let top := lua_gettop L
    let L1 := lua_getfield_cppinst L p
    if lua_type L1 (-1) = LUA_TUSERDATA then
      match checkUD L1 (lua_absindex L1 (-1)) checkfree with
      | Res.ok t L2 => Res.ok t (lua_settop L2 top)
      | r => r
    else Res.ok 0 (lua_settop L1 top)
  else Res.ok 0 L

/-- The overload of `testudata` for a `T` derived from, but other than,
`UObject`. -/
def testudata_UObjectChild (env : Env) (T : TypeDesc)
    (checkUD : lua_State → Int → Bool → Res Nat) (L : lua_State) (p : Int) (checkfree : Bool) :
    Res Nat :=
  let ptr := luaL_testudata L p "UObject"
  match CHECK_UD_VALID L p checkfree ptr with
  | some r => r
  | none =>
  match (match ptr with
         | Pointer.block ref =>
             if (L.ud ref).flag &&& UD_WEAKUPTR ≠ 0 then
               if (L.ud ref).ud = 0 then none
               else some (env.Cast T (WeakUObjectUD.get env (L.ud ref).ud))
             else some (env.Cast T (L.ud ref).ud)
         | _ => some 0) with
  | none => Res.fault
  | some t =>
      if t = 0 ∧ lua_isuserdata L p then
        let L1 := (luaL_getmetafield_name L p).2
        if lua_isnil L1 (-1) then Res.ok t (lua_pop L1)
        else
          let clsname := ((lua_tostring env L1).1).getD ""
          let L2 := lua_pop (lua_tostring env L1).2
          if env.Find clsname T.className = 1 then
            match lua_touserdata L2 p with
            | Pointer.block ref => Res.ok (L2.ud ref).ud L2
            | Pointer.null => Res.ok 0 L2
            | Pointer.raw => Res.fault
          else Res.ok t L2
      else if t = 0 then maybeAnUDTable checkUD L p checkfree
      else Res.ok t L

/-- The overload of `testudata` for `T = UObject`. -/
def testudata_UObject (env : Env) (checkUD : lua_State → Int → Bool → Res Nat)
    (L : lua_State) (p : Int) (checkfree : Bool) : Res Nat :=
  let ptr := luaL_testudata L p "UObject"
  match CHECK_UD_VALID L p checkfree ptr with
  | some r => r
  | none =>
  match ptr with
  | Pointer.block ref =>
      if (L.ud ref).flag &&& UD_WEAKUPTR ≠ 0 then
        if (L.ud ref).ud = 0 then Res.fault
        else Res.ok (WeakUObjectUD.get env (L.ud ref).ud) L
      else Res.ok (L.ud ref).ud L
  | _ => maybeAnUDTable checkUD L p checkfree

/-- The function `unboxSharedUD`, in its two overloads. -/
def unboxSharedUD (env : Env) (T : TypeDesc) (L : lua_State) (ref : Nat) : Res Nat :=
  if T.sharedFromThis then Res.ok 0 L
  else if (L.ud ref).ud = 0 then Res.fault
  else Res.ok (env.sharedGet (L.ud ref).ud) L

/-- The function `unboxSharedUDRef`. -/
def unboxSharedUDRef (env : Env) (L : lua_State) (ref : Nat) : Res Nat :=
  if (L.ud ref).ud = 0 then Res.fault
  else Res.ok (env.sharedGet (L.ud ref).ud) L

/-- The overload of `testudata` for a `T` that is not a `UObject`. -/
def testudata_plain (env : Env) (T : TypeDesc) (checkUD : lua_State → Int → Bool → Res Nat)
    (L : lua_State) (p : Int) (checkfree : Bool) : Res Nat :=
  let ptr := luaL_testudata L p T.typeName
  match CHECK_UD_VALID L p checkfree ptr with
  | some r => r
  | none =>
  match ptr with
  | Pointer.block ref =>
      if (L.ud ref).flag &&& UD_SHAREDPTR ≠ 0 then unboxSharedUD env T L ref
      else if (L.ud ref).flag &&& UD_SHAREDREF ≠ 0 then unboxSharedUDRef env L ref
      else Res.ok (L.ud ref).ud L
  | _ => maybeAnUDTable checkUD L p checkfree

/-- The function template `testudata<T>`: the overload `T` selects. -/
def testudata (env : Env) (T : TypeDesc) (checkUD : lua_State → Int → Bool → Res Nat)
    (L : lua_State) (p : Int) (checkfree : Bool) : Res Nat :=
  match T.kind with
  | TypeKind.uobjectChild => testudata_UObjectChild env T checkUD L p checkfree
  | TypeKind.uobject => testudata_UObject env checkUD L p checkfree
  | TypeKind.plain => testudata_plain env T checkUD L p checkfree

/-- The body of `LuaObject::checkUD<T>`, with the function it calls on a
userdata wrapped in a table given as `checkUD`. -/
def checkUD_body (env : Env) (T : TypeDesc) (checkUD : lua_State → Int → Bool → Res Nat)
    (L : lua_State) (p : Int) (checkfree : Bool) : Res Nat :=
  if lua_isnil L p then Res.ok 0 L
  else
  match testudata env T checkUD L p checkfree with
  | Res.ok ret L1 =>
      if ret ≠ 0 then Res.ok ret L1
      else
        let g := luaL_getmetafield_name L1 p
        let typearg := if g.1 = LUA_TSTRING then (lua_tostring env g.2).1 else none
        let L2 := lua_pop (if g.1 = LUA_TSTRING then (lua_tostring env g.2).2 else g.2)
        if checkfree ∧ typearg = none then Res.error (LuaError.expectUserdataAt p) L2
        else if env.isBaseTypeOf typearg T.typeName then
          let udptr := lua_touserdata L2 p
          match CHECK_UD_VALID L2 p checkfree udptr with
          | some r => r
          | none =>
              match udptr with
              | Pointer.block ref => Res.ok (L2.ud ref).ud L2
              | _ => Res.fault
        else if checkfree then Res.error (LuaError.expectUserdata T.typeName typearg) L2
        else Res.ok 0 L2
  | r => r

/-- The function `LuaObject::checkUD<T>` unfolded `fuel` times. -/
def checkUD_fuel (env : Env) (T : TypeDesc) : Nat → lua_State → Int → Bool → Res Nat
  | 0, _, _, _ => Res.exhausted
  | fuel + 1, L, p, checkfree => checkUD_body env T (checkUD_fuel env T fuel) L p checkfree

/-- The function `LuaObject::checkUD<T>`.  It calls itself only on the full
userdata found in the `__cppinst` field of a table, and a full userdata is
not a table, so two unfoldings are all it ever takes. -/
def checkUD (env : Env) (T : TypeDesc) (L : lua_State) (p : Int) (checkfree : Bool) : Res Nat :=
  checkUD_fuel env T 2 L p checkfree

/-! ## `LuaObject.h`: pushing and collecting a userdata -/

/-- The function template `LuaObject::pushType` in its public overload; `F`
is the template argument `IsUObject<T>::value`, the function pointers are
`none` when null. -/
def pushType (env : Env) (L : lua_State) (cls : Nat) (tn : String) (setupmt gc : Option Nat)
    (F : Bool) : Nat × lua_State :=
  if cls = 0 then (1, lua_pushnil L)
  else
    let ud := (lua_newuserdata L).1
    let L1 := (lua_newuserdata L).2
    let L2 := L1.modUd ud (fun u => { u with parent := 0 })
    let L3 := L2.modUd ud (fun u => { u with ud := cls })
    let L4 := L3.modUd ud (fun u => { u with flag := if gc ≠ none then UD_AUTOGC else UD_NOFLAG })
    let L5 := if F then L4.modUd ud (fun u => { u with flag := u.flag ||| UD_UOBJECT }) else L4
    (1, setupMetaTable env L5 tn)

/-- The private overload of `LuaObject::pushType` whose collector is a stack
index; `F` is promoted to `0` or `1` in `F|UD_AUTOGC`. -/
def pushType_gcIndex (env : Env) (L : lua_State) (cls : Nat) (tn : String)
    (setupmt : Option Nat) (gc : Int) (F : Bool) : Nat × lua_State :=
  if cls = 0 then (1, lua_pushnil L)
  else
    let ud := (lua_newuserdata L).1
    let L1 := (lua_newuserdata L).2
    let L2 := L1.modUd ud (fun u => { u with parent := 0 })
    let L3 := L2.modUd ud (fun u => { u with ud := cls })
    let L4 := L3.modUd ud (fun u => { u with flag := (if F then 1 else 0) ||| UD_AUTOGC })
    let L5 := if F then L4.modUd ud (fun u => { u with flag := u.flag ||| UD_UOBJECT }) else L4
    (1, setupMetaTable env L5 tn)

/-- The specialisation `LuaObject::pushType<LuaStruct*, false>`. -/
def pushType_LuaStruct (env : Env) (L : lua_State) (cls : Nat) (tn : String)
    (setupmt gc : Option Nat) : Nat × lua_State :=
  if cls = 0 then (1, lua_pushnil L)
  else
    let ud := (lua_newuserdata L).1
    let L1 := (lua_newuserdata L).2
    let L2 := L1.modUd ud (fun u => { u with parent := 0 })
    let L3 := L2.modUd ud (fun u => { u with ud := cls })
    let L4 := L3.modUd ud (fun u => { u with flag := if gc ≠ none then UD_AUTOGC else UD_NOFLAG })
    let L5 := L4.modUd ud (fun u => { u with flag := u.flag ||| UD_USTRUCT })
    (1, setupMetaTable env L5 tn)

/-- The function `LuaObject::gcWeakUObject`; its `ensure` only reports. -/
def gcWeakUObject (L : lua_State) : Res Nat :=
  match luaL_checktype L 1 LUA_TUSERDATA with
  | some e => Res.error e L
  | none =>
      match lua_touserdata L 1 with
      | Pointer.block ud =>
          let L1 := L.modUd ud (fun u => { u with flag := u.flag ||| UD_HADFREE })
          let d := SafeDelete (L1.ud ud).ud L1.deleted
          Res.ok 0 ({ L1 with deleted := d.2 }.modUd ud (fun u => { u with ud := d.1 }))
      | _ => Res.fault

/-- The function template `LuaObject::gcSharedUD`. -/
def gcSharedUD (L : lua_State) : Res Nat :=
  match luaL_checktype L 1 LUA_TUSERDATA with
  | some e => Res.error e L
  | none =>
      match lua_touserdata L 1 with
      | Pointer.block ud =>
          let L1 := L.modUd ud (fun u => { u with flag := u.flag ||| UD_HADFREE })
          let d := SafeDelete (L1.ud ud).ud L1.deleted
          Res.ok 0 ({ L1 with deleted := d.2 }.modUd ud (fun u => { u with ud := d.1 }))
      | _ => Res.fault

/-! ## `LuaDelegate.cpp` -/

/-- The constructor `ULuaDelegate::ULuaDelegate`: both members null. -/
def ULuaDelegate.new : ULuaDelegate := { luafunction := 0, ufunction := 0 }

/-- The method `ULuaDelegate::dispose`, with the log of deletions. -/
def ULuaDelegate.dispose (d : ULuaDelegate) (deleted : List Nat) : ULuaDelegate × List Nat :=
  let r := SafeDelete d.luafunction deleted
  ({ d with luafunction := r.1, ufunction := 0 }, r.2)

/-- The method `ULuaDelegate::bindFunction(L, p, ufunc)` on the object at
`obj`; the new `LuaVar` gets the next address. -/
def ULuaDelegate.bindFunction (L : lua_State) (obj : Nat) (p : Int) (ufunc : Nat) :
    Res Unit :=
  match luaL_checktype L p LUA_TFUNCTION with
  | some e => Res.error e L
  | none =>
      Res.ok () { L with
        vars := L.vars + 1
        objects := L.objects.set obj
          { (L.objects.getD obj { luafunction := 0, ufunction := 0 }) with
            luafunction := L.vars + 1, ufunction := ufunc } }

/-- The template argument `LuaDelegateWrap` of `checkUD`. -/
def LuaDelegateWrap.type : TypeDesc :=
  { kind := TypeKind.plain, typeName := "LuaDelegateWrap", className := "",
    sharedFromThis := false }

/-- The function `clear(L, ldw)`; `ldw` is the address of the wrapper record.
The result is `none` when a pointer that refers to nothing is dereferenced.
`GetUObject` gives the object the delegate is bound to, `Cast` succeeds on a
`ULuaDelegate`, `Clear` unbinds the delegate. -/
def clear (L : lua_State) (ldw : Nat) : Option lua_State :=
  match L.wraps[ldw - 1]? with
  | none => none
  | some w =>
  match L.delegates[w.delegate - 1]? with
  | none => none
  | some d =>
      let L1 :=
        match d.object with
        | UObjectPtr.luaDelegate i =>
            match L.objects[i]? with
            | none => none
            | some o =>
                let L0 := removeRef L (UObjectPtr.luaDelegate i)
                let r := o.dispose L0.deleted
                some { L0 with objects := L0.objects.set i r.1, deleted := r.2 }
        | _ => some L
      match L1 with
      | none => none
      | some L2 =>
          some { L2 with
            delegates := L2.delegates.set (w.delegate - 1) (FScriptDelegate.mk UObjectPtr.null "") }

/-- The function `LuaDelegate::Bind` (the editor-only `setPropName` line is
left out). -/
def LuaDelegate.Bind (env : Env) (L : lua_State) : Res Nat :=
  match checkUD env LuaDelegateWrap.type L 1 true with
  | Res.ok UD L1 =>
      match (if UD ≠ 0 then clear L1 UD else some L1) with
      | none => Res.fault
      | some L2 =>
          let obj := (NewObject L2 ULuaDelegate.new).1
          let L3 := (NewObject L2 ULuaDelegate.new).2
          if UD = 0 then Res.fault
          else
          match L3.wraps[UD - 1]? with
          | none => Res.fault
          | some w =>
          match ULuaDelegate.bindFunction L3 L2.objects.length 2 w.ufunc with
          | Res.ok _ L4 =>
              if w.delegate = 0 ∨ L4.delegates.length < w.delegate then Res.fault
              else
                let L5 := { L4 with
                  delegates := L4.delegates.set (w.delegate - 1)
                    (FScriptDelegate.mk obj "EventTrigger") }
                let L6 := addRef L5 obj
                Res.ok 1 (lua_pushlightuserdata L6 obj)
          | Res.error e L4 => Res.error e L4
          | Res.fault => Res.fault
          | Res.exhausted => Res.exhausted
  | Res.error e L1 => Res.error e L1
  | Res.fault => Res.fault
  | Res.exhausted => Res.exhausted

/-- The function `LuaDelegate::Clear`. -/
def LuaDelegate.Clear (env : Env) (L : lua_State) : Res Nat :=
  match checkUD env LuaDelegateWrap.type L 1 true with
  | Res.ok UD L1 =>
      match (if UD ≠ 0 then clear L1 UD else some L1) with
      | none => Res.fault
      | some L2 => Res.ok 0 L2
  | Res.error e L1 => Res.error e L1
  | Res.fault => Res.fault
  | Res.exhausted => Res.exhausted

/-- The function `LuaDelegate::push`: a new wrapper record at the next
address, pushed as a userdata of type "LuaDelegateWrap" with a collector. -/
def LuaDelegate.push (env : Env) (L : lua_State) (delegate ufunc : Nat) : Nat × lua_State :=
  pushType env { L with wraps := L.wraps ++ [{ delegate := delegate, ufunc := ufunc }] }
    (L.wraps.length + 1) "LuaDelegateWrap" (some 1) (some 2) false

/-! ## Properties -/

/-- A call a script makes on a single-cast delegate wrapper: `Bind` with its
argument, or `Clear`. -/
inductive DelegateOp where
  | Bind (arg : Value)
  | Clear
  deriving DecidableEq

/-- The state a call ends in, whether it returns or raises; `none` when it
does not end in a defined state. -/
def Res.state {α : Type} : Res α → Option lua_State
  | Res.ok _ L => some L
  | Res.error _ L => some L
  | Res.fault => none
  | Res.exhausted => none

/-- One call on the wrapper userdata `w`. -/
def DelegateOp.run (op : DelegateOp) (env : Env) (w : Nat) (L : lua_State) : Res Nat :=
  match op with
  | DelegateOp.Bind arg => LuaDelegate.Bind env { L with stack := [Value.userdata w, arg] }
  | DelegateOp.Clear => LuaDelegate.Clear env { L with stack := [Value.userdata w] }

/-- A sequence of calls on the wrapper userdata `w`, one after the other; a
call that raises a Lua error leaves the state it raised in. -/
def runDelegateOps (env : Env) (w : Nat) : lua_State → List DelegateOp → Option lua_State
  | L, [] => some L
  | L, op :: rest =>
      match (op.run env w L).state with
      | some L1 => runDelegateOps env w L1 rest
      | none => none

/-- The `ULuaDelegate` objects made since there were `n0` of them that are in
the table of referenced objects. -/
def ownedRefs (n0 : Nat) (L : lua_State) : List UObjectPtr :=
  L.refs.filter (fun o =>
    match o with
    | UObjectPtr.luaDelegate i => decide (n0 ≤ i)
    | _ => false)

/-- The object the script delegate at address `delegate` is bound to. -/
def lua_State.bound (L : lua_State) (delegate : Nat) : UObjectPtr :=
  match L.delegates[delegate - 1]? with
  | some d => d.object
  | none => UObjectPtr.null

/-- Whether an engine pointer refers to something among `n` delegate objects:
a pointer to a `ULuaDelegate` must be one of them. -/
def UObjectPtr.existsIn (o : UObjectPtr) (n : Nat) : Bool :=
  match o with
  | UObjectPtr.luaDelegate i => decide (i < n)
  | _ => true

/-- The userdata `w` is a live wrapper of the record `wrap` at address `wp`,
as `LuaDelegate::push` makes it, over a script delegate that exists; every
`ULuaDelegate` that is referenced or bound exists. -/
def lua_State.wrapperAt (L : lua_State) (w wp : Nat) (wrap : LuaDelegateWrap) : Prop :=
  w < L.udata.length ∧
  ((L.ud w).meta.map (fun m => m.registry)) = some (some "LuaDelegateWrap") ∧
  (L.ud w).flag &&& UD_HADFREE = 0 ∧
  (L.ud w).flag &&& UD_SHAREDPTR = 0 ∧
  (L.ud w).flag &&& UD_SHAREDREF = 0 ∧
  (L.ud w).ud = wp ∧ 0 < wp ∧
  L.wraps[wp - 1]? = some wrap ∧
  0 < wrap.delegate ∧ wrap.delegate ≤ L.delegates.length ∧
  (∀ o ∈ L.refs, o.existsIn L.objects.length = true) ∧
  (L.bound wrap.delegate).existsIn L.objects.length = true

instance (L : lua_State) (w wp : Nat) (wrap : LuaDelegateWrap) :
    Decidable (L.wrapperAt w wp wrap) := by
  unfold lua_State.wrapperAt
  infer_instance

/-- The invariant of a run of calls on the wrapper `w` from a state with `n0`
delegate objects: the wrapper is intact, and the objects made since that are
referenced are the object the script delegate is bound to, if it was made
since, and no other. -/
def lua_State.oneBinding (L : lua_State) (n0 w wp : Nat) (wrap : LuaDelegateWrap) : Prop :=
  L.wrapperAt w wp wrap ∧ n0 ≤ L.objects.length ∧
  ownedRefs n0 L =
    (match L.bound wrap.delegate with
     | UObjectPtr.luaDelegate i => if n0 ≤ i then [UObjectPtr.luaDelegate i] else []
     | _ => [])

/-- Whether a call is a `Bind` with a function as argument. -/
def DelegateOp.bindsFunction (op : DelegateOp) : Bool :=
  match op with
  | DelegateOp.Bind (Value.function _) => true
  | _ => false

/-! ## Sample inputs -/

/-- An environment in which casts and boxes give back the address they are
given, no class name is ever found in a metatable name, a type is a base of
itself only, and a metatable is registered under its type name and carries
it as `__name`. -/
def sampleEnv : Env :=
  { lua_number2str := fun n => toString n
    Cast := fun _ p => p
    weakIsValid := fun _ => true
    weakGet := fun box => box
    sharedGet := fun box => box
    Find := fun _ _ => -1
    isBaseTypeOf := fun tn base => tn = some base
    metatableOf := fun tn => { registry := some tn, name := Value.string tn } }

/-- An empty state with the given stack. -/
def emptyState (stack : List Value) : lua_State :=
  { stack := stack, udata := [], tables := [], wraps := [], delegates := [], objects := [],
    refs := [], vars := 0, deleted := [] }

/-- The state of a call on the only userdata of the heap, a userdata of type
`tn` with the given flag word and boxed pointer, with further arguments. -/
def udCall (tn : String) (flag ud : Nat) (args : List Value) : lua_State :=
  { emptyState (Value.userdata 0 :: args) with
    udata := [{ flag := flag, parent := 0, ud := ud,
                meta := some { registry := some tn, name := Value.string tn } }] }

/-- A type that is not a `UObject`, by its name. -/
def plainType (tn : String) : TypeDesc :=
  { kind := TypeKind.plain, typeName := tn, className := "", sharedFromThis := false }

/-- A state with one unbound script delegate at address 1 and a wrapper of it
(signature function 7) pushed by `LuaDelegate::push` as userdata 0. -/
def wrapperState : lua_State :=
  (LuaDelegate.push sampleEnv
    { emptyState [] with delegates := [{ object := UObjectPtr.null, functionName := "" }] }
    1 7).2

end Slua

namespace Luasocket

/-! ## Frame lemmas -/

section frame

variable (L : lua_State) (ref r : Nat) (c : Call) (v : LuaValue) (t : t_tcp)
  (f : t_tcp → t_tcp) (cls : String) (idx : Int)

@[simp] theorem log_stack : (L.log c).stack = L.stack := rfl
@[simp] theorem log_udata : (L.log c).udata = L.udata := rfl
@[simp] theorem log_calls : (L.log c).calls = L.calls ++ [c] := rfl
@[simp] theorem log_index : (L.log c).index idx = L.index idx := rfl
@[simp] theorem log_tcp : (L.log c).tcp r = L.tcp r := rfl
@[simp] theorem log_classOf : (L.log c).classOf r = L.classOf r := rfl

@[simp] theorem push_stack : (L.push v).stack = L.stack ++ [v] := rfl
@[simp] theorem push_udata : (L.push v).udata = L.udata := rfl
@[simp] theorem push_calls : (L.push v).calls = L.calls := rfl
@[simp] theorem push_tcp : (L.push v).tcp r = L.tcp r := rfl
@[simp] theorem push_classOf : (L.push v).classOf r = L.classOf r := rfl

@[simp] theorem setTcp_stack : (L.setTcp ref t).stack = L.stack := by
  unfold lua_State.setTcp; split <;> rfl
@[simp] theorem setTcp_calls : (L.setTcp ref t).calls = L.calls := by
  unfold lua_State.setTcp; split <;> rfl
@[simp] theorem setTcp_index : (L.setTcp ref t).index idx = L.index idx := by
  simp [lua_State.index]
@[simp] theorem setTcp_length : (L.setTcp ref t).udata.length = L.udata.length := by
  unfold lua_State.setTcp; split <;> simp
@[simp] theorem setTcp_classOf : (L.setTcp ref t).classOf r = L.classOf r := by
  cases h : L.udata[ref]? with
  | none => simp [lua_State.setTcp, h]
  | some u =>
    have hlt := (List.getElem?_eq_some_iff.mp h).1
    by_cases e : ref = r
    · subst e; simp [lua_State.setTcp, lua_State.classOf, h, List.getElem?_set, hlt]
    · simp [lua_State.setTcp, lua_State.classOf, h, List.getElem?_set_ne e]
theorem setTcp_tcp : (L.setTcp ref t).tcp r =
    if r = ref ∧ ref < L.udata.length then t else L.tcp r := by
  cases h : L.udata[ref]? with
  | none =>
    have : ¬ ref < L.udata.length := by
      intro hlt; simp [List.getElem?_eq_getElem hlt] at h
    simp [lua_State.setTcp, h, this]
  | some u =>
    have hlt := (List.getElem?_eq_some_iff.mp h).1
    by_cases e : ref = r
    · subst e; simp [lua_State.setTcp, lua_State.tcp, h, List.getElem?_set, hlt]
    · have e' : ¬ r = ref := fun x => e x.symm
      simp [lua_State.setTcp, lua_State.tcp, h, List.getElem?_set_ne e, e']
@[simp] theorem setTcp_tcp_self (h : ref < L.udata.length) : (L.setTcp ref t).tcp ref = t := by
  simp [setTcp_tcp, h]
@[simp] theorem setTcp_tcp_ne (h : r ≠ ref) : (L.setTcp ref t).tcp r = L.tcp r := by
  simp [setTcp_tcp, h]

@[simp] theorem modTcp_stack : (L.modTcp ref f).stack = L.stack := by simp [lua_State.modTcp]
@[simp] theorem modTcp_calls : (L.modTcp ref f).calls = L.calls := by simp [lua_State.modTcp]
@[simp] theorem modTcp_index : (L.modTcp ref f).index idx = L.index idx := by
  simp [lua_State.modTcp]
@[simp] theorem modTcp_length : (L.modTcp ref f).udata.length = L.udata.length := by
  simp [lua_State.modTcp]
@[simp] theorem modTcp_classOf : (L.modTcp ref f).classOf r = L.classOf r := by
  simp [lua_State.modTcp]
@[simp] theorem modTcp_tcp_self (h : ref < L.udata.length) :
    (L.modTcp ref f).tcp ref = f (L.tcp ref) := by
  simp [lua_State.modTcp, h]
@[simp] theorem modTcp_tcp_ne (h : r ≠ ref) : (L.modTcp ref f).tcp r = L.tcp r := by
  simp [lua_State.modTcp, h]

@[simp] theorem setclass_stack : (auxiliar_setclass L cls idx).stack = L.stack := by
  unfold auxiliar_setclass; split
  · split <;> rfl
  · rfl
@[simp] theorem setclass_calls : (auxiliar_setclass L cls idx).calls = L.calls := by
  unfold auxiliar_setclass; split
  · split <;> rfl
  · rfl
@[simp] theorem setclass_index (j : Int) :
    (auxiliar_setclass L cls idx).index j = L.index j := by
  simp [lua_State.index]
@[simp] theorem setclass_length :
    (auxiliar_setclass L cls idx).udata.length = L.udata.length := by
  unfold auxiliar_setclass; split
  · split <;> simp
  · rfl
@[simp] theorem setclass_tcp : (auxiliar_setclass L cls idx).tcp r = L.tcp r := by
  unfold auxiliar_setclass
  cases hi : L.index idx with
  | none => rfl
  | some v =>
    cases v with
    | userdata ref =>
      cases h : L.udata[ref]? with
      | none => simp [h]
      | some u =>
        have hlt := (List.getElem?_eq_some_iff.mp h).1
        by_cases e : ref = r
        · subst e; simp [lua_State.tcp, h, List.getElem?_set, hlt]
        · simp [lua_State.tcp, h, List.getElem?_set_ne e]
    | _ => rfl
theorem setclass_classOf (h : L.index idx = some (LuaValue.userdata ref)) :
    (auxiliar_setclass L cls idx).classOf r =
      if r = ref ∧ ref < L.udata.length then some cls else L.classOf r := by
  unfold auxiliar_setclass
  cases hu : L.udata[ref]? with
  | none =>
    have : ¬ ref < L.udata.length := by
      intro hlt; simp [List.getElem?_eq_getElem hlt] at hu
    simp [h, hu, this]
  | some u =>
    have hlt := (List.getElem?_eq_some_iff.mp hu).1
    by_cases e : ref = r
    · subst e; simp [lua_State.classOf, h, hu, List.getElem?_set, hlt]
    · have e' : ¬ r = ref := fun x => e x.symm
      simp [lua_State.classOf, h, hu, List.getElem?_set_ne e, e']

theorem classOf_lt (h : L.classOf ref = some cls) : ref < L.udata.length := by
  unfold lua_State.classOf at h
  cases hu : L.udata[ref]? with
  | none => simp [hu] at h
  | some u => exact (List.getElem?_eq_some_iff.mp hu).1

end frame
section checks

variable (env : Env) (L : lua_State) (ref : Nat) (cls : String) (idx : Int)

theorem tcp_any_members (c : String) :
    (c, tcp_any) ∈ tcp_open_groups ↔ c = tcp_master ∨ c = tcp_client ∨ c = tcp_server := by
  simp [tcp_open_groups]

theorem checkgroup_ok (h : L.index idx = some (LuaValue.userdata ref))
    (hc : L.classOf ref = some cls)
    (hm : cls = tcp_master ∨ cls = tcp_client ∨ cls = tcp_server) :
    auxiliar_checkgroup L tcp_any idx = Except.ok ref := by
  unfold lua_State.classOf at hc
  cases hu : L.udata[ref]? with
  | none => simp [hu] at hc
  | some u =>
    simp [hu] at hc
    simp [auxiliar_checkgroup, auxiliar_getgroupudata, h, hu, hc, tcp_any_members, hm]

theorem checkclass_ok (h : L.index idx = some (LuaValue.userdata ref))
    (hc : L.classOf ref = some cls) :
    auxiliar_checkclass L cls idx = Except.ok ref := by
  unfold lua_State.classOf at hc
  cases hu : L.udata[ref]? with
  | none => simp [hu] at hc
  | some u =>
    simp [hu] at hc
    simp [auxiliar_checkclass, auxiliar_getclassudata, h, hu, hc]

theorem checkclass_mismatch (h : L.index idx = some (LuaValue.userdata ref))
    (hc : L.classOf ref ≠ some cls) :
    auxiliar_checkclass L cls idx = Except.error (idx, cls.take 35 ++ " expected") := by
  unfold lua_State.classOf at hc
  cases hu : L.udata[ref]? with
  | none => simp [auxiliar_checkclass, auxiliar_getclassudata, h, hu]
  | some u =>
    simp [hu] at hc
    simp [auxiliar_checkclass, auxiliar_getclassudata, h, hu, hc]

theorem checkstring_ok (h : lua_isstring L idx = true) :
    ∃ s L', luaL_checkstring env L idx = Except.ok (s, L') ∧ L'.udata = L.udata ∧
      L'.calls = L.calls ∧ L'.stack.length = L.stack.length ∧
      ∀ j : Int, 0 < j → j ≠ idx → L'.index j = L.index j := by
  unfold lua_isstring at h
  unfold luaL_checkstring
  cases hi : L.index idx with
  | none => simp [hi] at h
  | some v =>
    cases v with
    | string s => exact ⟨s, L, rfl, rfl, rfl, rfl, fun _ _ _ => rfl⟩
    | number n =>
      refine ⟨env.lua_number2str n, _, rfl, ?_, ?_, ?_, ?_⟩
      · unfold lua_State.setIndex; split <;> rfl
      · unfold lua_State.setIndex; split <;> rfl
      · unfold lua_State.setIndex; split <;> simp
      · intro j hj hne
        unfold lua_State.setIndex
        split
        · next hpos =>
          have : idx.toNat - 1 ≠ j.toNat - 1 := by omega
          simp [lua_State.index, hj, List.getElem?_set_ne this]
        · rfl
    | nil => simp [hi] at h
    | boolean b => simp [hi] at h
    | userdata r => simp [hi] at h

end checks

/-- Claim C1: for every entity whose role is master or client and every outcome
of the underlying resolve/connect attempt, the connect method returns and the
role tag is then exactly "client", hence neither "master" nor "server". -/
theorem tcp_meth_connect_role (env : Env) (L : lua_State) (ref : Nat) (cls : String)
    (hobj : L.index 1 = some (LuaValue.userdata ref))
    (hcls : L.classOf ref = some cls)
    (hrole : cls = tcp_master ∨ cls = tcp_client)
    (haddr : lua_isstring L 2 = true) (hport : lua_isstring L 3 = true) :
    ∃ n L', tcp_meth_connect env L = Outcome.ret n L' ∧
      L'.classOf ref = some tcp_client ∧
      L'.classOf ref ≠ some tcp_master ∧ L'.classOf ref ≠ some tcp_server := by
  have hg : auxiliar_checkgroup L tcp_any 1 = Except.ok ref :=
    checkgroup_ok L ref cls 1 hobj hcls (by tauto)
  obtain ⟨address, La, ha, hau, hac, hal, hai⟩ := checkstring_ok env L 2 haddr
  have hport' : lua_isstring La 3 = true := by
    unfold lua_isstring at hport ⊢
    rw [hai 3 (by decide) (by decide)]; exact hport
  obtain ⟨port, Lp, hp, hpu, hpc, hpl, hpi⟩ := checkstring_ok env La 3 hport'
  have hidx : Lp.index 1 = some (LuaValue.userdata ref) := by
    rw [hpi 1 (by decide) (by decide), hai 1 (by decide) (by decide)]; exact hobj
  have hlt : ref < Lp.udata.length := by
    rw [hpu, hau]; exact classOf_lt L ref cls hcls
  have key : ∀ L2 : lua_State, L2.index 1 = some (LuaValue.userdata ref) →
      ref < L2.udata.length →
      (auxiliar_setclass L2 tcp_client 1).classOf ref = some tcp_client := by
    intro L2 h1 h2
    simp [setclass_classOf L2 ref ref tcp_client 1 h1, h2]
  simp only [tcp_meth_connect, hg, ha, hp]
  split
  · refine ⟨_, _, rfl, ?_⟩
    simp [lua_pushstring, lua_pushnil, timeout_markstart, setclass_classOf _ ref ref tcp_client 1, hidx, hlt]
    decide
  · refine ⟨_, _, rfl, ?_⟩
    simp [lua_pushnumber, timeout_markstart, setclass_classOf _ ref ref tcp_client 1, hidx, hlt]
    decide

/-- Claim C1 at a concrete input: a master whose connect is refused. -/
theorem tcp_meth_connect_role_witness :
    (methodCall tcp_master 5 [LuaValue.string "example.org", LuaValue.number 80]).index 1
        = some (LuaValue.userdata 0) ∧
      (methodCall tcp_master 5 [LuaValue.string "example.org", LuaValue.number 80]).classOf 0
        = some tcp_master ∧
      ∃ n L', tcp_meth_connect refusingEnv
          (methodCall tcp_master 5 [LuaValue.string "example.org", LuaValue.number 80])
          = Outcome.ret n L' ∧
        L'.classOf 0 = some tcp_client ∧
        L'.classOf 0 ≠ some tcp_master ∧ L'.classOf 0 ≠ some tcp_server :=
  ⟨by decide, by decide,
   tcp_meth_connect_role refusingEnv
     (methodCall tcp_master 5 [LuaValue.string "example.org", LuaValue.number 80]) 0 tcp_master
     (by decide) (by decide) (Or.inl rfl) (by decide) (by decide)⟩

/-- Claim C2: for every master entity and every backlog, listen changes the role tag
to "server" if and only if the OS listen call reports success; when the OS listen
call fails the role tag stays "master" and the result is the pair of nil and the
error string of that failure. -/
theorem tcp_meth_listen_role (env : Env) (L : lua_State) (ref : Nat) (backlog : Int)
    (hobj : L.index 1 = some (LuaValue.userdata ref))
    (hcls : L.classOf ref = some tcp_master)
    (hbacklog : luaL_optnumber env L 2 32 = Except.ok backlog) :
    ∃ n L', tcp_meth_listen env L = Outcome.ret n L' ∧
      (L'.classOf ref = some tcp_server ↔
        env.socket_listen L.calls (L.tcp ref).sock backlog = IO_DONE) ∧
      (env.socket_listen L.calls (L.tcp ref).sock backlog ≠ IO_DONE →
        L'.classOf ref = some tcp_master ∧
        (Outcome.ret n L').results = some [LuaValue.nil, LuaValue.string
          (env.socket_strerror (env.socket_listen L.calls (L.tcp ref).sock backlog))]) := by
  have hc : auxiliar_checkclass L tcp_master 1 = Except.ok ref :=
    checkclass_ok L ref tcp_master 1 hobj hcls
  have hlt : ref < L.udata.length := classOf_lt L ref tcp_master hcls
  simp only [tcp_meth_listen, hc, hbacklog]
  by_cases herr : env.socket_listen L.calls (L.tcp ref).sock backlog = IO_DONE
  · rw [if_neg (not_not.mpr herr)]
    refine ⟨1, _, rfl, ?_, ?_⟩
    · simp [herr, lua_pushnumber, setclass_classOf _ ref ref tcp_server 1, hobj, hlt]
    · intro h; exact absurd herr h
  · rw [if_pos herr]
    refine ⟨2, _, rfl, ?_, ?_⟩
    · simp [herr, lua_pushstring, lua_pushnil, hcls]
      decide
    · intro _
      simp [lua_pushstring, lua_pushnil, hcls, Outcome.results]

/-- Claim C2 at a concrete input: a master whose listen fails with code 98. -/
theorem tcp_meth_listen_role_witness :
    (methodCall tcp_master 5 [LuaValue.number 8]).index 1 = some (LuaValue.userdata 0) ∧
      (methodCall tcp_master 5 [LuaValue.number 8]).classOf 0 = some tcp_master ∧
      luaL_optnumber deafEnv (methodCall tcp_master 5 [LuaValue.number 8]) 2 32 = Except.ok 8 ∧
      ∃ n L', tcp_meth_listen deafEnv (methodCall tcp_master 5 [LuaValue.number 8])
          = Outcome.ret n L' ∧
        (L'.classOf 0 = some tcp_server ↔
          deafEnv.socket_listen (methodCall tcp_master 5 [LuaValue.number 8]).calls
            ((methodCall tcp_master 5 [LuaValue.number 8]).tcp 0).sock 8 = IO_DONE) ∧
        (deafEnv.socket_listen (methodCall tcp_master 5 [LuaValue.number 8]).calls
            ((methodCall tcp_master 5 [LuaValue.number 8]).tcp 0).sock 8 ≠ IO_DONE →
          L'.classOf 0 = some tcp_master ∧
          (Outcome.ret n L').results = some [LuaValue.nil, LuaValue.string
            (deafEnv.socket_strerror
              (deafEnv.socket_listen (methodCall tcp_master 5 [LuaValue.number 8]).calls
                ((methodCall tcp_master 5 [LuaValue.number 8]).tcp 0).sock 8))]) :=
  ⟨by decide, by decide, rfl,
   tcp_meth_listen_role deafEnv (methodCall tcp_master 5 [LuaValue.number 8]) 0 8
     (by decide) (by decide) rfl⟩

section frame2
variable (env : Env) (L L' : lua_State) (idx : Int) (s : String) (r : Nat)

theorem checkstring_frame (h : luaL_checkstring env L idx = Except.ok (s, L')) :
    L'.udata = L.udata ∧ L'.calls = L.calls ∧ L'.stack.length = L.stack.length ∧
      ∀ j : Int, 0 < j → j ≠ idx → L'.index j = L.index j := by
  unfold luaL_checkstring at h
  cases hi : L.index idx with
  | none => simp [hi] at h
  | some v =>
    cases v with
    | string s0 =>
      simp [hi] at h
      obtain ⟨_, rfl⟩ := h
      exact ⟨rfl, rfl, rfl, fun _ _ _ => rfl⟩
    | number n =>
      simp [hi] at h
      obtain ⟨_, rfl⟩ := h
      refine ⟨?_, ?_, ?_, ?_⟩
      · unfold lua_State.setIndex; split <;> rfl
      · unfold lua_State.setIndex; split <;> rfl
      · unfold lua_State.setIndex; split <;> simp
      · intro j hj hne
        unfold lua_State.setIndex
        split
        · next hpos =>
          have : idx.toNat - 1 ≠ j.toNat - 1 := by omega
          simp [lua_State.index, hj, List.getElem?_set_ne this]
        · rfl
    | nil => simp [hi] at h
    | boolean b => simp [hi] at h
    | userdata r => simp [hi] at h

theorem tcp_of_udata (h : L'.udata = L.udata) : L'.tcp r = L.tcp r := by
  simp [lua_State.tcp, h]

theorem classOf_of_udata (h : L'.udata = L.udata) : L'.classOf r = L.classOf r := by
  simp [lua_State.classOf, h]

end frame2

/-- Claim C3 fails at a concrete input: connect on a server-role object is not
rejected, it returns the success value 1 and leaves the object a client. -/
theorem tcp_meth_connect_server_counterexample :
    (methodCall tcp_server 5 [LuaValue.string "example.org", LuaValue.string "80"]).classOf 0
        = some tcp_server ∧
      (tcp_meth_connect sampleEnv
        (methodCall tcp_server 5 [LuaValue.string "example.org", LuaValue.string "80"])).results
        = some [LuaValue.number 1] ∧
      (tcp_meth_connect sampleEnv
        (methodCall tcp_server 5
          [LuaValue.string "example.org", LuaValue.string "80"])).state.classOf 0
        = some tcp_client := by
  decide

/-- Claim C3 as amended: connect is open to the whole group of classes, so on a
server-role object, for every address and port and every outcome of the
resolve/connect attempt, the call is not rejected: it makes the attempt and
returns with the role tag "client". -/
theorem tcp_meth_connect_server (env : Env) (L La Lp : lua_State) (ref : Nat)
    (address port : String)
    (hobj : L.index 1 = some (LuaValue.userdata ref))
    (hcls : L.classOf ref = some tcp_server)
    (haddr : luaL_checkstring env L 2 = Except.ok (address, La))
    (hport : luaL_checkstring env La 3 = Except.ok (port, Lp)) :
    ∃ n L', tcp_meth_connect env L = Outcome.ret n L' ∧
      L'.classOf ref = some tcp_client ∧
      L'.calls = L.calls ++ [Call.inet_tryconnect (L.tcp ref).sock (L.tcp ref).family
        address port { (L.tcp ref).tm with start := env.timeout_gettime L.calls }
        (connecthints_for (L.tcp ref).family)] := by
  have hg : auxiliar_checkgroup L tcp_any 1 = Except.ok ref :=
    checkgroup_ok L ref tcp_server 1 hobj hcls (by tauto)
  obtain ⟨hau, hac, -, hai⟩ := checkstring_frame env L La 2 address haddr
  obtain ⟨hpu, hpc, -, hpi⟩ := checkstring_frame env La Lp 3 port hport
  have hidx : Lp.index 1 = some (LuaValue.userdata ref) := by
    rw [hpi 1 (by decide) (by decide), hai 1 (by decide) (by decide)]; exact hobj
  have hu : Lp.udata = L.udata := hpu.trans hau
  have hlt : ref < Lp.udata.length := by
    rw [hu]; exact classOf_lt L ref tcp_server hcls
  have htcp : Lp.tcp ref = L.tcp ref := tcp_of_udata L Lp ref hu
  have hcalls : Lp.calls = L.calls := hpc.trans hac
  simp only [tcp_meth_connect, hg, haddr, hport]
  split
  · refine ⟨_, _, rfl, ?_, ?_⟩
    · simp [lua_pushstring, lua_pushnil, timeout_markstart,
        setclass_classOf _ ref ref tcp_client 1, hidx, hlt]
    · simp [lua_pushstring, lua_pushnil, timeout_markstart, hlt, htcp, hcalls]
  · refine ⟨_, _, rfl, ?_, ?_⟩
    · simp [lua_pushnumber, timeout_markstart,
        setclass_classOf _ ref ref tcp_client 1, hidx, hlt]
    · simp [lua_pushnumber, timeout_markstart, hlt, htcp, hcalls]

/-- Claim C3 as amended, at a concrete input: a server whose connect is refused. -/
theorem tcp_meth_connect_server_witness :
    ∃ n L', tcp_meth_connect refusingEnv
        (methodCall tcp_server 5 [LuaValue.string "example.org", LuaValue.string "80"])
        = Outcome.ret n L' ∧
      L'.classOf 0 = some tcp_client ∧
      L'.calls = [Call.inet_tryconnect 5 AF_INET "example.org" "80"
        { block := -1, total := -1, start := 100 } (connecthints_for AF_INET)] :=
  tcp_meth_connect_server refusingEnv
    (methodCall tcp_server 5 [LuaValue.string "example.org", LuaValue.string "80"]) _ _ 0
    "example.org" "80" (by decide) (by decide) rfl rfl

set_option maxRecDepth 8000 in
theorem expected_names :
    tcp_client.take 35 ++ " expected" = "tcp\x7bclient\x7d expected" ∧
    tcp_master.take 35 ++ " expected" = "tcp\x7bmaster\x7d expected" ∧
    tcp_server.take 35 ++ " expected" = "tcp\x7bserver\x7d expected" := by
  decide

/-- Claim C4: role gating.  On an object whose class is not "client", send,
receive, getstats, setstats and shutdown raise the class error for argument 1;
on an object whose class is not "master", bind and listen do; on an object
whose class is not "server", accept does.  The error leaves the whole state
as it was: no call into the buffer or socket layer is logged, and the role,
descriptor and family of the object are unchanged. -/
theorem role_gating (env : Env) (L : lua_State) (ref : Nat)
    (hobj : L.index 1 = some (LuaValue.userdata ref)) :
    (L.classOf ref ≠ some tcp_client →
      tcp_meth_send env L = Outcome.error 1 "tcp\x7bclient\x7d expected" L ∧
      tcp_meth_receive env L = Outcome.error 1 "tcp\x7bclient\x7d expected" L ∧
      tcp_meth_getstats env L = Outcome.error 1 "tcp\x7bclient\x7d expected" L ∧
      tcp_meth_setstats env L = Outcome.error 1 "tcp\x7bclient\x7d expected" L ∧
      tcp_meth_shutdown env L = Outcome.error 1 "tcp\x7bclient\x7d expected" L) ∧
    (L.classOf ref ≠ some tcp_master →
      tcp_meth_bind env L = Outcome.error 1 "tcp\x7bmaster\x7d expected" L ∧
      tcp_meth_listen env L = Outcome.error 1 "tcp\x7bmaster\x7d expected" L) ∧
    (L.classOf ref ≠ some tcp_server →
      tcp_meth_accept env L = Outcome.error 1 "tcp\x7bserver\x7d expected" L) := by
  obtain ⟨hc, hm, hs⟩ := expected_names
  refine ⟨fun h => ?_, fun h => ?_, fun h => ?_⟩
  · have := checkclass_mismatch L ref tcp_client 1 hobj h
    simp [tcp_meth_send, tcp_meth_receive, tcp_meth_getstats, tcp_meth_setstats,
      tcp_meth_shutdown, this, hc]
  · have := checkclass_mismatch L ref tcp_master 1 hobj h
    simp [tcp_meth_bind, tcp_meth_listen, this, hm]
  · have := checkclass_mismatch L ref tcp_server 1 hobj h
    simp [tcp_meth_accept, this, hs]

/-- Claim C4 at concrete inputs: a server object is turned away by the five
client methods and the two master methods, a master object by accept. -/
theorem role_gating_witness :
    (tcp_meth_send sampleEnv (methodCall tcp_server 5 [LuaValue.string "ping"])
        = Outcome.error 1 "tcp\x7bclient\x7d expected"
            (methodCall tcp_server 5 [LuaValue.string "ping"]) ∧
     tcp_meth_receive sampleEnv (methodCall tcp_server 5 [LuaValue.string "ping"])
        = Outcome.error 1 "tcp\x7bclient\x7d expected"
            (methodCall tcp_server 5 [LuaValue.string "ping"]) ∧
     tcp_meth_getstats sampleEnv (methodCall tcp_server 5 [LuaValue.string "ping"])
        = Outcome.error 1 "tcp\x7bclient\x7d expected"
            (methodCall tcp_server 5 [LuaValue.string "ping"]) ∧
     tcp_meth_setstats sampleEnv (methodCall tcp_server 5 [LuaValue.string "ping"])
        = Outcome.error 1 "tcp\x7bclient\x7d expected"
            (methodCall tcp_server 5 [LuaValue.string "ping"]) ∧
     tcp_meth_shutdown sampleEnv (methodCall tcp_server 5 [LuaValue.string "ping"])
        = Outcome.error 1 "tcp\x7bclient\x7d expected"
            (methodCall tcp_server 5 [LuaValue.string "ping"])) ∧
    (tcp_meth_bind sampleEnv (methodCall tcp_server 5 [LuaValue.string "ping"])
        = Outcome.error 1 "tcp\x7bmaster\x7d expected"
            (methodCall tcp_server 5 [LuaValue.string "ping"]) ∧
     tcp_meth_listen sampleEnv (methodCall tcp_server 5 [LuaValue.string "ping"])
        = Outcome.error 1 "tcp\x7bmaster\x7d expected"
            (methodCall tcp_server 5 [LuaValue.string "ping"])) ∧
    tcp_meth_accept sampleEnv (methodCall tcp_master 5 [])
        = Outcome.error 1 "tcp\x7bserver\x7d expected" (methodCall tcp_master 5 []) :=
  ⟨(role_gating sampleEnv (methodCall tcp_server 5 [LuaValue.string "ping"]) 0
      (by decide)).1 (by decide),
   (role_gating sampleEnv (methodCall tcp_server 5 [LuaValue.string "ping"]) 0
      (by decide)).2.1 (by decide),
   (role_gating sampleEnv (methodCall tcp_master 5 []) 0 (by decide)).2.2 (by decide)⟩

section alloc
variable (L : lua_State) (r ref : Nat) (idx : Int)

@[simp] theorem newuserdata_fst : (lua_newuserdata L).1 = L.udata.length := rfl
@[simp] theorem newuserdata_stack :
    (lua_newuserdata L).2.stack = L.stack ++ [LuaValue.userdata L.udata.length] := rfl
@[simp] theorem newuserdata_calls : (lua_newuserdata L).2.calls = L.calls := rfl
@[simp] theorem newuserdata_length :
    (lua_newuserdata L).2.udata.length = L.udata.length + 1 := by
  simp [lua_newuserdata]
@[simp] theorem newuserdata_classOf : (lua_newuserdata L).2.classOf r = L.classOf r := by
  simp only [lua_newuserdata, lua_State.classOf]
  rcases Nat.lt_trichotomy r L.udata.length with h | h | h
  · simp [List.getElem?_append_left h]
  · subst h; simp
  · have h1 : L.udata.length ≤ r := Nat.le_of_lt h
    have h2 : L.udata[r]? = none := List.getElem?_eq_none h1
    have h3 : (L.udata ++ [{ meta := none, tcp := t_tcp.zero }])[r]? = none := by
      apply List.getElem?_eq_none; simp; omega
    simp [h2, h3]
@[simp] theorem newuserdata_tcp : (lua_newuserdata L).2.tcp r = L.tcp r := by
  simp only [lua_newuserdata, lua_State.tcp]
  rcases Nat.lt_trichotomy r L.udata.length with h | h | h
  · simp [List.getElem?_append_left h]
  · subst h; simp
  · have h1 : L.udata.length ≤ r := Nat.le_of_lt h
    have h2 : L.udata[r]? = none := List.getElem?_eq_none h1
    have h3 : (L.udata ++ [{ meta := none, tcp := t_tcp.zero }])[r]? = none := by
      apply List.getElem?_eq_none; simp; omega
    simp [h2, h3]
theorem classOf_fresh : L.classOf L.udata.length = none := by
  simp [lua_State.classOf]
theorem index_top (s : List LuaValue) (v : LuaValue) (h : L.stack = s ++ [v]) :
    L.index (-1) = some v := by
  simp [lua_State.index, h]
@[simp] theorem newuserdata_index_top :
    (lua_newuserdata L).2.index (-1) = some (LuaValue.userdata L.udata.length) :=
  index_top _ L.stack _ rfl

@[simp] theorem destroy_stack : (socket_destroy L ref).stack = L.stack := by
  unfold socket_destroy; simp only []; split <;> simp
@[simp] theorem destroy_index : (socket_destroy L ref).index idx = L.index idx := by
  simp [lua_State.index]
@[simp] theorem destroy_length : (socket_destroy L ref).udata.length = L.udata.length := by
  unfold socket_destroy; simp only []; split <;> simp
@[simp] theorem destroy_classOf : (socket_destroy L ref).classOf r = L.classOf r := by
  unfold socket_destroy; simp only []; split <;> simp
theorem destroy_calls : (socket_destroy L ref).calls =
    L.calls ++ Call.socket_destroy (L.tcp ref).sock ::
      (if (L.tcp ref).sock ≠ SOCKET_INVALID then [Call.close (L.tcp ref).sock] else []) := by
  unfold socket_destroy; simp only []; split <;> simp_all
theorem destroy_sock (h : ref < L.udata.length) :
    ((socket_destroy L ref).tcp ref).sock = SOCKET_INVALID := by
  unfold socket_destroy; simp only []; split
  · simp [h]
  · simp_all
theorem destroy_tcp (h : ref < L.udata.length) :
    (socket_destroy L ref).tcp ref = { L.tcp ref with sock := SOCKET_INVALID } := by
  unfold socket_destroy; simp only []; split
  · simp [h]
  · next hs =>
    simp only [log_tcp, ne_eq, not_not] at hs
    simp [← hs]
theorem destroy_tcp_ne (h : r ≠ ref) : (socket_destroy L ref).tcp r = L.tcp r := by
  unfold socket_destroy; simp only []; split <;> simp [h]

end alloc

section init
variable (env : Env) (L : lua_State) (r ref io tm ctx : Nat) (idx : Int)
  (send recv error : IoFn) (block total : Int)

@[simp] theorem markstart_stack : (timeout_markstart env L ref).stack = L.stack := by
  simp [timeout_markstart]
@[simp] theorem markstart_calls : (timeout_markstart env L ref).calls = L.calls := by
  simp [timeout_markstart]
@[simp] theorem markstart_index : (timeout_markstart env L ref).index idx = L.index idx := by
  simp [timeout_markstart]
@[simp] theorem markstart_length :
    (timeout_markstart env L ref).udata.length = L.udata.length := by
  simp [timeout_markstart]
@[simp] theorem markstart_classOf : (timeout_markstart env L ref).classOf r = L.classOf r := by
  simp [timeout_markstart]
@[simp] theorem markstart_tcp_self (h : ref < L.udata.length) :
    (timeout_markstart env L ref).tcp ref =
      { L.tcp ref with tm := { (L.tcp ref).tm with start := env.timeout_gettime L.calls } } := by
  simp [timeout_markstart, h]
@[simp] theorem markstart_tcp_ne (h : r ≠ ref) :
    (timeout_markstart env L ref).tcp r = L.tcp r := by
  simp [timeout_markstart, h]

@[simp] theorem timeout_init_stack : (timeout_init L ref block total).stack = L.stack := by
  simp [timeout_init]
@[simp] theorem timeout_init_calls : (timeout_init L ref block total).calls = L.calls := by
  simp [timeout_init]
@[simp] theorem timeout_init_index :
    (timeout_init L ref block total).index idx = L.index idx := by
  simp [timeout_init]
@[simp] theorem timeout_init_length :
    (timeout_init L ref block total).udata.length = L.udata.length := by
  simp [timeout_init]
@[simp] theorem timeout_init_classOf :
    (timeout_init L ref block total).classOf r = L.classOf r := by
  simp [timeout_init]
@[simp] theorem timeout_init_tcp_self (h : ref < L.udata.length) :
    (timeout_init L ref block total).tcp ref =
      { L.tcp ref with tm := { (L.tcp ref).tm with block := block, total := total } } := by
  simp [timeout_init, h]
@[simp] theorem timeout_init_tcp_ne (h : r ≠ ref) :
    (timeout_init L ref block total).tcp r = L.tcp r := by
  simp [timeout_init, h]

@[simp] theorem io_init_stack : (io_init L ref send recv error ctx).stack = L.stack := by
  simp [io_init]
@[simp] theorem io_init_calls : (io_init L ref send recv error ctx).calls = L.calls := by
  simp [io_init]
@[simp] theorem io_init_index :
    (io_init L ref send recv error ctx).index idx = L.index idx := by
  simp [io_init]
@[simp] theorem io_init_length :
    (io_init L ref send recv error ctx).udata.length = L.udata.length := by
  simp [io_init]
@[simp] theorem io_init_classOf :
    (io_init L ref send recv error ctx).classOf r = L.classOf r := by
  simp [io_init]
@[simp] theorem io_init_tcp_self (h : ref < L.udata.length) :
    (io_init L ref send recv error ctx).tcp ref =
      { L.tcp ref with io := { ctx := some ctx, send := send, recv := recv, error := error } } := by
  simp [io_init, h]
@[simp] theorem io_init_tcp_ne (h : r ≠ ref) :
    (io_init L ref send recv error ctx).tcp r = L.tcp r := by
  simp [io_init, h]

@[simp] theorem buffer_init_stack : (buffer_init env L ref io tm).stack = L.stack := by
  simp [buffer_init]
@[simp] theorem buffer_init_calls : (buffer_init env L ref io tm).calls = L.calls := by
  simp [buffer_init]
@[simp] theorem buffer_init_index : (buffer_init env L ref io tm).index idx = L.index idx := by
  simp [buffer_init]
@[simp] theorem buffer_init_length :
    (buffer_init env L ref io tm).udata.length = L.udata.length := by
  simp [buffer_init]
@[simp] theorem buffer_init_classOf :
    (buffer_init env L ref io tm).classOf r = L.classOf r := by
  simp [buffer_init]
@[simp] theorem buffer_init_tcp_self (h : ref < L.udata.length) :
    (buffer_init env L ref io tm).tcp ref =
      { L.tcp ref with buf := { (L.tcp ref).buf with first := 0, last := 0, io := some io,
                                                      tm := some tm, received := 0, sent := 0,
                                                      birthday := env.timeout_gettime L.calls } } := by
  simp [buffer_init, h]
@[simp] theorem buffer_init_tcp_ne (h : r ≠ ref) :
    (buffer_init env L ref io tm).tcp r = L.tcp r := by
  simp [buffer_init, h]

@[simp] theorem setnonblocking_stack (s : Int) : (socket_setnonblocking L s).stack = L.stack := rfl
@[simp] theorem setnonblocking_calls (s : Int) :
    (socket_setnonblocking L s).calls = L.calls ++ [Call.socket_setnonblocking s] := rfl
@[simp] theorem setnonblocking_udata (s : Int) : (socket_setnonblocking L s).udata = L.udata := rfl
@[simp] theorem setnonblocking_index (s : Int) :
    (socket_setnonblocking L s).index idx = L.index idx := rfl
@[simp] theorem setnonblocking_tcp (s : Int) : (socket_setnonblocking L s).tcp r = L.tcp r := rfl
@[simp] theorem setnonblocking_classOf (s : Int) :
    (socket_setnonblocking L s).classOf r = L.classOf r := rfl

end init

section parse
variable (env : Env) (L L' : lua_State) (idx : Int)

theorem optstring_frame (d s : Option String)
    (h : luaL_optstring env L idx d = Except.ok (s, L')) :
    L'.udata = L.udata ∧ L'.calls = L.calls := by
  unfold luaL_optstring at h
  split at h
  · simp at h; obtain ⟨_, rfl⟩ := h; exact ⟨rfl, rfl⟩
  · cases hc : luaL_checkstring env L idx with
    | error e => simp [hc] at h
    | ok p =>
      obtain ⟨s0, L0⟩ := p
      simp [hc] at h
      obtain ⟨_, rfl⟩ := h
      obtain ⟨hu, hcalls, -, -⟩ := checkstring_frame env L L0 idx s0 hc
      exact ⟨hu, hcalls⟩

theorem optfamily_frame (d : String) (family : Int)
    (h : inet_optfamily env L idx d = Except.ok (family, L')) :
    L'.udata = L.udata ∧ L'.calls = L.calls := by
  unfold inet_optfamily luaL_checkoption at h
  simp only [] at h
  cases ho : luaL_optstring env L idx (some d) with
  | error e => simp [ho] at h
  | ok p =>
    obtain ⟨s0, L0⟩ := p
    have hf := optstring_frame env L L0 idx (some d) s0 ho
    cases s0 with
    | none => simp [ho] at h
    | some name =>
      simp only [ho] at h
      by_cases hm : cstring name ∈ ["unspec", "inet", "inet6"]
      · simp only [hm, if_true] at h
        simp at h
        obtain ⟨_, rfl⟩ := h
        exact hf
      · simp only [hm, if_false] at h
        simp at h

/-- Argument parsing of the connect factory touches neither heap nor log. -/
theorem factory_parse_frame (La Lb Lc Ld Le : lua_State)
    (remoteaddr remoteserv : String) (localaddr localserv : Option String) (family : Int)
    (h1 : luaL_checkstring env L 1 = Except.ok (remoteaddr, La))
    (h2 : luaL_checkstring env La 2 = Except.ok (remoteserv, Lb))
    (h3 : luaL_optstring env Lb 3 none = Except.ok (localaddr, Lc))
    (h4 : luaL_optstring env Lc 4 (some "0") = Except.ok (localserv, Ld))
    (h5 : inet_optfamily env Ld 5 "unspec" = Except.ok (family, Le)) :
    Le.udata = L.udata ∧ Le.calls = L.calls := by
  obtain ⟨a1, a2, -, -⟩ := checkstring_frame env L La 1 remoteaddr h1
  obtain ⟨b1, b2, -, -⟩ := checkstring_frame env La Lb 2 remoteserv h2
  obtain ⟨c1, c2⟩ := optstring_frame env Lb Lc 3 none localaddr h3
  obtain ⟨d1, d2⟩ := optstring_frame env Lc Ld 4 (some "0") localserv h4
  obtain ⟨e1, e2⟩ := optfamily_frame env Ld Le 5 "unspec" family h5
  exact ⟨by rw [e1, d1, c1, b1, a1], by rw [e2, d2, c2, b2, a2]⟩

end parse

theorem results_two (L : lua_State) (s : List LuaValue) (a b : LuaValue)
    (h : L.stack = s ++ [a, b]) : (Outcome.ret 2 L).results = some [a, b] := by
  simp [Outcome.results, h]

theorem results_one (L : lua_State) (s : List LuaValue) (a : LuaValue)
    (h : L.stack = s ++ [a]) : (Outcome.ret 1 L).results = some [a] := by
  simp [Outcome.results, h]

/-! ## What each fallible call does, exit by exit -/

section runs
attribute [local irreducible] lua_State.tcp lua_State.classOf lua_State.setTcp auxiliar_setclass
  socket_destroy lua_State.index lua_State.setIndex

theorem tcp_create_failed (env : Env) (L : lua_State) (family : Int) (msg : String)
    (h : (env.inet_trycreate L.calls family SOCK_STREAM).1 = some msg) :
    ∃ L', tcp_create env L family = Outcome.ret 2 L' ∧
      L'.stack = L.stack ++ [LuaValue.nil, LuaValue.string msg] ∧
      L'.udata = L.udata ∧
      L'.calls = L.calls ++ [Call.inet_trycreate family SOCK_STREAM] := by
  simp [tcp_create, h, lua_pushstring, lua_pushnil]

theorem tcp_create_ok (env : Env) (L : lua_State) (family : Int)
    (h : (env.inet_trycreate L.calls family SOCK_STREAM).1 = none) :
    ∃ L', tcp_create env L family = Outcome.ret 1 L' ∧
      L'.stack = L.stack ++ [LuaValue.userdata L.udata.length] ∧
      L'.classOf L.udata.length = some tcp_master := by
  simp only [tcp_create, h]
  refine ⟨_, rfl, ?_, ?_⟩
  · split <;> simp
  · split <;> simp [setclass_classOf _ L.udata.length L.udata.length tcp_master (-1)]

theorem tcp_meth_accept_failed (env : Env) (L : lua_State) (ref : Nat) (msg : String)
    (hobj : L.index 1 = some (LuaValue.userdata ref))
    (hcls : L.classOf ref = some tcp_server)
    (h : (env.inet_tryaccept L.calls (L.tcp ref).sock (L.tcp ref).family
      { (L.tcp ref).tm with start := env.timeout_gettime L.calls }).1 = some msg) :
    ∃ L', tcp_meth_accept env L = Outcome.ret 2 L' ∧
      L'.stack = L.stack ++ [LuaValue.nil, LuaValue.string msg] := by
  have hc : auxiliar_checkclass L tcp_server 1 = Except.ok ref :=
    checkclass_ok L ref tcp_server 1 hobj hcls
  have hlt : ref < L.udata.length := classOf_lt L ref tcp_server hcls
  simp only [tcp_meth_accept, hc]
  simp [hlt, h, lua_pushstring, lua_pushnil]

theorem tcp_meth_accept_ok (env : Env) (L : lua_State) (ref : Nat)
    (hobj : L.index 1 = some (LuaValue.userdata ref))
    (hcls : L.classOf ref = some tcp_server)
    (h : (env.inet_tryaccept L.calls (L.tcp ref).sock (L.tcp ref).family
      { (L.tcp ref).tm with start := env.timeout_gettime L.calls }).1 = none) :
    ∃ L', tcp_meth_accept env L = Outcome.ret 1 L' ∧
      L'.stack = L.stack ++ [LuaValue.userdata L.udata.length] ∧
      L'.classOf L.udata.length = some tcp_client := by
  have hc : auxiliar_checkclass L tcp_server 1 = Except.ok ref :=
    checkclass_ok L ref tcp_server 1 hobj hcls
  have hlt : ref < L.udata.length := classOf_lt L ref tcp_server hcls
  simp only [tcp_meth_accept, hc]
  simp [hlt, h, setclass_classOf _ L.udata.length L.udata.length tcp_client (-1)]

/-- The bind method on an accepted call: the attempt is logged, only the
descriptor of the object may change, and the exit follows the error. -/
theorem tcp_meth_bind_run (env : Env) (L La Lp : lua_State) (ref : Nat)
    (address port : String)
    (hobj : L.index 1 = some (LuaValue.userdata ref))
    (hcls : L.classOf ref = some tcp_master)
    (haddr : luaL_checkstring env L 2 = Except.ok (address, La))
    (hport : luaL_checkstring env La 3 = Except.ok (port, Lp)) :
    ∃ n L', tcp_meth_bind env L = Outcome.ret n L' ∧
      L'.calls = L.calls ++ [Call.inet_trybind (L.tcp ref).sock address port
        (bindhints_for (L.tcp ref).family)] ∧
      L'.classOf ref = some tcp_master ∧
      L'.tcp ref = { L.tcp ref with sock := (env.inet_trybind L.calls (L.tcp ref).sock address
        port (bindhints_for (L.tcp ref).family)).2.1 } ∧
      (Outcome.ret n L').obeys (env.inet_trybind L.calls (L.tcp ref).sock address port
        (bindhints_for (L.tcp ref).family)).1 := by
  have hc : auxiliar_checkclass L tcp_master 1 = Except.ok ref :=
    checkclass_ok L ref tcp_master 1 hobj hcls
  obtain ⟨hau, hac, -, -⟩ := checkstring_frame env L La 2 address haddr
  obtain ⟨hpu, hpc, -, -⟩ := checkstring_frame env La Lp 3 port hport
  have hu : Lp.udata = L.udata := hpu.trans hau
  have hlt : ref < Lp.udata.length := by
    rw [hu]; exact classOf_lt L ref tcp_master hcls
  have htcp : Lp.tcp ref = L.tcp ref := tcp_of_udata L Lp ref hu
  have hcl : Lp.classOf ref = L.classOf ref := classOf_of_udata L Lp ref hu
  have hcalls : Lp.calls = L.calls := hpc.trans hac
  simp only [tcp_meth_bind, hc, haddr, hport, htcp, hcalls]
  cases hb : (env.inet_trybind L.calls (L.tcp ref).sock address port
      (bindhints_for (L.tcp ref).family)).1 with
  | some msg =>
    refine ⟨2, _, rfl, ?_, ?_, ?_, ?_⟩
    · simp [lua_pushstring, lua_pushnil, hcalls]
    · simp [lua_pushstring, lua_pushnil, hcl, hcls]
    · simp [lua_pushstring, lua_pushnil, hlt, htcp]
    · exact results_two _ Lp.stack _ _ (by simp [lua_pushstring, lua_pushnil])
  | none =>
    refine ⟨1, _, rfl, ?_, ?_, ?_, ?_⟩
    · simp [lua_pushnumber, hcalls]
    · simp [lua_pushnumber, hcl, hcls]
    · simp [lua_pushnumber, hlt, htcp]
    · exact ⟨LuaValue.number 1, by simp,
        results_one _ Lp.stack _ (by simp [lua_pushnumber])⟩

/-- The connect method on an accepted call: the attempt is logged, the class
becomes "client", and the exit follows the error. -/
theorem tcp_meth_connect_run (env : Env) (L La Lp : lua_State) (ref : Nat)
    (cls address port : String)
    (hobj : L.index 1 = some (LuaValue.userdata ref))
    (hcls : L.classOf ref = some cls)
    (hrole : cls = tcp_master ∨ cls = tcp_client ∨ cls = tcp_server)
    (haddr : luaL_checkstring env L 2 = Except.ok (address, La))
    (hport : luaL_checkstring env La 3 = Except.ok (port, Lp)) :
    ∃ n L', tcp_meth_connect env L = Outcome.ret n L' ∧
      L'.calls = L.calls ++ [Call.inet_tryconnect (L.tcp ref).sock (L.tcp ref).family
        address port { (L.tcp ref).tm with start := env.timeout_gettime L.calls }
        (connecthints_for (L.tcp ref).family)] ∧
      L'.classOf ref = some tcp_client ∧
      (Outcome.ret n L').obeys (env.inet_tryconnect L.calls (L.tcp ref).sock (L.tcp ref).family
        address port { (L.tcp ref).tm with start := env.timeout_gettime L.calls }
        (connecthints_for (L.tcp ref).family)).1 := by
  have hg : auxiliar_checkgroup L tcp_any 1 = Except.ok ref :=
    checkgroup_ok L ref cls 1 hobj hcls hrole
  obtain ⟨hau, hac, -, hai⟩ := checkstring_frame env L La 2 address haddr
  obtain ⟨hpu, hpc, -, hpi⟩ := checkstring_frame env La Lp 3 port hport
  have hidx : Lp.index 1 = some (LuaValue.userdata ref) := by
    rw [hpi 1 (by decide) (by decide), hai 1 (by decide) (by decide)]; exact hobj
  have hu : Lp.udata = L.udata := hpu.trans hau
  have hlt : ref < Lp.udata.length := by
    rw [hu]; exact classOf_lt L ref cls hcls
  have htcp : Lp.tcp ref = L.tcp ref := tcp_of_udata L Lp ref hu
  have hcalls : Lp.calls = L.calls := hpc.trans hac
  simp only [tcp_meth_connect, hg, haddr, hport]
  simp only [markstart_tcp_self, markstart_calls, hlt, htcp, hcalls]
  cases hb : (env.inet_tryconnect L.calls (L.tcp ref).sock (L.tcp ref).family address port
      { (L.tcp ref).tm with start := env.timeout_gettime L.calls }
      (connecthints_for (L.tcp ref).family)).1 with
  | some msg =>
    refine ⟨2, _, rfl, ?_, ?_, ?_⟩
    · simp [lua_pushstring, lua_pushnil, hcalls]
    · simp [lua_pushstring, lua_pushnil, setclass_classOf _ ref ref tcp_client 1, hidx, hlt]
    · exact results_two _ Lp.stack _ _ (by simp [lua_pushstring, lua_pushnil])
  | none =>
    refine ⟨1, _, rfl, ?_, ?_, ?_⟩
    · simp [lua_pushnumber, hcalls]
    · simp [lua_pushnumber, setclass_classOf _ ref ref tcp_client 1, hidx, hlt]
    · exact ⟨LuaValue.number 1, by simp,
        results_one _ Lp.stack _ (by simp [lua_pushnumber])⟩

/-- The listen method on an accepted call obeys the two-value convention. -/
theorem tcp_meth_listen_obeys (env : Env) (L : lua_State) (ref : Nat) (backlog : Int)
    (hobj : L.index 1 = some (LuaValue.userdata ref))
    (hcls : L.classOf ref = some tcp_master)
    (hbacklog : luaL_optnumber env L 2 32 = Except.ok backlog) :
    (tcp_meth_listen env L).obeys
      (if env.socket_listen L.calls (L.tcp ref).sock backlog ≠ IO_DONE then
        some (env.socket_strerror (env.socket_listen L.calls (L.tcp ref).sock backlog))
       else none) := by
  have hc : auxiliar_checkclass L tcp_master 1 = Except.ok ref :=
    checkclass_ok L ref tcp_master 1 hobj hcls
  simp only [tcp_meth_listen, hc, hbacklog]
  by_cases herr : env.socket_listen L.calls (L.tcp ref).sock backlog = IO_DONE
  · rw [if_neg (not_not.mpr herr), if_neg (not_not.mpr herr)]
    exact ⟨LuaValue.number 1, by simp,
      results_one _ L.stack _ (by simp [lua_pushnumber])⟩
  · rw [if_pos herr, if_pos herr]
    exact results_two _ L.stack _ _ (by simp [lua_pushstring, lua_pushnil])

/-- The accept method on an accepted call obeys the two-value convention. -/
theorem tcp_meth_accept_obeys (env : Env) (L : lua_State) (ref : Nat)
    (hobj : L.index 1 = some (LuaValue.userdata ref))
    (hcls : L.classOf ref = some tcp_server) :
    (tcp_meth_accept env L).obeys (env.inet_tryaccept L.calls (L.tcp ref).sock
      (L.tcp ref).family { (L.tcp ref).tm with start := env.timeout_gettime L.calls }).1 := by
  cases h : (env.inet_tryaccept L.calls (L.tcp ref).sock (L.tcp ref).family
      { (L.tcp ref).tm with start := env.timeout_gettime L.calls }).1 with
  | some msg =>
    obtain ⟨L', he, hs⟩ := tcp_meth_accept_failed env L ref msg hobj hcls h
    rw [he]; exact results_two _ L.stack _ _ hs
  | none =>
    obtain ⟨L', he, hs, -⟩ := tcp_meth_accept_ok env L ref hobj hcls h
    rw [he]; exact ⟨_, by simp, results_one _ L.stack _ hs⟩

/-- The function `tcp_create` obeys the two-value convention. -/
theorem tcp_create_obeys (env : Env) (L : lua_State) (family : Int) :
    (tcp_create env L family).obeys (env.inet_trycreate L.calls family SOCK_STREAM).1 := by
  cases h : (env.inet_trycreate L.calls family SOCK_STREAM).1 with
  | some msg =>
    obtain ⟨L', he, hs, -⟩ := tcp_create_failed env L family msg h
    rw [he]; exact results_two _ L.stack _ _ hs
  | none =>
    obtain ⟨L', he, hs, -⟩ := tcp_create_ok env L family h
    rw [he]; exact ⟨_, by simp, results_one _ L.stack _ hs⟩

section factory
variable (env : Env) (L La Lb Lc Ld Le : lua_State)
  (remoteaddr remoteserv localaddr : String) (localserv : Option String) (family : Int)

/-- The connect factory when the local bind fails: it returns nil and the
message right after the bind attempt. -/
theorem factory_bind_failed (msg : String)
    (h1 : luaL_checkstring env L 1 = Except.ok (remoteaddr, La))
    (h2 : luaL_checkstring env La 2 = Except.ok (remoteserv, Lb))
    (h3 : luaL_optstring env Lb 3 none = Except.ok (some localaddr, Lc))
    (h4 : luaL_optstring env Lc 4 (some "0") = Except.ok (localserv, Ld))
    (h5 : inet_optfamily env Ld 5 "unspec" = Except.ok (family, Le))
    (hb : (env.inet_trybind Le.calls SOCKET_INVALID localaddr (localserv.getD "0")
      (bindhints_for family)).1 = some msg) :
    ∃ L', tcp_global_connect env L = Outcome.ret 2 L' ∧
      L'.stack = Le.stack ++ [LuaValue.userdata Le.udata.length] ++
        [LuaValue.nil, LuaValue.string msg] ∧
      L'.calls = Le.calls ++ [Call.inet_trybind SOCKET_INVALID localaddr (localserv.getD "0")
        (bindhints_for family)] ∧
      L'.classOf Le.udata.length = none ∧
      (L'.tcp Le.udata.length).sock = (env.inet_trybind Le.calls SOCKET_INVALID localaddr
        (localserv.getD "0") (bindhints_for family)).2.1 := by
  simp only [tcp_global_connect, h1, h2, h3, h4, h5]
  simp [hb, lua_pushstring, lua_pushnil, classOf_fresh]

/-- The connect factory without a local host, connect failing: the attempt
is the first call made, the descriptor is destroyed and the object is left
without class. -/
theorem factory_direct_failed (msg : String)
    (h1 : luaL_checkstring env L 1 = Except.ok (remoteaddr, La))
    (h2 : luaL_checkstring env La 2 = Except.ok (remoteserv, Lb))
    (h3 : luaL_optstring env Lb 3 none = Except.ok (none, Lc))
    (h4 : luaL_optstring env Lc 4 (some "0") = Except.ok (localserv, Ld))
    (h5 : inet_optfamily env Ld 5 "unspec" = Except.ok (family, Le))
    (hc : (env.inet_tryconnect Le.calls SOCKET_INVALID PF_UNSPEC remoteaddr remoteserv
      noTimeout (connecthints_for family)).1 = some msg) :
    ∃ L', tcp_global_connect env L = Outcome.ret 2 L' ∧
      L'.stack = Le.stack ++ [LuaValue.userdata Le.udata.length] ++
        [LuaValue.nil, LuaValue.string msg] ∧
      L'.calls = Le.calls ++ Call.inet_tryconnect SOCKET_INVALID PF_UNSPEC remoteaddr
        remoteserv noTimeout (connecthints_for family) ::
        destroyCalls (env.inet_tryconnect Le.calls SOCKET_INVALID PF_UNSPEC remoteaddr
          remoteserv noTimeout (connecthints_for family)).2.1 ∧
      L'.classOf Le.udata.length = none ∧
      (L'.tcp Le.udata.length).sock = SOCKET_INVALID := by
  simp only [noTimeout] at hc ⊢
  simp only [tcp_global_connect, h1, h2, h3, h4, h5]
  simp [t_tcp.zero, t_timeout.zero, bindhints_for, hc, lua_pushstring, lua_pushnil,
    classOf_fresh, destroy_calls, destroy_sock, destroyCalls]

/-- The connect factory without a local host, connect succeeding: the attempt
is the only call made and the object is tagged "client". -/
theorem factory_direct_ok
    (h1 : luaL_checkstring env L 1 = Except.ok (remoteaddr, La))
    (h2 : luaL_checkstring env La 2 = Except.ok (remoteserv, Lb))
    (h3 : luaL_optstring env Lb 3 none = Except.ok (none, Lc))
    (h4 : luaL_optstring env Lc 4 (some "0") = Except.ok (localserv, Ld))
    (h5 : inet_optfamily env Ld 5 "unspec" = Except.ok (family, Le))
    (hc : (env.inet_tryconnect Le.calls SOCKET_INVALID PF_UNSPEC remoteaddr remoteserv
      noTimeout (connecthints_for family)).1 = none) :
    ∃ L', tcp_global_connect env L = Outcome.ret 1 L' ∧
      L'.stack = Le.stack ++ [LuaValue.userdata Le.udata.length] ∧
      L'.calls = Le.calls ++ [Call.inet_tryconnect SOCKET_INVALID PF_UNSPEC remoteaddr
        remoteserv noTimeout (connecthints_for family)] ∧
      L'.classOf Le.udata.length = some tcp_client := by
  simp only [noTimeout] at hc ⊢
  simp only [tcp_global_connect, h1, h2, h3, h4, h5]
  simp [t_tcp.zero, t_timeout.zero, bindhints_for, hc,
    setclass_classOf _ Le.udata.length Le.udata.length tcp_client (-1)]

/-- The connect factory with a local host, bind succeeding and connect
failing: bind and connect are attempted in this order, the descriptor is
destroyed and the object is left without class. -/
theorem factory_bound_failed (msg : String)
    (h1 : luaL_checkstring env L 1 = Except.ok (remoteaddr, La))
    (h2 : luaL_checkstring env La 2 = Except.ok (remoteserv, Lb))
    (h3 : luaL_optstring env Lb 3 none = Except.ok (some localaddr, Lc))
    (h4 : luaL_optstring env Lc 4 (some "0") = Except.ok (localserv, Ld))
    (h5 : inet_optfamily env Ld 5 "unspec" = Except.ok (family, Le))
    (hb : (env.inet_trybind Le.calls SOCKET_INVALID localaddr (localserv.getD "0")
      (bindhints_for family)).1 = none)
    (hc : (env.inet_tryconnect
      (Le.calls ++ [Call.inet_trybind SOCKET_INVALID localaddr (localserv.getD "0")
        (bindhints_for family)])
      (env.inet_trybind Le.calls SOCKET_INVALID localaddr (localserv.getD "0")
        (bindhints_for family)).2.1
      (env.inet_trybind Le.calls SOCKET_INVALID localaddr (localserv.getD "0")
        (bindhints_for family)).2.2.ai_family
      remoteaddr remoteserv noTimeout
      (connecthints_for (env.inet_trybind Le.calls SOCKET_INVALID localaddr
        (localserv.getD "0") (bindhints_for family)).2.2.ai_family)).1 = some msg) :
    ∃ L', tcp_global_connect env L = Outcome.ret 2 L' ∧
      L'.stack = Le.stack ++ [LuaValue.userdata Le.udata.length] ++
        [LuaValue.nil, LuaValue.string msg] ∧
      L'.calls = Le.calls ++
        Call.inet_trybind SOCKET_INVALID localaddr (localserv.getD "0") (bindhints_for family) ::
        Call.inet_tryconnect
          (env.inet_trybind Le.calls SOCKET_INVALID localaddr (localserv.getD "0")
            (bindhints_for family)).2.1
          (env.inet_trybind Le.calls SOCKET_INVALID localaddr (localserv.getD "0")
            (bindhints_for family)).2.2.ai_family
          remoteaddr remoteserv noTimeout
          (connecthints_for (env.inet_trybind Le.calls SOCKET_INVALID localaddr
            (localserv.getD "0") (bindhints_for family)).2.2.ai_family) ::
        destroyCalls (env.inet_tryconnect
          (Le.calls ++ [Call.inet_trybind SOCKET_INVALID localaddr (localserv.getD "0")
            (bindhints_for family)])
          (env.inet_trybind Le.calls SOCKET_INVALID localaddr (localserv.getD "0")
            (bindhints_for family)).2.1
          (env.inet_trybind Le.calls SOCKET_INVALID localaddr (localserv.getD "0")
            (bindhints_for family)).2.2.ai_family
          remoteaddr remoteserv noTimeout
          (connecthints_for (env.inet_trybind Le.calls SOCKET_INVALID localaddr
            (localserv.getD "0") (bindhints_for family)).2.2.ai_family)).2.1 ∧
      L'.classOf Le.udata.length = none ∧
      (L'.tcp Le.udata.length).sock = SOCKET_INVALID := by
  simp only [noTimeout] at hc ⊢
  simp only [tcp_global_connect, h1, h2, h3, h4, h5]
  simp [t_tcp.zero, t_timeout.zero, hb, hc, lua_pushstring, lua_pushnil,
    classOf_fresh, destroy_calls, destroy_sock, destroyCalls]

/-- The connect factory with a local host, bind and connect succeeding: bind
and connect are the only calls made, in this order, and the object is tagged
"client". -/
theorem factory_bound_ok
    (h1 : luaL_checkstring env L 1 = Except.ok (remoteaddr, La))
    (h2 : luaL_checkstring env La 2 = Except.ok (remoteserv, Lb))
    (h3 : luaL_optstring env Lb 3 none = Except.ok (some localaddr, Lc))
    (h4 : luaL_optstring env Lc 4 (some "0") = Except.ok (localserv, Ld))
    (h5 : inet_optfamily env Ld 5 "unspec" = Except.ok (family, Le))
    (hb : (env.inet_trybind Le.calls SOCKET_INVALID localaddr (localserv.getD "0")
      (bindhints_for family)).1 = none)
    (hc : (env.inet_tryconnect
      (Le.calls ++ [Call.inet_trybind SOCKET_INVALID localaddr (localserv.getD "0")
        (bindhints_for family)])
      (env.inet_trybind Le.calls SOCKET_INVALID localaddr (localserv.getD "0")
        (bindhints_for family)).2.1
      (env.inet_trybind Le.calls SOCKET_INVALID localaddr (localserv.getD "0")
        (bindhints_for family)).2.2.ai_family
      remoteaddr remoteserv noTimeout
      (connecthints_for (env.inet_trybind Le.calls SOCKET_INVALID localaddr
        (localserv.getD "0") (bindhints_for family)).2.2.ai_family)).1 = none) :
    ∃ L', tcp_global_connect env L = Outcome.ret 1 L' ∧
      L'.stack = Le.stack ++ [LuaValue.userdata Le.udata.length] ∧
      L'.calls = Le.calls ++
        [Call.inet_trybind SOCKET_INVALID localaddr (localserv.getD "0") (bindhints_for family),
         Call.inet_tryconnect
          (env.inet_trybind Le.calls SOCKET_INVALID localaddr (localserv.getD "0")
            (bindhints_for family)).2.1
          (env.inet_trybind Le.calls SOCKET_INVALID localaddr (localserv.getD "0")
            (bindhints_for family)).2.2.ai_family
          remoteaddr remoteserv noTimeout
          (connecthints_for (env.inet_trybind Le.calls SOCKET_INVALID localaddr
            (localserv.getD "0") (bindhints_for family)).2.2.ai_family)] ∧
      L'.classOf Le.udata.length = some tcp_client := by
  simp only [noTimeout] at hc ⊢
  simp only [tcp_global_connect, h1, h2, h3, h4, h5]
  simp [t_tcp.zero, t_timeout.zero, hb, hc,
    setclass_classOf _ Le.udata.length Le.udata.length tcp_client (-1)]

end factory
end runs

section claims
attribute [local irreducible] lua_State.tcp lua_State.classOf lua_State.setTcp auxiliar_setclass
  socket_destroy lua_State.index lua_State.setIndex

/-- The connect factory, exit by exit, in terms of the verdict of the
operations underneath: a ready client when there is no error, nil and the
message with a classless object otherwise. -/
theorem factory_verdict_spec (env : Env) (L La Lb Lc Ld Le : lua_State)
    (remoteaddr remoteserv : String) (localaddr localserv : Option String) (family : Int)
    (h1 : luaL_checkstring env L 1 = Except.ok (remoteaddr, La))
    (h2 : luaL_checkstring env La 2 = Except.ok (remoteserv, Lb))
    (h3 : luaL_optstring env Lb 3 none = Except.ok (localaddr, Lc))
    (h4 : luaL_optstring env Lc 4 (some "0") = Except.ok (localserv, Ld))
    (h5 : inet_optfamily env Ld 5 "unspec" = Except.ok (family, Le)) :
    match factoryVerdict env L.calls remoteaddr remoteserv localaddr (localserv.getD "0")
        family with
    | none => (tcp_global_connect env L).readyClient L.udata.length
    | some msg => (tcp_global_connect env L).failedWith L.udata.length msg := by
  obtain ⟨hu, hcalls⟩ := factory_parse_frame env L La Lb Lc Ld Le remoteaddr remoteserv
    localaddr localserv family h1 h2 h3 h4 h5
  rw [← hu, ← hcalls]
  cases localaddr with
  | none =>
    simp only [factoryVerdict, factoryDirectConnect]
    cases hc : (env.inet_tryconnect Le.calls SOCKET_INVALID PF_UNSPEC remoteaddr remoteserv
        noTimeout (connecthints_for family)).1 with
    | some msg =>
      obtain ⟨L', he, hs, -, hcl, -⟩ := factory_direct_failed env L La Lb Lc Ld Le remoteaddr
        remoteserv localserv family msg h1 h2 h3 h4 h5 hc
      exact ⟨by rw [he]; exact results_two _ _ _ _ hs, by rw [he]; exact hcl⟩
    | none =>
      obtain ⟨L', he, hs, -, hcl⟩ := factory_direct_ok env L La Lb Lc Ld Le remoteaddr
        remoteserv localserv family h1 h2 h3 h4 h5 hc
      exact ⟨by rw [he]; exact results_one _ _ _ hs, by rw [he]; exact hcl⟩
  | some la =>
    simp only [factoryVerdict, factoryBoundConnect, factoryBind]
    cases hb : (env.inet_trybind Le.calls SOCKET_INVALID la (localserv.getD "0")
        (bindhints_for family)).1 with
    | some msg =>
      obtain ⟨L', he, hs, -, hcl, -⟩ := factory_bind_failed env L La Lb Lc Ld Le remoteaddr
        remoteserv la localserv family msg h1 h2 h3 h4 h5 hb
      exact ⟨by rw [he]; exact results_two _ _ _ _ hs, by rw [he]; exact hcl⟩
    | none =>
      simp only []
      cases hc : (env.inet_tryconnect
          (Le.calls ++ [Call.inet_trybind SOCKET_INVALID la (localserv.getD "0")
            (bindhints_for family)])
          (env.inet_trybind Le.calls SOCKET_INVALID la (localserv.getD "0")
            (bindhints_for family)).2.1
          (env.inet_trybind Le.calls SOCKET_INVALID la (localserv.getD "0")
            (bindhints_for family)).2.2.ai_family
          remoteaddr remoteserv noTimeout
          (connecthints_for (env.inet_trybind Le.calls SOCKET_INVALID la
            (localserv.getD "0") (bindhints_for family)).2.2.ai_family)).1 with
      | some msg =>
        obtain ⟨L', he, hs, -, hcl, -⟩ := factory_bound_failed env L La Lb Lc Ld Le remoteaddr
          remoteserv la localserv family msg h1 h2 h3 h4 h5 hb hc
        exact ⟨by rw [he]; exact results_two _ _ _ _ hs, by rw [he]; exact hcl⟩
      | none =>
        obtain ⟨L', he, hs, -, hcl⟩ := factory_bound_ok env L La Lb Lc Ld Le remoteaddr
          remoteserv la localserv family h1 h2 h3 h4 h5 hb hc
        exact ⟨by rw [he]; exact results_one _ _ _ hs, by rw [he]; exact hcl⟩

/-- Claim C5: the two-value failure convention.  For tcp, tcp6, the standalone
connect factory, bind, listen, connect and accept, on every call whose
arguments are accepted and for every outcome of the socket or resolver
operation underneath, exactly one value, not nil, is returned when that
operation succeeds, and exactly nil and the message string when it fails. -/
theorem two_value_convention (env : Env)
    (Lt : lua_State)
    (Lf Lf1 Lf2 Lf3 Lf4 Lf5 : lua_State) (remoteaddr remoteserv : String)
    (localaddr localserv : Option String) (family : Int)
    (hf1 : luaL_checkstring env Lf 1 = Except.ok (remoteaddr, Lf1))
    (hf2 : luaL_checkstring env Lf1 2 = Except.ok (remoteserv, Lf2))
    (hf3 : luaL_optstring env Lf2 3 none = Except.ok (localaddr, Lf3))
    (hf4 : luaL_optstring env Lf3 4 (some "0") = Except.ok (localserv, Lf4))
    (hf5 : inet_optfamily env Lf4 5 "unspec" = Except.ok (family, Lf5))
    (Lb Lb1 Lb2 : lua_State) (bref : Nat) (baddr bport : String)
    (hb1 : Lb.index 1 = some (LuaValue.userdata bref))
    (hb2 : Lb.classOf bref = some tcp_master)
    (hb3 : luaL_checkstring env Lb 2 = Except.ok (baddr, Lb1))
    (hb4 : luaL_checkstring env Lb1 3 = Except.ok (bport, Lb2))
    (Ll : lua_State) (lref : Nat) (backlog : Int)
    (hl1 : Ll.index 1 = some (LuaValue.userdata lref))
    (hl2 : Ll.classOf lref = some tcp_master)
    (hl3 : luaL_optnumber env Ll 2 32 = Except.ok backlog)
    (Lc Lc1 Lc2 : lua_State) (cref : Nat) (ccls caddr cport : String)
    (hc1 : Lc.index 1 = some (LuaValue.userdata cref))
    (hc2 : Lc.classOf cref = some ccls)
    (hc3 : ccls = tcp_master ∨ ccls = tcp_client ∨ ccls = tcp_server)
    (hc4 : luaL_checkstring env Lc 2 = Except.ok (caddr, Lc1))
    (hc5 : luaL_checkstring env Lc1 3 = Except.ok (cport, Lc2))
    (La : lua_State) (aref : Nat)
    (ha1 : La.index 1 = some (LuaValue.userdata aref))
    (ha2 : La.classOf aref = some tcp_server) :
    (tcp_global_create env Lt).obeys (env.inet_trycreate Lt.calls AF_INET SOCK_STREAM).1 ∧
    (tcp_global_create6 env Lt).obeys (env.inet_trycreate Lt.calls AF_INET6 SOCK_STREAM).1 ∧
    (tcp_global_connect env Lf).obeys
      (factoryVerdict env Lf.calls remoteaddr remoteserv localaddr (localserv.getD "0")
        family) ∧
    (tcp_meth_bind env Lb).obeys
      (env.inet_trybind Lb.calls (Lb.tcp bref).sock baddr bport
        (bindhints_for (Lb.tcp bref).family)).1 ∧
    (tcp_meth_listen env Ll).obeys
      (if env.socket_listen Ll.calls (Ll.tcp lref).sock backlog ≠ IO_DONE then
        some (env.socket_strerror (env.socket_listen Ll.calls (Ll.tcp lref).sock backlog))
       else none) ∧
    (tcp_meth_connect env Lc).obeys
      (env.inet_tryconnect Lc.calls (Lc.tcp cref).sock (Lc.tcp cref).family caddr cport
        { (Lc.tcp cref).tm with start := env.timeout_gettime Lc.calls }
        (connecthints_for (Lc.tcp cref).family)).1 ∧
    (tcp_meth_accept env La).obeys
      (env.inet_tryaccept La.calls (La.tcp aref).sock (La.tcp aref).family
        { (La.tcp aref).tm with start := env.timeout_gettime La.calls }).1 := by
  refine ⟨tcp_create_obeys env Lt AF_INET, tcp_create_obeys env Lt AF_INET6, ?_, ?_,
    tcp_meth_listen_obeys env Ll lref backlog hl1 hl2 hl3, ?_,
    tcp_meth_accept_obeys env La aref ha1 ha2⟩
  · have h := factory_verdict_spec env Lf Lf1 Lf2 Lf3 Lf4 Lf5 remoteaddr remoteserv localaddr
      localserv family hf1 hf2 hf3 hf4 hf5
    cases hv : factoryVerdict env Lf.calls remoteaddr remoteserv localaddr
        (localserv.getD "0") family with
    | none =>
      rw [hv] at h
      exact ⟨LuaValue.userdata Lf.udata.length, by simp, h.1⟩
    | some msg =>
      rw [hv] at h
      exact h.1
  · obtain ⟨n, L', he, -, -, -, ho⟩ := tcp_meth_bind_run env Lb Lb1 Lb2 bref baddr bport
      hb1 hb2 hb3 hb4
    rw [he]; exact ho
  · obtain ⟨n, L', he, -, -, ho⟩ := tcp_meth_connect_run env Lc Lc1 Lc2 cref ccls caddr cport
      hc1 hc2 hc3 hc4 hc5
    rw [he]; exact ho

end claims

/-- Claim C5 at concrete inputs, with every remote connect refused: the two
constructors, bind, listen and accept return one value, the connect factory
and the connect method return nil and "connection refused". -/
theorem two_value_convention_witness :
    (∃ v, v ≠ LuaValue.nil ∧ (tcp_global_create refusingEnv (functionCall [])).results
      = some [v]) ∧
    (∃ v, v ≠ LuaValue.nil ∧ (tcp_global_create6 refusingEnv (functionCall [])).results
      = some [v]) ∧
    (tcp_global_connect refusingEnv
      (functionCall [LuaValue.string "example.org", LuaValue.number 80])).results
      = some [LuaValue.nil, LuaValue.string "connection refused"] ∧
    (∃ v, v ≠ LuaValue.nil ∧ (tcp_meth_bind refusingEnv
      (methodCall tcp_master 5 [LuaValue.string "*", LuaValue.number 8080])).results
      = some [v]) ∧
    (∃ v, v ≠ LuaValue.nil ∧ (tcp_meth_listen refusingEnv
      (methodCall tcp_master 5 [])).results = some [v]) ∧
    (tcp_meth_connect refusingEnv
      (methodCall tcp_client 5 [LuaValue.string "example.org", LuaValue.number 80])).results
      = some [LuaValue.nil, LuaValue.string "connection refused"] ∧
    (∃ v, v ≠ LuaValue.nil ∧ (tcp_meth_accept refusingEnv
      (methodCall tcp_server 5 [])).results = some [v]) :=
  two_value_convention refusingEnv
    (functionCall [])
    (functionCall [LuaValue.string "example.org", LuaValue.number 80]) _ _ _ _ _
    "example.org" "80" none (some "0") PF_UNSPEC rfl rfl rfl rfl rfl
    (methodCall tcp_master 5 [LuaValue.string "*", LuaValue.number 8080]) _ _ 0 "*" "8080"
    (by decide) (by decide) rfl rfl
    (methodCall tcp_master 5 []) 0 32 (by decide) (by decide) rfl
    (methodCall tcp_client 5 [LuaValue.string "example.org", LuaValue.number 80]) _ _ 0
    tcp_client "example.org" "80" (by decide) (by decide) (by decide) rfl rfl
    (methodCall tcp_server 5 []) 0 (by decide) (by decide)

section claims2
attribute [local irreducible] lua_State.tcp lua_State.classOf lua_State.setTcp auxiliar_setclass
  socket_destroy lua_State.index lua_State.setIndex

/-- Claim C6: for every master entity, address and port, when bind fails the call
returns nil and the string of the failure, and the entity is still a master
with the family, timeout and buffer state it had before the call. -/
theorem tcp_meth_bind_failure (env : Env) (L La Lp : lua_State) (ref : Nat)
    (address port msg : String)
    (hobj : L.index 1 = some (LuaValue.userdata ref))
    (hcls : L.classOf ref = some tcp_master)
    (haddr : luaL_checkstring env L 2 = Except.ok (address, La))
    (hport : luaL_checkstring env La 3 = Except.ok (port, Lp))
    (hfail : (env.inet_trybind L.calls (L.tcp ref).sock address port
      (bindhints_for (L.tcp ref).family)).1 = some msg) :
    (tcp_meth_bind env L).results = some [LuaValue.nil, LuaValue.string msg] ∧
    (tcp_meth_bind env L).state.classOf ref = some tcp_master ∧
    ((tcp_meth_bind env L).state.tcp ref).family = (L.tcp ref).family ∧
    ((tcp_meth_bind env L).state.tcp ref).tm = (L.tcp ref).tm ∧
    ((tcp_meth_bind env L).state.tcp ref).buf = (L.tcp ref).buf := by
  obtain ⟨n, L', he, -, hcl, ht, ho⟩ := tcp_meth_bind_run env L La Lp ref address port
    hobj hcls haddr hport
  rw [hfail] at ho
  rw [he]
  refine ⟨ho, hcl, ?_, ?_, ?_⟩ <;> simp [Outcome.state, ht]

/-- Claim C7: in the standalone connect factory, when a local host is supplied
and the local bind fails, nil and the bind error string are returned and the
bind attempt is the only call made, so the remote connect is never attempted;
when no local host is supplied, the connect attempt is the first call made and
no bind is attempted. -/
theorem factory_local_bind_gate (env : Env) (L La Lb Lc Ld Le : lua_State)
    (remoteaddr remoteserv : String) (localaddr localserv : Option String) (family : Int)
    (h1 : luaL_checkstring env L 1 = Except.ok (remoteaddr, La))
    (h2 : luaL_checkstring env La 2 = Except.ok (remoteserv, Lb))
    (h3 : luaL_optstring env Lb 3 none = Except.ok (localaddr, Lc))
    (h4 : luaL_optstring env Lc 4 (some "0") = Except.ok (localserv, Ld))
    (h5 : inet_optfamily env Ld 5 "unspec" = Except.ok (family, Le)) :
    (∀ la msg, localaddr = some la →
      (factoryBind env L.calls la (localserv.getD "0") family).1 = some msg →
      (tcp_global_connect env L).results = some [LuaValue.nil, LuaValue.string msg] ∧
      (tcp_global_connect env L).state.calls = L.calls ++
        [Call.inet_trybind SOCKET_INVALID la (localserv.getD "0") (bindhints_for family)]) ∧
    (localaddr = none →
      ∃ rest, (tcp_global_connect env L).state.calls = L.calls ++
          Call.inet_tryconnect SOCKET_INVALID PF_UNSPEC remoteaddr remoteserv noTimeout
            (connecthints_for family) :: rest ∧
        ∀ s a p h, Call.inet_trybind s a p h ∉ rest) := by
  obtain ⟨hu, hcalls⟩ := factory_parse_frame env L La Lb Lc Ld Le remoteaddr remoteserv
    localaddr localserv family h1 h2 h3 h4 h5
  rw [← hcalls]
  refine ⟨fun la msg hla hb => ?_, fun hno => ?_⟩
  · subst hla
    obtain ⟨L', he, hs, hc, -, -⟩ := factory_bind_failed env L La Lb Lc Ld Le remoteaddr
      remoteserv la localserv family msg h1 h2 h3 h4 h5 hb
    rw [he]
    exact ⟨results_two _ _ _ _ hs, hc⟩
  · subst hno
    cases hc : (env.inet_tryconnect Le.calls SOCKET_INVALID PF_UNSPEC remoteaddr remoteserv
        noTimeout (connecthints_for family)).1 with
    | some msg =>
      obtain ⟨L', he, -, hcs, -, -⟩ := factory_direct_failed env L La Lb Lc Ld Le remoteaddr
        remoteserv localserv family msg h1 h2 h3 h4 h5 hc
      rw [he]
      refine ⟨_, hcs, ?_⟩
      intro s a p h hmem
      simp only [destroyCalls] at hmem
      split at hmem <;> simp at hmem
    | none =>
      obtain ⟨L', he, -, hcs, -⟩ := factory_direct_ok env L La Lb Lc Ld Le remoteaddr
        remoteserv localserv family h1 h2 h3 h4 h5 hc
      rw [he]
      exact ⟨[], hcs, fun _ _ _ _ hmem => by simp at hmem⟩

/-- Claim C8: the standalone connect factory returns the object it allocated,
tagged "client", exactly when the verdict of the operations underneath is
"no error", that is when the local bind (if requested) and the remote connect
both succeed; in every other case it returns nil and the message, and the
object it allocated has no class at all. -/
theorem factory_client_or_nothing (env : Env) (L La Lb Lc Ld Le : lua_State)
    (remoteaddr remoteserv : String) (localaddr localserv : Option String) (family : Int)
    (h1 : luaL_checkstring env L 1 = Except.ok (remoteaddr, La))
    (h2 : luaL_checkstring env La 2 = Except.ok (remoteserv, Lb))
    (h3 : luaL_optstring env Lb 3 none = Except.ok (localaddr, Lc))
    (h4 : luaL_optstring env Lc 4 (some "0") = Except.ok (localserv, Ld))
    (h5 : inet_optfamily env Ld 5 "unspec" = Except.ok (family, Le)) :
    ((tcp_global_connect env L).readyClient L.udata.length ↔
      factoryVerdict env L.calls remoteaddr remoteserv localaddr (localserv.getD "0") family
        = none) ∧
    (∀ msg, factoryVerdict env L.calls remoteaddr remoteserv localaddr (localserv.getD "0")
        family = some msg →
      (tcp_global_connect env L).failedWith L.udata.length msg) := by
  have h := factory_verdict_spec env L La Lb Lc Ld Le remoteaddr remoteserv localaddr
    localserv family h1 h2 h3 h4 h5
  cases hv : factoryVerdict env L.calls remoteaddr remoteserv localaddr (localserv.getD "0")
      family with
  | none =>
    rw [hv] at h
    exact ⟨⟨fun _ => rfl, fun _ => h⟩, fun msg hm => by cases hm⟩
  | some msg =>
    rw [hv] at h
    refine ⟨⟨fun hr => ?_, fun hn => by cases hn⟩, fun m hm => ?_⟩
    · have := hr.1.symm.trans h.1
      simp at this
    · cases hm; exact h

/-- The remote-connect failure exit of the standalone connect factory, the
sibling of its bind failure exit: with or without a preceding local bind,
socket destroy is applied to the descriptor the connect attempt left in the
object under construction before nil and the message are returned, and the
object then holds the invalid sentinel. -/
theorem factory_connect_failure_destroys (env : Env) (L La Lb Lc Ld Le : lua_State)
    (remoteaddr remoteserv msg : String) (localaddr localserv : Option String) (family : Int)
    (h1 : luaL_checkstring env L 1 = Except.ok (remoteaddr, La))
    (h2 : luaL_checkstring env La 2 = Except.ok (remoteserv, Lb))
    (h3 : luaL_optstring env Lb 3 none = Except.ok (localaddr, Lc))
    (h4 : luaL_optstring env Lc 4 (some "0") = Except.ok (localserv, Ld))
    (h5 : inet_optfamily env Ld 5 "unspec" = Except.ok (family, Le)) :
    (localaddr = none →
      (factoryDirectConnect env L.calls remoteaddr remoteserv family).1 = some msg →
      (tcp_global_connect env L).results = some [LuaValue.nil, LuaValue.string msg] ∧
      (tcp_global_connect env L).state.calls = L.calls ++
        Call.inet_tryconnect SOCKET_INVALID PF_UNSPEC remoteaddr remoteserv noTimeout
          (connecthints_for family) ::
        destroyCalls (factoryDirectConnect env L.calls remoteaddr remoteserv family).2.1 ∧
      ((tcp_global_connect env L).state.tcp L.udata.length).sock = SOCKET_INVALID) ∧
    (∀ la, localaddr = some la →
      (factoryBind env L.calls la (localserv.getD "0") family).1 = none →
      (factoryBoundConnect env L.calls remoteaddr remoteserv la (localserv.getD "0")
        family).1 = some msg →
      (tcp_global_connect env L).results = some [LuaValue.nil, LuaValue.string msg] ∧
      (tcp_global_connect env L).state.calls = L.calls ++
        Call.inet_trybind SOCKET_INVALID la (localserv.getD "0") (bindhints_for family) ::
        Call.inet_tryconnect
          (factoryBind env L.calls la (localserv.getD "0") family).2.1
          (factoryBind env L.calls la (localserv.getD "0") family).2.2.ai_family
          remoteaddr remoteserv noTimeout
          (connecthints_for
            (factoryBind env L.calls la (localserv.getD "0") family).2.2.ai_family) ::
        destroyCalls (factoryBoundConnect env L.calls remoteaddr remoteserv la
          (localserv.getD "0") family).2.1 ∧
      ((tcp_global_connect env L).state.tcp L.udata.length).sock = SOCKET_INVALID) := by
  obtain ⟨hu, hcalls⟩ := factory_parse_frame env L La Lb Lc Ld Le remoteaddr remoteserv
    localaddr localserv family h1 h2 h3 h4 h5
  rw [← hcalls, ← hu]
  refine ⟨fun hno hc => ?_, fun la hla hb hc => ?_⟩
  · subst hno
    obtain ⟨L', he, hs, hcs, -, hsock⟩ := factory_direct_failed env L La Lb Lc Ld Le
      remoteaddr remoteserv localserv family msg h1 h2 h3 h4 h5 hc
    rw [he]
    exact ⟨results_two _ _ _ _ hs, hcs, hsock⟩
  · subst hla
    obtain ⟨L', he, hs, hcs, -, hsock⟩ := factory_bound_failed env L La Lb Lc Ld Le
      remoteaddr remoteserv la localserv family msg h1 h2 h3 h4 h5 hb hc
    rw [he]
    exact ⟨results_two _ _ _ _ hs, hcs, hsock⟩

end claims2

section claims3
attribute [local irreducible] lua_State.tcp lua_State.classOf lua_State.setTcp auxiliar_setclass
  socket_destroy lua_State.index lua_State.setIndex

/-- The close method on an object of any of the three classes: it returns the
number 1 after `socket_destroy` on the object. -/
theorem tcp_meth_close_run (L : lua_State) (ref : Nat) (cls : String)
    (hobj : L.index 1 = some (LuaValue.userdata ref))
    (hcls : L.classOf ref = some cls)
    (hrole : cls = tcp_master ∨ cls = tcp_client ∨ cls = tcp_server) :
    tcp_meth_close L = Outcome.ret 1 (lua_pushnumber (socket_destroy L ref) 1) := by
  simp [tcp_meth_close, checkgroup_ok L ref cls 1 hobj hcls hrole]

theorem releases_destroyCalls (sock : Int) :
    releases (destroyCalls sock) = if sock ≠ SOCKET_INVALID then 1 else 0 := by
  unfold destroyCalls releases
  split <;> simp

/-- The close method on an object that holds the invalid sentinel: socket
destroy is applied and does nothing. -/
theorem tcp_meth_close_closed (L : lua_State) (ref : Nat) (cls : String)
    (hobj : L.index 1 = some (LuaValue.userdata ref))
    (hcls : L.classOf ref = some cls)
    (hrole : cls = tcp_master ∨ cls = tcp_client ∨ cls = tcp_server)
    (hsock : (L.tcp ref).sock = SOCKET_INVALID) :
    tcp_meth_close L
      = Outcome.ret 1 (lua_pushnumber (L.log (Call.socket_destroy SOCKET_INVALID)) 1) := by
  rw [tcp_meth_close_run L ref cls hobj hcls hrole]
  unfold socket_destroy
  simp [hsock]

/-- Claim C10: close is idempotent in every role.  On a master, client or server,
whatever its descriptor, a first close returns the success value, applies
socket destroy once (releasing a live descriptor exactly once, the invalid
sentinel never) and leaves the invalid sentinel; a second close on the same
object returns the success value again, releases nothing and leaves the heap
as the first close left it.  The finaliser `__gc` is bound to the same
function as `close`. -/
theorem tcp_meth_close_idempotent (L : lua_State) (ref : Nat) (cls : String)
    (args : List LuaValue)
    (hobj : L.index 1 = some (LuaValue.userdata ref))
    (hcls : L.classOf ref = some cls)
    (hrole : cls = tcp_master ∨ cls = tcp_client ∨ cls = tcp_server) :
    ∃ L1 L2, tcp_meth_close L = Outcome.ret 1 L1 ∧
      (Outcome.ret 1 L1).results = some [LuaValue.number 1] ∧
      L1.calls = L.calls ++ destroyCalls (L.tcp ref).sock ∧
      releases (destroyCalls (L.tcp ref).sock) ≤ 1 ∧
      L1.tcp ref = { L.tcp ref with sock := SOCKET_INVALID } ∧
      L1.classOf ref = some cls ∧
      tcp_meth_close (L1.call (LuaValue.userdata ref :: args)) = Outcome.ret 1 L2 ∧
      (Outcome.ret 1 L2).results = some [LuaValue.number 1] ∧
      L2.udata = L1.udata ∧
      L2.calls = L1.calls ++ [Call.socket_destroy SOCKET_INVALID] ∧
      releases (L2.calls.drop L.calls.length) = releases (L1.calls.drop L.calls.length) ∧
      lookup tcp_methods "__gc" = some CFunction.tcp_meth_close ∧
      lookup tcp_methods "close" = some CFunction.tcp_meth_close := by
  have hlt : ref < L.udata.length := classOf_lt L ref cls hcls
  have hrun := tcp_meth_close_run L ref cls hobj hcls hrole
  generalize hM : lua_pushnumber (socket_destroy L ref) 1 = M at hrun
  have hcalls1 : M.calls = L.calls ++ destroyCalls (L.tcp ref).sock := by
    rw [← hM]; simp [lua_pushnumber, destroy_calls, destroyCalls]
  have htcp1 : M.tcp ref = { L.tcp ref with sock := SOCKET_INVALID } := by
    rw [← hM]; simp [lua_pushnumber, destroy_tcp L ref hlt]
  have hcls1 : M.classOf ref = some cls := by
    rw [← hM]; simp [lua_pushnumber, hcls]
  have hstack1 : M.stack = L.stack ++ [LuaValue.number 1] := by
    rw [← hM]; simp [lua_pushnumber]
  have hobj2 : (M.call (LuaValue.userdata ref :: args)).index 1
      = some (LuaValue.userdata ref) := by
    simp [lua_State.index, lua_State.call]
  have hcls2 : (M.call (LuaValue.userdata ref :: args)).classOf ref = some cls :=
    (classOf_of_udata M (M.call (LuaValue.userdata ref :: args)) ref rfl).trans hcls1
  have htcp2 : ((M.call (LuaValue.userdata ref :: args)).tcp ref).sock = SOCKET_INVALID := by
    rw [tcp_of_udata M (M.call (LuaValue.userdata ref :: args)) ref rfl, htcp1]
  have hrun2 := tcp_meth_close_closed _ ref cls hobj2 hcls2 hrole htcp2
  refine ⟨M, _, hrun, results_one _ L.stack _ hstack1, hcalls1, ?_, htcp1, hcls1, hrun2, ?_,
    ?_, ?_, ?_, by decide, by decide⟩
  · rw [releases_destroyCalls]; split <;> simp
  · exact results_one _ (LuaValue.userdata ref :: args) _
      (by simp [lua_pushnumber, lua_State.call])
  · simp [lua_pushnumber, lua_State.call]
  · simp [lua_pushnumber, lua_State.call]
  · simp [lua_pushnumber, lua_State.call, hcalls1, releases]

end claims3

/-! ## The claims at concrete inputs -/

/-- Claim C6 at a concrete input: a master whose bind fails keeps its class,
family, timeout and buffer. -/
theorem tcp_meth_bind_failure_witness :
    (tcp_meth_bind unbindableEnv
      (methodCall tcp_master 5 [LuaValue.string "*", LuaValue.number 80])).results
      = some [LuaValue.nil, LuaValue.string "address already in use"] ∧
    (tcp_meth_bind unbindableEnv
      (methodCall tcp_master 5 [LuaValue.string "*", LuaValue.number 80])).state.classOf 0
      = some tcp_master ∧
    ((tcp_meth_bind unbindableEnv
      (methodCall tcp_master 5 [LuaValue.string "*", LuaValue.number 80])).state.tcp 0).family
      = AF_INET ∧
    ((tcp_meth_bind unbindableEnv
      (methodCall tcp_master 5 [LuaValue.string "*", LuaValue.number 80])).state.tcp 0).tm
      = noTimeout ∧
    ((tcp_meth_bind unbindableEnv
      (methodCall tcp_master 5 [LuaValue.string "*", LuaValue.number 80])).state.tcp 0).buf
      = (sampleObject tcp_master 5).tcp.buf :=
  tcp_meth_bind_failure unbindableEnv
    (methodCall tcp_master 5 [LuaValue.string "*", LuaValue.number 80]) _ _ 0 "*" "80"
    "address already in use" (by decide) (by decide) rfl rfl rfl

/-- Claim C7 at concrete inputs: with a local host and a failing bind only the
bind is attempted; without a local host the connect is attempted first. -/
theorem factory_local_bind_gate_witness :
    ((tcp_global_connect unbindableEnv
        (functionCall [LuaValue.string "example.org", LuaValue.number 80,
          LuaValue.string "192.0.2.1"])).results
        = some [LuaValue.nil, LuaValue.string "address already in use"] ∧
     (tcp_global_connect unbindableEnv
        (functionCall [LuaValue.string "example.org", LuaValue.number 80,
          LuaValue.string "192.0.2.1"])).state.calls
        = [] ++ [Call.inet_trybind SOCKET_INVALID "192.0.2.1" "0" (bindhints_for PF_UNSPEC)]) ∧
    (∃ rest, (tcp_global_connect refusingEnv
        (functionCall [LuaValue.string "example.org", LuaValue.number 80])).state.calls
        = [] ++ Call.inet_tryconnect SOCKET_INVALID PF_UNSPEC "example.org" "80" noTimeout
            (connecthints_for PF_UNSPEC) :: rest ∧
      ∀ s a p h, Call.inet_trybind s a p h ∉ rest) :=
  ⟨(factory_local_bind_gate unbindableEnv
      (functionCall [LuaValue.string "example.org", LuaValue.number 80,
        LuaValue.string "192.0.2.1"]) _ _ _ _ _
      "example.org" "80" (some "192.0.2.1") (some "0") PF_UNSPEC rfl rfl rfl rfl rfl).1
      "192.0.2.1" "address already in use" rfl rfl,
   (factory_local_bind_gate refusingEnv
      (functionCall [LuaValue.string "example.org", LuaValue.number 80]) _ _ _ _ _
      "example.org" "80" none (some "0") PF_UNSPEC rfl rfl rfl rfl rfl).2 rfl⟩

/-- Claim C8 at concrete inputs: a refused connect gives nil, the message and a
classless object; a successful one gives the object as a client. -/
theorem factory_client_or_nothing_witness :
    (tcp_global_connect refusingEnv
      (functionCall [LuaValue.string "example.org", LuaValue.number 80])).failedWith 0
      "connection refused" ∧
    (tcp_global_connect sampleEnv
      (functionCall [LuaValue.string "example.org", LuaValue.number 80,
        LuaValue.string "192.0.2.1", LuaValue.number 4000, LuaValue.string "inet"])).readyClient
      0 :=
  ⟨(factory_client_or_nothing refusingEnv
      (functionCall [LuaValue.string "example.org", LuaValue.number 80]) _ _ _ _ _
      "example.org" "80" none (some "0") PF_UNSPEC rfl rfl rfl rfl rfl).2
      "connection refused" rfl,
   (factory_client_or_nothing sampleEnv
      (functionCall [LuaValue.string "example.org", LuaValue.number 80,
        LuaValue.string "192.0.2.1", LuaValue.number 4000, LuaValue.string "inet"]) _ _ _ _ _
      "example.org" "80" (some "192.0.2.1") (some "4000") PF_INET rfl rfl rfl rfl rfl).1.mpr
      rfl⟩

/-- The remote-connect failure exit at a concrete input: a refused connect
leaves descriptor 6 in the object; it is destroyed and released before the
failure is returned. -/
theorem factory_connect_failure_destroys_witness :
    (tcp_global_connect refusingEnv
      (functionCall [LuaValue.string "example.org", LuaValue.number 80])).results
      = some [LuaValue.nil, LuaValue.string "connection refused"] ∧
    (tcp_global_connect refusingEnv
      (functionCall [LuaValue.string "example.org", LuaValue.number 80])).state.calls
      = [] ++ Call.inet_tryconnect SOCKET_INVALID PF_UNSPEC "example.org" "80" noTimeout
          (connecthints_for PF_UNSPEC) :: destroyCalls 6 ∧
    ((tcp_global_connect refusingEnv
      (functionCall [LuaValue.string "example.org", LuaValue.number 80])).state.tcp 0).sock
      = SOCKET_INVALID :=
  (factory_connect_failure_destroys refusingEnv
    (functionCall [LuaValue.string "example.org", LuaValue.number 80]) _ _ _ _ _
    "example.org" "80" "connection refused" none (some "0") PF_UNSPEC
    rfl rfl rfl rfl rfl).1 rfl rfl

/-- Claim C10 at a concrete input: closing a live server twice. -/
theorem tcp_meth_close_idempotent_witness :
    ∃ L1 L2, tcp_meth_close (methodCall tcp_server 5 []) = Outcome.ret 1 L1 ∧
      (Outcome.ret 1 L1).results = some [LuaValue.number 1] ∧
      L1.calls = [] ++ destroyCalls 5 ∧
      releases (destroyCalls 5) ≤ 1 ∧
      L1.tcp 0 = { (sampleObject tcp_server 5).tcp with sock := SOCKET_INVALID } ∧
      L1.classOf 0 = some tcp_server ∧
      tcp_meth_close (L1.call (LuaValue.userdata 0 :: [])) = Outcome.ret 1 L2 ∧
      (Outcome.ret 1 L2).results = some [LuaValue.number 1] ∧
      L2.udata = L1.udata ∧
      L2.calls = L1.calls ++ [Call.socket_destroy SOCKET_INVALID] ∧
      releases (L2.calls.drop 0) = releases (L1.calls.drop 0) ∧
      lookup tcp_methods "__gc" = some CFunction.tcp_meth_close ∧
      lookup tcp_methods "close" = some CFunction.tcp_meth_close :=
  tcp_meth_close_idempotent (methodCall tcp_server 5 []) 0 tcp_server []
    (by decide) (by decide) (by decide)

/-! ## Operations that leave the descriptor alone -/

section descriptor
attribute [local irreducible] lua_State.tcp lua_State.classOf lua_State.setTcp auxiliar_setclass
  socket_destroy lua_State.index lua_State.setIndex

theorem modTcp_tcp (L : lua_State) (ref r : Nat) (f : t_tcp → t_tcp) :
    (L.modTcp ref f).tcp r = if r = ref ∧ ref < L.udata.length then f (L.tcp ref) else L.tcp r := by
  simp only [lua_State.modTcp, setTcp_tcp]

theorem modTcp_sock (L : lua_State) (ref r : Nat) (f : t_tcp → t_tcp)
    (hf : ∀ t, (f t).sock = t.sock) : ((L.modTcp ref f).tcp r).sock = (L.tcp r).sock := by
  rw [modTcp_tcp]
  split
  · next h => rw [hf, h.1]
  · rfl

theorem tcp_mk (M : lua_State) (s : List LuaValue) (c : List Call) (r : Nat) :
    (lua_State.mk s M.udata c).tcp r = M.tcp r :=
  tcp_of_udata M _ r rfl

theorem checkoption_frame (env : Env) (L L' : lua_State) (idx : Int) (d : Option String)
    (lst : List String) (i : Nat)
    (h : luaL_checkoption env L idx d lst = Except.ok (i, L')) :
    L'.udata = L.udata ∧ L'.calls = L.calls := by
  unfold luaL_checkoption at h
  cases d with
  | none =>
    simp only [] at h
    cases hc : luaL_checkstring env L idx with
    | error e => simp [hc] at h
    | ok p =>
      obtain ⟨s0, L0⟩ := p
      obtain ⟨hu, hcalls, -, -⟩ := checkstring_frame env L L0 idx s0 hc
      simp only [hc] at h
      by_cases hm : cstring s0 ∈ lst
      · simp only [hm, if_true] at h
        simp at h
        obtain ⟨_, rfl⟩ := h
        exact ⟨hu, hcalls⟩
      · simp only [hm, if_false] at h
        simp at h
  | some d0 =>
    simp only [] at h
    cases ho : luaL_optstring env L idx (some d0) with
    | error e => simp [ho] at h
    | ok p =>
      obtain ⟨s0, L0⟩ := p
      have hf := optstring_frame env L L0 idx (some d0) s0 ho
      cases s0 with
      | none => simp [ho] at h
      | some name =>
        simp only [ho] at h
        by_cases hm : cstring name ∈ lst
        · simp only [hm, if_true] at h
          simp at h
          obtain ⟨_, rfl⟩ := h
          exact hf
        · simp only [hm, if_false] at h
          simp at h

theorem call_closedAt (L : lua_State) (args : List LuaValue) (r : Nat) :
    (L.call args).closedAt r ↔ L.closedAt r := by
  simp [lua_State.closedAt, lua_State.call, tcp_of_udata L { L with stack := args } r rfl]

theorem closedAt_of_udata (L L' : lua_State) (r : Nat) (h : L'.udata = L.udata)
    (hc : L.closedAt r) : L'.closedAt r := by
  unfold lua_State.closedAt at hc ⊢
  rw [h, tcp_of_udata L L' r h]; exact hc

theorem finish_closedAt (e : Effect) (L : lua_State) (ref r : Nat) (hc : L.closedAt r) :
    (e.finish L ref).state.closedAt r := by
  unfold lua_State.closedAt at hc ⊢
  unfold Effect.finish
  simp only []
  split
  · simp only [Outcome.state, modTcp_length]
    exact ⟨hc.1, by rw [modTcp_sock _ _ _ _ (by intro t; rfl)]; exact hc.2⟩
  · simp only [Outcome.state]
    refine ⟨by simpa using hc.1, ?_⟩
    rw [tcp_mk, modTcp_sock _ _ _ _ (by intro t; rfl)]
    exact hc.2

theorem reply_closedAt (p : Reply) (L : lua_State) (r : Nat) (hc : L.closedAt r) :
    (p.finish L).state.closedAt r := by
  unfold Reply.finish
  split
  · exact hc
  · exact closedAt_of_udata L _ r rfl hc

theorem send_closedAt (env : Env) (L : lua_State) (r : Nat) (hc : L.closedAt r) :
    (tcp_meth_send env L).state.closedAt r := by
  unfold tcp_meth_send
  split
  · exact hc
  · exact finish_closedAt _ _ _ r (closedAt_of_udata L _ r rfl hc)

theorem receive_closedAt (env : Env) (L : lua_State) (r : Nat) (hc : L.closedAt r) :
    (tcp_meth_receive env L).state.closedAt r := by
  unfold tcp_meth_receive
  split
  · exact hc
  · exact finish_closedAt _ _ _ r (closedAt_of_udata L _ r rfl hc)

theorem listen_closedAt (env : Env) (L : lua_State) (r : Nat) (hc : L.closedAt r) :
    (tcp_meth_listen env L).state.closedAt r := by
  unfold lua_State.closedAt at hc ⊢
  unfold tcp_meth_listen
  split
  · exact hc
  · split
    · exact hc
    · simp only []
      split <;>
        simp [Outcome.state, lua_pushstring, lua_pushnil, lua_pushnumber, hc.1, hc.2]

theorem shutdown_closedAt (env : Env) (L : lua_State) (r : Nat) (hc : L.closedAt r) :
    (tcp_meth_shutdown env L).state.closedAt r := by
  unfold tcp_meth_shutdown
  split
  · exact hc
  · split
    · exact hc
    · next how L1 hco =>
      obtain ⟨hu, -⟩ := checkoption_frame env L L1 2 _ _ how hco
      exact closedAt_of_udata L _ r (by simp [Outcome.state, lua_pushnumber, hu]) hc

theorem setoption_closedAt (env : Env) (L : lua_State) (r : Nat) (hc : L.closedAt r) :
    (tcp_meth_setoption env L).state.closedAt r := by
  unfold tcp_meth_setoption
  split
  · exact hc
  · unfold opt_meth_setoption opt_meth
    split
    · exact hc
    · next name L1 hcs =>
      obtain ⟨hu, -, -, -⟩ := checkstring_frame env L L1 2 name hcs
      have h1 : L1.closedAt r := closedAt_of_udata L L1 r hu hc
      split
      · exact h1
      · exact reply_closedAt _ _ r (closedAt_of_udata L1 _ r rfl h1)

theorem settimeout_closedAt (env : Env) (L : lua_State) (r : Nat) (hc : L.closedAt r) :
    (tcp_meth_settimeout env L).state.closedAt r := by
  unfold tcp_meth_settimeout
  split
  · exact hc
  · unfold timeout_meth_settimeout
    split
    · exact hc
    · split
      · exact hc
      · next mode L1 hos =>
        obtain ⟨hu, -⟩ := optstring_frame env L L1 3 _ mode hos
        have h1 : L1.closedAt r := closedAt_of_udata L L1 r hu hc
        have key : ∀ f : t_tcp → t_tcp, (∀ t, (f t).sock = t.sock) → ∀ ref n,
            (Outcome.ret 1 (lua_pushnumber (L1.modTcp ref f) n)).state.closedAt r := by
          intro f hf ref n
          unfold lua_State.closedAt at h1 ⊢
          simp only [Outcome.state, lua_pushnumber, push_udata, push_tcp, modTcp_length]
          exact ⟨h1.1, by rw [modTcp_sock _ _ _ _ hf]; exact h1.2⟩
        split
        · exact key _ (by intro t; rfl) _ _
        · exact key _ (by intro t; rfl) _ _
        · exact key _ (by intro t; rfl) _ _
        · exact h1

theorem destroy_closedAt (L : lua_State) (ref r : Nat) (hc : L.closedAt r) :
    (socket_destroy L ref).closedAt r := by
  unfold lua_State.closedAt at hc ⊢
  refine ⟨by simpa using hc.1, ?_⟩
  by_cases h : r = ref
  · subst h; exact destroy_sock L r hc.1
  · rw [destroy_tcp_ne L r ref h]; exact hc.2

theorem close_closedAt (L : lua_State) (r : Nat) (hc : L.closedAt r) :
    (tcp_meth_close L).state.closedAt r := by
  unfold tcp_meth_close
  split
  · exact hc
  · exact closedAt_of_udata (socket_destroy L _) _ r rfl (destroy_closedAt L _ r hc)

theorem accept_closedAt (env : Env) (L : lua_State) (r : Nat) (hc : L.closedAt r) :
    (tcp_meth_accept env L).state.closedAt r := by
  unfold lua_State.closedAt at hc ⊢
  unfold tcp_meth_accept
  split
  · exact hc
  · next server _ =>
    have hne : r ≠ L.udata.length := Nat.ne_of_lt hc.1
    have hm : ((timeout_markstart env L server).tcp r).sock = SOCKET_INVALID := by
      unfold timeout_markstart
      rw [modTcp_sock _ _ _ _ (by intro t; rfl)]; exact hc.2
    simp only []
    split
    · simp only [Outcome.state]
      refine ⟨by simp; omega, ?_⟩
      simp [hne, hm]
    · simp [Outcome.state, lua_pushstring, lua_pushnil, hc.1, hm]

end descriptor

section closed
attribute [local irreducible] lua_State.tcp lua_State.classOf lua_State.setTcp auxiliar_setclass
  socket_destroy lua_State.index lua_State.setIndex

theorem passing_closedAt (env : Env) (op : Operation) (L : lua_State) (r : Nat)
    (hop : op.passesDescriptor = true) (hc : L.closedAt r) :
    (op.run env L).state.closedAt r := by
  cases op with
  | connect => simp [Operation.passesDescriptor] at hop
  | bind => simp [Operation.passesDescriptor] at hop
  | setfd => simp [Operation.passesDescriptor] at hop
  | listen => exact listen_closedAt env L r hc
  | accept => exact accept_closedAt env L r hc
  | send => exact send_closedAt env L r hc
  | receive => exact receive_closedAt env L r hc
  | shutdown => exact shutdown_closedAt env L r hc
  | setoption => exact setoption_closedAt env L r hc
  | settimeout => exact settimeout_closedAt env L r hc
  | close => exact close_closedAt L r hc

theorem runOperations_closedAt (env : Env) (ref : Nat)
    (ops : List (Operation × List LuaValue)) :
    ∀ L : lua_State, (∀ p ∈ ops, p.1.passesDescriptor = true) → L.closedAt ref →
      (runOperations env ref L ops).closedAt ref := by
  induction ops with
  | nil => intro L _ hc; exact hc
  | cons p rest ih =>
    intro L hops hc
    obtain ⟨op, args⟩ := p
    simp only [runOperations]
    apply ih
    · intro q hq; exact hops q (List.mem_cons_of_mem _ hq)
    · exact passing_closedAt env op _ ref (hops (op, args) (List.mem_cons_self _ _))
        ((call_closedAt L _ ref).mpr hc)

/-- Claim C11 as amended: once close has been applied to a master, client or
server, the object holds the invalid sentinel, and after every later sequence
of listen, accept, send, receive, shutdown, setoption, settimeout and close
calls on it, whatever the layers below answer, it still holds the invalid
sentinel: it never again holds a live descriptor. -/
theorem closed_stays_closed (env : Env) (L : lua_State) (ref : Nat) (cls : String)
    (ops : List (Operation × List LuaValue))
    (hobj : L.index 1 = some (LuaValue.userdata ref))
    (hcls : L.classOf ref = some cls)
    (hrole : cls = tcp_master ∨ cls = tcp_client ∨ cls = tcp_server)
    (hops : ∀ p ∈ ops, p.1.passesDescriptor = true) :
    ((tcp_meth_close L).state.tcp ref).sock = SOCKET_INVALID ∧
    ((runOperations env ref (tcp_meth_close L).state ops).tcp ref).sock = SOCKET_INVALID := by
  have hlt : ref < L.udata.length := classOf_lt L ref cls hcls
  have h0 : (tcp_meth_close L).state.closedAt ref := by
    rw [tcp_meth_close_run L ref cls hobj hcls hrole]
    unfold lua_State.closedAt
    simp only [Outcome.state, lua_pushnumber, push_udata, push_tcp, destroy_length]
    exact ⟨hlt, destroy_sock L ref hlt⟩
  exact ⟨h0.2, (runOperations_closedAt env ref ops _ hops h0).2⟩

end closed

/-- Claim C11 fails at a concrete input: after close, setfd with 7 neither
fails nor is a no-op; it returns normally and the closed object holds the
descriptor 7 again. -/
theorem closed_setfd_counterexample :
    ((tcp_meth_close (methodCall tcp_client 5 [])).state.tcp 0).sock = SOCKET_INVALID ∧
    (tcp_meth_setfd sampleEnv
      ((tcp_meth_close (methodCall tcp_client 5 [])).state.call
        [LuaValue.userdata 0, LuaValue.number 7])).results = some [] ∧
    ((runOperations sampleEnv 0 (tcp_meth_close (methodCall tcp_client 5 [])).state
      [(Operation.setfd, [LuaValue.number 7])]).tcp 0).sock = 7 := by
  decide

/-- Claim C11 as amended, at a concrete input: a closed server is listened on,
sent to, accepted on, closed again, given a timeout and an option, shut down
and received from; its descriptor stays the invalid sentinel. -/
theorem closed_stays_closed_witness :
    ((tcp_meth_close (methodCall tcp_server 5 [])).state.tcp 0).sock = SOCKET_INVALID ∧
    ((runOperations sampleEnv 0 (tcp_meth_close (methodCall tcp_server 5 [])).state
      [(Operation.listen, []), (Operation.send, [LuaValue.string "ping"]),
       (Operation.accept, []), (Operation.close, []),
       (Operation.settimeout, [LuaValue.number 5]),
       (Operation.setoption, [LuaValue.string "keepalive", LuaValue.boolean true]),
       (Operation.shutdown, []), (Operation.receive, [])]).tcp 0).sock = SOCKET_INVALID :=
  closed_stays_closed sampleEnv (methodCall tcp_server 5 []) 0 tcp_server _
    (by decide) (by decide) (by decide) (by decide)

section fresh
attribute [local irreducible] lua_State.tcp lua_State.classOf lua_State.setTcp auxiliar_setclass
  socket_destroy lua_State.index lua_State.setIndex

/-- The accept method when the accept succeeds, in full: the new object, the
calls made and what is left of the server. -/
theorem tcp_meth_accept_ok_full (env : Env) (L : lua_State) (ref : Nat)
    (hobj : L.index 1 = some (LuaValue.userdata ref))
    (hcls : L.classOf ref = some tcp_server)
    (h : (env.inet_tryaccept L.calls (L.tcp ref).sock (L.tcp ref).family
      { (L.tcp ref).tm with start := env.timeout_gettime L.calls }).1 = none) :
    ∃ L', tcp_meth_accept env L = Outcome.ret 1 L' ∧
      L'.stack = L.stack ++ [LuaValue.userdata L.udata.length] ∧
      L'.classOf L.udata.length = some tcp_client ∧
      L'.tcp L.udata.length =
        { sock := (env.inet_tryaccept L.calls (L.tcp ref).sock (L.tcp ref).family
            { (L.tcp ref).tm with start := env.timeout_gettime L.calls }).2
          io := { ctx := some L.udata.length, send := IoFn.socket_send,
                  recv := IoFn.socket_recv, error := IoFn.socket_ioerror }
          buf := { birthday := env.timeout_gettime (L.calls ++
                     [Call.inet_tryaccept (L.tcp ref).sock (L.tcp ref).family
                        { (L.tcp ref).tm with start := env.timeout_gettime L.calls },
                      Call.socket_setnonblocking
                        (env.inet_tryaccept L.calls (L.tcp ref).sock (L.tcp ref).family
                          { (L.tcp ref).tm with start := env.timeout_gettime L.calls }).2])
                   sent := 0, received := 0, io := some L.udata.length,
                   tm := some L.udata.length, first := 0, last := 0 }
          tm := noTimeout
          family := (L.tcp ref).family } ∧
      L'.calls = L.calls ++
        [Call.inet_tryaccept (L.tcp ref).sock (L.tcp ref).family
           { (L.tcp ref).tm with start := env.timeout_gettime L.calls },
         Call.socket_setnonblocking
           (env.inet_tryaccept L.calls (L.tcp ref).sock (L.tcp ref).family
             { (L.tcp ref).tm with start := env.timeout_gettime L.calls }).2] ∧
      L'.classOf ref = some tcp_server ∧
      L'.tcp ref = { L.tcp ref with
        tm := { (L.tcp ref).tm with start := env.timeout_gettime L.calls } } := by
  have hc : auxiliar_checkclass L tcp_server 1 = Except.ok ref :=
    checkclass_ok L ref tcp_server 1 hobj hcls
  have hlt : ref < L.udata.length := classOf_lt L ref tcp_server hcls
  have hne : ref ≠ L.udata.length := Nat.ne_of_lt hlt
  simp only [tcp_meth_accept, hc]
  simp [hlt, hne, h, hcls, noTimeout, t_tcp.zero, t_timeout.zero, t_buffer.zero,
    setclass_classOf _ L.udata.length _ tcp_client (-1)]

/-- The accept method when the accept fails: only the start time of the
server changes. -/
theorem tcp_meth_accept_failed_full (env : Env) (L : lua_State) (ref : Nat) (msg : String)
    (hobj : L.index 1 = some (LuaValue.userdata ref))
    (hcls : L.classOf ref = some tcp_server)
    (h : (env.inet_tryaccept L.calls (L.tcp ref).sock (L.tcp ref).family
      { (L.tcp ref).tm with start := env.timeout_gettime L.calls }).1 = some msg) :
    ∃ L', tcp_meth_accept env L = Outcome.ret 2 L' ∧
      L'.stack = L.stack ++ [LuaValue.nil, LuaValue.string msg] ∧
      L'.udata.length = L.udata.length ∧
      L'.classOf ref = some tcp_server ∧
      L'.tcp ref = { L.tcp ref with
        tm := { (L.tcp ref).tm with start := env.timeout_gettime L.calls } } := by
  have hc : auxiliar_checkclass L tcp_server 1 = Except.ok ref :=
    checkclass_ok L ref tcp_server 1 hobj hcls
  have hlt : ref < L.udata.length := classOf_lt L ref tcp_server hcls
  simp only [tcp_meth_accept, hc]
  simp [hlt, h, hcls, lua_pushstring, lua_pushnil]

/-- The function `tcp_create` when the socket is created, in full. -/
theorem tcp_create_ok_full (env : Env) (L : lua_State) (family : Int)
    (h : (env.inet_trycreate L.calls family SOCK_STREAM).1 = none) :
    ∃ L', tcp_create env L family = Outcome.ret 1 L' ∧
      L'.stack = L.stack ++ [LuaValue.userdata L.udata.length] ∧
      L'.classOf L.udata.length = some tcp_master ∧
      L'.tcp L.udata.length =
        { sock := (env.inet_trycreate L.calls family SOCK_STREAM).2
          io := { ctx := some L.udata.length, send := IoFn.socket_send,
                  recv := IoFn.socket_recv, error := IoFn.socket_ioerror }
          buf := { birthday := env.timeout_gettime L'.calls
                   sent := 0, received := 0, io := some L.udata.length,
                   tm := some L.udata.length, first := 0, last := 0 }
          tm := noTimeout
          family := family } ∧
      L'.calls = L.calls ++
        Call.inet_trycreate family SOCK_STREAM ::
        Call.socket_setnonblocking (env.inet_trycreate L.calls family SOCK_STREAM).2 ::
        (if family = PF_INET6 then
          [Call.setsockopt (env.inet_trycreate L.calls family SOCK_STREAM).2 IPPROTO_IPV6
            IPV6_V6ONLY 1]
         else []) := by
  simp only [tcp_create, h]
  refine ⟨_, rfl, ?_, ?_, ?_, ?_⟩
  · split <;> simp
  · split <;> simp [setclass_classOf _ L.udata.length L.udata.length tcp_master (-1)]
  · split <;> simp [noTimeout, t_tcp.zero, t_timeout.zero, t_buffer.zero]
  · split <;> simp

end fresh

section accepting
attribute [local irreducible] lua_State.tcp lua_State.classOf lua_State.setTcp auxiliar_setclass
  socket_destroy lua_State.index lua_State.setIndex

/-- Claim C12: for every server entity on which the OS accept succeeds, accept
returns a new entity whose role tag is "client", whose family is the
server's, whose timeout state is "no timeout" for both knobs whatever the
server's timeout settings, whose buffer state is freshly initialised, and
whose descriptor is the accepted descriptor, set non-blocking before the
call returns. -/
theorem accept_new_client (env : Env) (L : lua_State) (ref : Nat)
    (hobj : L.index 1 = some (LuaValue.userdata ref))
    (hcls : L.classOf ref = some tcp_server)
    (h : (env.inet_tryaccept L.calls (L.tcp ref).sock (L.tcp ref).family
      { (L.tcp ref).tm with start := env.timeout_gettime L.calls }).1 = none) :
    (tcp_meth_accept env L).results = some [LuaValue.userdata L.udata.length] ∧
    (tcp_meth_accept env L).state.classOf L.udata.length = some tcp_client ∧
    ((tcp_meth_accept env L).state.tcp L.udata.length).family = (L.tcp ref).family ∧
    ((tcp_meth_accept env L).state.tcp L.udata.length).tm = noTimeout ∧
    ((tcp_meth_accept env L).state.tcp L.udata.length).tm.block = -1 ∧
    ((tcp_meth_accept env L).state.tcp L.udata.length).tm.total = -1 ∧
    ((tcp_meth_accept env L).state.tcp L.udata.length).buf =
      freshBuffer L.udata.length (env.timeout_gettime (tcp_meth_accept env L).state.calls) ∧
    ((tcp_meth_accept env L).state.tcp L.udata.length).sock =
      (env.inet_tryaccept L.calls (L.tcp ref).sock (L.tcp ref).family
        { (L.tcp ref).tm with start := env.timeout_gettime L.calls }).2 ∧
    (tcp_meth_accept env L).state.calls = L.calls ++
      [Call.inet_tryaccept (L.tcp ref).sock (L.tcp ref).family
         { (L.tcp ref).tm with start := env.timeout_gettime L.calls },
       Call.socket_setnonblocking
         (env.inet_tryaccept L.calls (L.tcp ref).sock (L.tcp ref).family
           { (L.tcp ref).tm with start := env.timeout_gettime L.calls }).2] := by
  obtain ⟨L', he, hs, hcl, ht, hcalls, -, -⟩ := tcp_meth_accept_ok_full env L ref hobj hcls h
  rw [he]
  simp only [Outcome.state]
  refine ⟨results_one _ _ _ hs, hcl, ?_, ?_, ?_, ?_, ?_, ?_, hcalls⟩
  · rw [ht]
  · rw [ht]
  · rw [ht]; rfl
  · rw [ht]; rfl
  · rw [ht, hcalls]; rfl
  · rw [ht]

/-- Claim C13: accept never alters the server it is called on: for every server
entity and every outcome of the OS accept, the server's role tag is still
"server" and its descriptor and family are unchanged; on success the I/O
functions of the new entity are bound to the descriptor field of the new
entity itself, which is not the server. -/
theorem accept_keeps_server (env : Env) (L : lua_State) (ref : Nat)
    (hobj : L.index 1 = some (LuaValue.userdata ref))
    (hcls : L.classOf ref = some tcp_server) :
    (tcp_meth_accept env L).state.classOf ref = some tcp_server ∧
    ((tcp_meth_accept env L).state.tcp ref).sock = (L.tcp ref).sock ∧
    ((tcp_meth_accept env L).state.tcp ref).family = (L.tcp ref).family ∧
    ((env.inet_tryaccept L.calls (L.tcp ref).sock (L.tcp ref).family
        { (L.tcp ref).tm with start := env.timeout_gettime L.calls }).1 = none →
      ((tcp_meth_accept env L).state.tcp L.udata.length).io = ownIo L.udata.length ∧
      ((tcp_meth_accept env L).state.tcp L.udata.length).io.ctx ≠ some ref) := by
  have hlt : ref < L.udata.length := classOf_lt L ref tcp_server hcls
  cases h : (env.inet_tryaccept L.calls (L.tcp ref).sock (L.tcp ref).family
      { (L.tcp ref).tm with start := env.timeout_gettime L.calls }).1 with
  | none =>
    obtain ⟨L', he, -, -, ht, -, hcl, hts⟩ := tcp_meth_accept_ok_full env L ref hobj hcls h
    rw [he]
    simp only [Outcome.state]
    refine ⟨hcl, by rw [hts], by rw [hts], fun _ => ⟨by rw [ht]; rfl, ?_⟩⟩
    rw [ht]
    simp only [ne_eq, Option.some.injEq]
    omega
  | some msg =>
    obtain ⟨L', he, -, -, hcl, hts⟩ := tcp_meth_accept_failed_full env L ref msg hobj hcls h
    rw [he]
    simp only [Outcome.state]
    exact ⟨hcl, by rw [hts], by rw [hts], fun hn => by cases hn⟩

/-- Claim C14: the two master constructors.  Whenever socket creation succeeds,
tcp returns a new entity with role "master", family IPv4 and timeout
(-1, -1), and tcp6 one with role "master", family IPv6 and timeout (-1, -1),
the two families being different; whenever socket creation fails, nil and the
error string are returned and no entity is created. -/
theorem master_constructors (env : Env) (L : lua_State) :
    ((env.inet_trycreate L.calls AF_INET SOCK_STREAM).1 = none →
      (tcp_global_create env L).results = some [LuaValue.userdata L.udata.length] ∧
      (tcp_global_create env L).state.classOf L.udata.length = some tcp_master ∧
      ((tcp_global_create env L).state.tcp L.udata.length).family = AF_INET ∧
      ((tcp_global_create env L).state.tcp L.udata.length).tm = noTimeout) ∧
    ((env.inet_trycreate L.calls AF_INET6 SOCK_STREAM).1 = none →
      (tcp_global_create6 env L).results = some [LuaValue.userdata L.udata.length] ∧
      (tcp_global_create6 env L).state.classOf L.udata.length = some tcp_master ∧
      ((tcp_global_create6 env L).state.tcp L.udata.length).family = AF_INET6 ∧
      ((tcp_global_create6 env L).state.tcp L.udata.length).tm = noTimeout) ∧
    (∀ msg, (env.inet_trycreate L.calls AF_INET SOCK_STREAM).1 = some msg →
      (tcp_global_create env L).results = some [LuaValue.nil, LuaValue.string msg] ∧
      (tcp_global_create env L).state.udata = L.udata) ∧
    (∀ msg, (env.inet_trycreate L.calls AF_INET6 SOCK_STREAM).1 = some msg →
      (tcp_global_create6 env L).results = some [LuaValue.nil, LuaValue.string msg] ∧
      (tcp_global_create6 env L).state.udata = L.udata) ∧
    AF_INET ≠ AF_INET6 ∧ noTimeout.block = -1 ∧ noTimeout.total = -1 := by
  have ok : ∀ family, (env.inet_trycreate L.calls family SOCK_STREAM).1 = none →
      (tcp_create env L family).results = some [LuaValue.userdata L.udata.length] ∧
      (tcp_create env L family).state.classOf L.udata.length = some tcp_master ∧
      ((tcp_create env L family).state.tcp L.udata.length).family = family ∧
      ((tcp_create env L family).state.tcp L.udata.length).tm = noTimeout := by
    intro family h
    obtain ⟨L', he, hs, hcl, ht, -⟩ := tcp_create_ok_full env L family h
    rw [he]
    simp only [Outcome.state]
    exact ⟨results_one _ _ _ hs, hcl, by rw [ht], by rw [ht]⟩
  have failed : ∀ family msg, (env.inet_trycreate L.calls family SOCK_STREAM).1 = some msg →
      (tcp_create env L family).results = some [LuaValue.nil, LuaValue.string msg] ∧
      (tcp_create env L family).state.udata = L.udata := by
    intro family msg h
    obtain ⟨L', he, hs, hu, -⟩ := tcp_create_failed env L family msg h
    rw [he]
    exact ⟨results_two _ _ _ _ hs, hu⟩
  exact ⟨ok AF_INET, ok AF_INET6, failed AF_INET, failed AF_INET6, by decide, rfl, rfl⟩

end accepting

/-- Claim C12 at a concrete input: a server accepts descriptor 4 at time 100. -/
theorem accept_new_client_witness :
    (tcp_meth_accept sampleEnv (methodCall tcp_server 5 [])).results
      = some [LuaValue.userdata 1] ∧
    (tcp_meth_accept sampleEnv (methodCall tcp_server 5 [])).state.classOf 1
      = some tcp_client ∧
    ((tcp_meth_accept sampleEnv (methodCall tcp_server 5 [])).state.tcp 1).family = AF_INET ∧
    ((tcp_meth_accept sampleEnv (methodCall tcp_server 5 [])).state.tcp 1).tm = noTimeout ∧
    ((tcp_meth_accept sampleEnv (methodCall tcp_server 5 [])).state.tcp 1).tm.block = -1 ∧
    ((tcp_meth_accept sampleEnv (methodCall tcp_server 5 [])).state.tcp 1).tm.total = -1 ∧
    ((tcp_meth_accept sampleEnv (methodCall tcp_server 5 [])).state.tcp 1).buf
      = freshBuffer 1 100 ∧
    ((tcp_meth_accept sampleEnv (methodCall tcp_server 5 [])).state.tcp 1).sock = 4 ∧
    (tcp_meth_accept sampleEnv (methodCall tcp_server 5 [])).state.calls
      = [] ++ [Call.inet_tryaccept 5 AF_INET { block := -1, total := -1, start := 100 },
               Call.socket_setnonblocking 4] :=
  accept_new_client sampleEnv (methodCall tcp_server 5 []) 0 (by decide) (by decide) rfl

/-- Claim C13 at a concrete input: a server with descriptor 5 accepts
descriptor 4 into the new object 1. -/
theorem accept_keeps_server_witness :
    (tcp_meth_accept sampleEnv (methodCall tcp_server 5 [])).state.classOf 0
      = some tcp_server ∧
    ((tcp_meth_accept sampleEnv (methodCall tcp_server 5 [])).state.tcp 0).sock = 5 ∧
    ((tcp_meth_accept sampleEnv (methodCall tcp_server 5 [])).state.tcp 0).family
      = AF_INET ∧
    ((tcp_meth_accept sampleEnv (methodCall tcp_server 5 [])).state.tcp 1).io = ownIo 1 ∧
    ((tcp_meth_accept sampleEnv (methodCall tcp_server 5 [])).state.tcp 1).io.ctx ≠ some 0 :=
  (fun h => ⟨h.1, h.2.1, h.2.2.1, (h.2.2.2 rfl).1, (h.2.2.2 rfl).2⟩)
    (accept_keeps_server sampleEnv (methodCall tcp_server 5 []) 0 (by decide) (by decide))

section simple
attribute [local irreducible] lua_State.tcp lua_State.classOf lua_State.setTcp auxiliar_setclass
  socket_destroy lua_State.index lua_State.setIndex

/-- Claim C15 as amended: the connect method resolves the remote address with
hints whose family is the entity's current family field, whether or not the
entity has been bound; and a freshly created master carries the family it was
created with, so it connects with hints constrained to that family. -/
theorem connect_hints_follow_family (env : Env) (L La Lp : lua_State) (ref : Nat)
    (cls address port : String) (L0 : lua_State) (family : Int)
    (hobj : L.index 1 = some (LuaValue.userdata ref))
    (hcls : L.classOf ref = some cls)
    (hrole : cls = tcp_master ∨ cls = tcp_client ∨ cls = tcp_server)
    (haddr : luaL_checkstring env L 2 = Except.ok (address, La))
    (hport : luaL_checkstring env La 3 = Except.ok (port, Lp))
    (hcreate : (env.inet_trycreate L0.calls family SOCK_STREAM).1 = none) :
    (tcp_meth_connect env L).state.calls = L.calls ++
      [Call.inet_tryconnect (L.tcp ref).sock (L.tcp ref).family address port
        { (L.tcp ref).tm with start := env.timeout_gettime L.calls }
        (connecthints_for (L.tcp ref).family)] ∧
    (connecthints_for (L.tcp ref).family).ai_family = (L.tcp ref).family ∧
    (tcp_create env L0 family).state.classOf L0.udata.length = some tcp_master ∧
    ((tcp_create env L0 family).state.tcp L0.udata.length).family = family := by
  obtain ⟨n, L', he, hcalls, -, -⟩ := tcp_meth_connect_run env L La Lp ref cls address port
    hobj hcls hrole haddr hport
  obtain ⟨L1, he1, -, hcl1, ht1, -⟩ := tcp_create_ok_full env L0 family hcreate
  rw [he, he1]
  simp only [Outcome.state]
  exact ⟨hcalls, rfl, hcl1, by rw [ht1]⟩

/-- The shutdown method on a client once the direction has been read. -/
theorem tcp_meth_shutdown_run (env : Env) (L L1 : lua_State) (ref how : Nat)
    (hobj : L.index 1 = some (LuaValue.userdata ref))
    (hcls : L.classOf ref = some tcp_client)
    (hco : luaL_checkoption env L 2 (some "both") ["receive", "send", "both"]
      = Except.ok (how, L1)) :
    (tcp_meth_shutdown env L).results = some [LuaValue.number 1] ∧
    (tcp_meth_shutdown env L).state.calls
      = L.calls ++ [Call.socket_shutdown (L.tcp ref).sock how] ∧
    (tcp_meth_shutdown env L).state.udata = L.udata := by
  have hc : auxiliar_checkclass L tcp_client 1 = Except.ok ref :=
    checkclass_ok L ref tcp_client 1 hobj hcls
  obtain ⟨hu, hcalls⟩ := checkoption_frame env L L1 2 _ _ how hco
  simp only [tcp_meth_shutdown, hc, hco]
  refine ⟨results_one _ L1.stack _ (by simp [lua_pushnumber]), ?_, ?_⟩
  · simp [Outcome.state, lua_pushnumber, hcalls, tcp_of_udata L L1 ref hu]
  · simp [Outcome.state, lua_pushnumber, hu]

theorem checkoption_string (env : Env) (L : lua_State) (idx : Int) (d s : String)
    (lst : List String) (h : L.index idx = some (LuaValue.string s)) :
    luaL_checkoption env L idx (some d) lst =
      if cstring s ∈ lst then Except.ok (lst.indexOf (cstring s), L)
      else Except.error (idx, "invalid option '" ++ cstring s ++ "'") := by
  simp [luaL_checkoption, luaL_optstring, lua_isnoneornil, luaL_checkstring, h]

theorem checkoption_default (env : Env) (L : lua_State) (idx : Int) (d : String)
    (lst : List String) (h : lua_isnoneornil L idx = true) :
    luaL_checkoption env L idx (some d) lst =
      if cstring d ∈ lst then Except.ok (lst.indexOf (cstring d), L)
      else Except.error (idx, "invalid option '" ++ cstring d ++ "'") := by
  simp [luaL_checkoption, luaL_optstring, h]

theorem takeWhile_of_forall {α : Type} (p : α → Bool) (l : List α)
    (h : ∀ a ∈ l, p a = true) : l.takeWhile p = l := by
  induction l with
  | nil => rfl
  | cons a t ih =>
    rw [List.takeWhile_cons, h a (List.mem_cons_self a t),
      ih (fun b hb => h b (List.mem_cons_of_mem a hb))]
    rfl

/-- A string without a NUL character is read whole. -/
theorem cstring_of_no_nul (s : String) (h : Char.ofNat 0 ∉ s.data) : cstring s = s := by
  unfold cstring
  rw [takeWhile_of_forall]
  intro c hc
  simp only [ne_eq, decide_not, Bool.not_eq_true', decide_eq_false_iff_not]
  intro he
  exact h (he ▸ hc)

/-- Claim C16 as amended: shutdown on a client entity accepts exactly the
direction strings that read, up to their first NUL character, "receive",
"send" or "both", and passes the codes 0, 1 and 2 to the OS shutdown; it
uses "both" (code 2) when no direction is given; it rejects every other
direction string with the argument error that quotes what was read, without
calling the OS; and in every case the heap, hence every field of the entity,
is unchanged.  A string without a NUL character reads as itself. -/
theorem shutdown_directions (env : Env) (L : lua_State) (ref : Nat)
    (hobj : L.index 1 = some (LuaValue.userdata ref))
    (hcls : L.classOf ref = some tcp_client) :
    (∀ s, L.index 2 = some (LuaValue.string s) → cstring s = "receive" →
      (tcp_meth_shutdown env L).results = some [LuaValue.number 1] ∧
      (tcp_meth_shutdown env L).state.calls
        = L.calls ++ [Call.socket_shutdown (L.tcp ref).sock 0] ∧
      (tcp_meth_shutdown env L).state.udata = L.udata) ∧
    (∀ s, L.index 2 = some (LuaValue.string s) → cstring s = "send" →
      (tcp_meth_shutdown env L).results = some [LuaValue.number 1] ∧
      (tcp_meth_shutdown env L).state.calls
        = L.calls ++ [Call.socket_shutdown (L.tcp ref).sock 1] ∧
      (tcp_meth_shutdown env L).state.udata = L.udata) ∧
    (∀ s, L.index 2 = some (LuaValue.string s) → cstring s = "both" →
      (tcp_meth_shutdown env L).results = some [LuaValue.number 1] ∧
      (tcp_meth_shutdown env L).state.calls
        = L.calls ++ [Call.socket_shutdown (L.tcp ref).sock 2] ∧
      (tcp_meth_shutdown env L).state.udata = L.udata) ∧
    (lua_isnoneornil L 2 = true →
      (tcp_meth_shutdown env L).results = some [LuaValue.number 1] ∧
      (tcp_meth_shutdown env L).state.calls
        = L.calls ++ [Call.socket_shutdown (L.tcp ref).sock 2] ∧
      (tcp_meth_shutdown env L).state.udata = L.udata) ∧
    (∀ s, L.index 2 = some (LuaValue.string s) →
      cstring s ∉ ["receive", "send", "both"] →
      tcp_meth_shutdown env L
        = Outcome.error 2 ("invalid option '" ++ cstring s ++ "'") L) ∧
    (∀ s : String, Char.ofNat 0 ∉ s.data → cstring s = s) := by
  refine ⟨fun s h hs => ?_, fun s h hs => ?_, fun s h hs => ?_, fun h => ?_,
    fun s h hs => ?_, cstring_of_no_nul⟩
  · exact tcp_meth_shutdown_run env L L ref 0 hobj hcls
      (by rw [checkoption_string env L 2 _ _ _ h, hs]; rfl)
  · exact tcp_meth_shutdown_run env L L ref 1 hobj hcls
      (by rw [checkoption_string env L 2 _ _ _ h, hs]; rfl)
  · exact tcp_meth_shutdown_run env L L ref 2 hobj hcls
      (by rw [checkoption_string env L 2 _ _ _ h, hs]; rfl)
  · exact tcp_meth_shutdown_run env L L ref 2 hobj hcls
      (by rw [checkoption_default env L 2 _ _ h]; rfl)
  · have hc : auxiliar_checkclass L tcp_client 1 = Except.ok ref :=
      checkclass_ok L ref tcp_client 1 hobj hcls
    simp only [tcp_meth_shutdown, hc, checkoption_string env L 2 _ _ _ h, if_neg hs]

/-- Claim C17: getfamily is defined for an entity of any role and returns "inet6"
exactly when the family of the entity is IPv6 and "inet4" for every other
family value, in particular for IPv4 and for the unspecified family; it
leaves the heap unchanged. -/
theorem getfamily_names (L : lua_State) (ref : Nat) (cls : String)
    (hobj : L.index 1 = some (LuaValue.userdata ref))
    (hcls : L.classOf ref = some cls)
    (hrole : cls = tcp_master ∨ cls = tcp_client ∨ cls = tcp_server) :
    ((L.tcp ref).family = PF_INET6 →
      (tcp_meth_getfamily L).results = some [LuaValue.string "inet6"]) ∧
    ((L.tcp ref).family ≠ PF_INET6 →
      (tcp_meth_getfamily L).results = some [LuaValue.string "inet4"]) ∧
    ((L.tcp ref).family = PF_INET →
      (tcp_meth_getfamily L).results = some [LuaValue.string "inet4"]) ∧
    ((L.tcp ref).family = PF_UNSPEC →
      (tcp_meth_getfamily L).results = some [LuaValue.string "inet4"]) ∧
    ((tcp_meth_getfamily L).results = some [LuaValue.string "inet6"] ∨
      (tcp_meth_getfamily L).results = some [LuaValue.string "inet4"]) ∧
    (tcp_meth_getfamily L).state.udata = L.udata := by
  have hg := checkgroup_ok L ref cls 1 hobj hcls hrole
  have h6 : (L.tcp ref).family = PF_INET6 →
      (tcp_meth_getfamily L).results = some [LuaValue.string "inet6"] := by
    intro h
    simp only [tcp_meth_getfamily, hg, h, if_true]
    exact results_one _ L.stack _ (by simp [lua_pushstring])
  have h4 : (L.tcp ref).family ≠ PF_INET6 →
      (tcp_meth_getfamily L).results = some [LuaValue.string "inet4"] := by
    intro h
    simp only [tcp_meth_getfamily, hg, if_neg h]
    exact results_one _ L.stack _ (by simp [lua_pushstring])
  refine ⟨h6, h4, fun h => h4 (by rw [h]; decide), fun h => h4 (by rw [h]; decide), ?_, ?_⟩
  · by_cases h : (L.tcp ref).family = PF_INET6
    · exact Or.inl (h6 h)
    · exact Or.inr (h4 h)
  · simp only [tcp_meth_getfamily, hg]
    split <;> simp [Outcome.state, lua_pushstring]

theorem setclass_udata_congr (L L' : lua_State) (c : String) (idx : Int)
    (hi : L'.index idx = L.index idx) (hu : L'.udata = L.udata) :
    (auxiliar_setclass L' c idx).udata = (auxiliar_setclass L c idx).udata := by
  unfold auxiliar_setclass
  rw [hi, hu]
  cases L.index idx with
  | none => exact hu
  | some v =>
    cases v with
    | userdata r =>
      simp only []
      cases hr : L.udata[r]? with
      | none => exact hu
      | some u => rfl
    | nil => exact hu
    | boolean b => exact hu
    | number n => exact hu
    | string s => exact hu

/-- Claim C19: listen uses a backlog of 32 when the caller gives none: on a master
entity, a listen call without backlog argument and a listen call with the
backlog 32 on the same heap and log issue the same OS listen call, with
backlog 32, return the same values and leave the same heap, role included. -/
theorem listen_default_backlog (env : Env) (L L32 : lua_State) (ref : Nat)
    (hobj : L.index 1 = some (LuaValue.userdata ref))
    (hcls : L.classOf ref = some tcp_master)
    (hnone : lua_isnoneornil L 2 = true)
    (hobj32 : L32.index 1 = some (LuaValue.userdata ref))
    (h32 : L32.index 2 = some (LuaValue.number 32))
    (hu : L32.udata = L.udata) (hcalls : L32.calls = L.calls) :
    (tcp_meth_listen env L).state.calls
      = L.calls ++ [Call.socket_listen (L.tcp ref).sock 32] ∧
    (tcp_meth_listen env L32).state.calls = (tcp_meth_listen env L).state.calls ∧
    (tcp_meth_listen env L32).results = (tcp_meth_listen env L).results ∧
    (tcp_meth_listen env L32).state.udata = (tcp_meth_listen env L).state.udata := by
  have hc : auxiliar_checkclass L tcp_master 1 = Except.ok ref :=
    checkclass_ok L ref tcp_master 1 hobj hcls
  have hc32 : auxiliar_checkclass L32 tcp_master 1 = Except.ok ref :=
    checkclass_ok L32 ref tcp_master 1 hobj32 ((classOf_of_udata L L32 ref hu).trans hcls)
  have hb : luaL_optnumber env L 2 32 = Except.ok 32 := by
    simp [luaL_optnumber, hnone]
  have hb32 : luaL_optnumber env L32 2 32 = Except.ok 32 := by
    simp [luaL_optnumber, lua_isnoneornil, luaL_checknumber, h32]
  have ht : L32.tcp ref = L.tcp ref := tcp_of_udata L L32 ref hu
  have hlt : ref < L.udata.length := classOf_lt L ref tcp_master hcls
  simp only [tcp_meth_listen, hc, hc32, hb, hb32, ht, hcalls]
  by_cases herr : env.socket_listen L.calls (L.tcp ref).sock 32 = IO_DONE
  · simp only [if_neg (not_not.mpr herr)]
    refine ⟨by simp [Outcome.state, lua_pushnumber], by simp [Outcome.state, lua_pushnumber, hcalls], ?_, ?_⟩
    · rw [results_one _ L32.stack (LuaValue.number 1) (by simp [lua_pushnumber]),
        results_one _ L.stack (LuaValue.number 1) (by simp [lua_pushnumber])]
    · simp only [Outcome.state, lua_pushnumber, push_udata]
      exact setclass_udata_congr _ _ _ _ (by simp [hobj, hobj32]) (by simp [hu])
  · simp only [if_pos herr]
    refine ⟨by simp [Outcome.state, lua_pushstring, lua_pushnil],
      by simp [Outcome.state, lua_pushstring, lua_pushnil, hcalls], ?_, ?_⟩
    · rw [results_two _ L32.stack LuaValue.nil
          (LuaValue.string (env.socket_strerror (env.socket_listen L.calls (L.tcp ref).sock 32)))
          (by simp [lua_pushstring, lua_pushnil]),
        results_two _ L.stack LuaValue.nil
          (LuaValue.string (env.socket_strerror (env.socket_listen L.calls (L.tcp ref).sock 32)))
          (by simp [lua_pushstring, lua_pushnil])]
    · simp [Outcome.state, lua_pushstring, lua_pushnil, hu]

/-- Claim C20: dirty is available on an entity of any role and returns true if
and only if the read buffer of the entity holds unconsumed bytes: it returns
the negation of the buffer-is-empty test; it changes neither heap nor log. -/
theorem dirty_reports_unread (L : lua_State) (ref : Nat) (cls : String)
    (hobj : L.index 1 = some (LuaValue.userdata ref))
    (hcls : L.classOf ref = some cls)
    (hrole : cls = tcp_master ∨ cls = tcp_client ∨ cls = tcp_server) :
    (tcp_meth_dirty L).results
      = some [LuaValue.boolean (!buffer_isempty (L.tcp ref).buf)] ∧
    ((tcp_meth_dirty L).results = some [LuaValue.boolean true] ↔
      (L.tcp ref).buf.first < (L.tcp ref).buf.last) ∧
    (tcp_meth_dirty L).state.udata = L.udata ∧
    (tcp_meth_dirty L).state.calls = L.calls := by
  have hg := checkgroup_ok L ref cls 1 hobj hcls hrole
  have hr : (tcp_meth_dirty L).results
      = some [LuaValue.boolean (!buffer_isempty (L.tcp ref).buf)] := by
    simp only [tcp_meth_dirty, hg]
    exact results_one _ L.stack _ (by simp [lua_pushboolean])
  refine ⟨hr, ?_, ?_, ?_⟩
  · rw [hr]
    simp [buffer_isempty]
  · simp [tcp_meth_dirty, hg, Outcome.state, lua_pushboolean]
  · simp [tcp_meth_dirty, hg, Outcome.state, lua_pushboolean]

end simple

section options
attribute [local irreducible] lua_State.tcp lua_State.classOf lua_State.setTcp auxiliar_setclass
  socket_destroy lua_State.index lua_State.setIndex

theorem find_option (opt : List (String × String)) (name : String) :
    (∃ h, opt.find? (fun e => e.1 == name) = some (name, h) ∧ (name, h) ∈ opt) ∨
    (opt.find? (fun e => e.1 == name) = none ∧ name ∉ opt.map Prod.fst) := by
  cases hf : opt.find? (fun e => e.1 == name) with
  | none =>
    refine Or.inr ⟨rfl, ?_⟩
    intro hmem
    obtain ⟨e, he, hn⟩ := List.mem_map.mp hmem
    have := List.find?_eq_none.mp hf e he
    simp [hn] at this
  | some e =>
    have h1 := List.find?_some hf
    have h2 := List.mem_of_find?_eq_some hf
    have h3 : e.1 = name := by simpa using h1
    obtain ⟨a, b⟩ := e
    simp only at h3
    subst h3
    exact Or.inl ⟨b, rfl, h2⟩

theorem reply_finish_calls (p : Reply) (L : lua_State) : (p.finish L).state.calls = L.calls := by
  unfold Reply.finish
  split <;> rfl

/-- The option interface on a name given as a string: a name of the table has
its handler called on the descriptor, any other name is an argument error
raised before anything is called. -/
theorem opt_meth_run (env : Env) (L : lua_State) (opt : List (String × String)) (sock : Int)
    (name : String) (hname : L.index 2 = some (LuaValue.string name)) :
    (name ∈ opt.map Prod.fst →
      ∃ h, (name, h) ∈ opt ∧
        (opt_meth env L opt sock).state.calls = L.calls ++ [Call.opt_handler h sock]) ∧
    (name ∉ opt.map Prod.fst →
      opt_meth env L opt sock
        = Outcome.error 2 ("unsupported option \x60" ++ name.take 35 ++ "\x27") L) := by
  have hcs : luaL_checkstring env L 2 = Except.ok (name, L) := by
    simp [luaL_checkstring, hname]
  rcases find_option opt name with ⟨h, hf, hm⟩ | ⟨hf, hn⟩
  · refine ⟨fun _ => ⟨h, hm, ?_⟩, fun hno => absurd (List.mem_map.mpr ⟨(name, h), hm, rfl⟩) hno⟩
    simp only [opt_meth, hcs, hf]
    rw [reply_finish_calls]
    rfl
  · refine ⟨fun hyes => absurd hyes hn, fun _ => ?_⟩
    simp only [opt_meth, hcs, hf]

/-- Claim C18 as amended: the option-get interface of a TCP entity recognises
exactly keepalive, reuseaddr, tcp-nodelay, linger and error, and the
option-set interface exactly keepalive, reuseaddr, tcp-nodelay, ipv6-v6only
and linger: a recognised name has its handler called on the descriptor of the
entity, any other name is an argument error raised before anything is
called. -/
theorem option_names (env : Env) (L : lua_State) (ref : Nat) (cls name : String)
    (hobj : L.index 1 = some (LuaValue.userdata ref))
    (hcls : L.classOf ref = some cls)
    (hrole : cls = tcp_master ∨ cls = tcp_client ∨ cls = tcp_server)
    (hname : L.index 2 = some (LuaValue.string name)) :
    tcp_optget.map Prod.fst = ["keepalive", "reuseaddr", "tcp-nodelay", "linger", "error"] ∧
    tcp_optset.map Prod.fst
      = ["keepalive", "reuseaddr", "tcp-nodelay", "ipv6-v6only", "linger"] ∧
    (name ∈ tcp_optget.map Prod.fst →
      ∃ h, (name, h) ∈ tcp_optget ∧
        (tcp_meth_getoption env L).state.calls
          = L.calls ++ [Call.opt_handler h (L.tcp ref).sock]) ∧
    (name ∉ tcp_optget.map Prod.fst →
      tcp_meth_getoption env L
        = Outcome.error 2 ("unsupported option \x60" ++ name.take 35 ++ "\x27") L) ∧
    (name ∈ tcp_optset.map Prod.fst →
      ∃ h, (name, h) ∈ tcp_optset ∧
        (tcp_meth_setoption env L).state.calls
          = L.calls ++ [Call.opt_handler h (L.tcp ref).sock]) ∧
    (name ∉ tcp_optset.map Prod.fst →
      tcp_meth_setoption env L
        = Outcome.error 2 ("unsupported option \x60" ++ name.take 35 ++ "\x27") L) := by
  have hg := checkgroup_ok L ref cls 1 hobj hcls hrole
  have hget := opt_meth_run env L tcp_optget (L.tcp ref).sock name hname
  have hset := opt_meth_run env L tcp_optset (L.tcp ref).sock name hname
  simp only [tcp_meth_getoption, tcp_meth_setoption, opt_meth_getoption, opt_meth_setoption, hg]
  exact ⟨rfl, rfl, hget.1, hget.2, hset.1, hset.2⟩

end options

/-- Claim C18 fails at concrete inputs: the option-get interface does not
recognise ipv6-v6only and the option-set interface does not recognise error:
both calls raise an error and no handler is called, while the same names are
served by the other interface. -/
theorem option_names_counterexample :
    (tcp_meth_getoption sampleEnv
      (methodCall tcp_client 5 [LuaValue.string "ipv6-v6only"])).results = none ∧
    (tcp_meth_getoption sampleEnv
      (methodCall tcp_client 5 [LuaValue.string "ipv6-v6only"])).state.calls = [] ∧
    (tcp_meth_setoption sampleEnv
      (methodCall tcp_client 5 [LuaValue.string "error", LuaValue.number 1])).results = none ∧
    (tcp_meth_setoption sampleEnv
      (methodCall tcp_client 5 [LuaValue.string "error", LuaValue.number 1])).state.calls
      = [] ∧
    (tcp_meth_setoption sampleEnv
      (methodCall tcp_client 5 [LuaValue.string "ipv6-v6only", LuaValue.boolean true])
      ).state.calls = [Call.opt_handler "opt_set_ip6_v6only" 5] ∧
    (tcp_meth_getoption sampleEnv
      (methodCall tcp_client 5 [LuaValue.string "error"])).state.calls
      = [Call.opt_handler "opt_get_error" 5] := by
  decide

/-- Claim C18 as amended, at a concrete input: on a client, linger is served by
both interfaces. -/
theorem option_names_witness :
    (∃ h, ("linger", h) ∈ tcp_optget ∧
      (tcp_meth_getoption sampleEnv
        (methodCall tcp_client 5 [LuaValue.string "linger"])).state.calls
        = [] ++ [Call.opt_handler h 5]) ∧
    (∃ h, ("linger", h) ∈ tcp_optset ∧
      (tcp_meth_setoption sampleEnv
        (methodCall tcp_client 5 [LuaValue.string "linger"])).state.calls
        = [] ++ [Call.opt_handler h 5]) :=
  (fun h => ⟨h.2.2.1 (by decide), h.2.2.2.2.1 (by decide)⟩)
    (option_names sampleEnv (methodCall tcp_client 5 [LuaValue.string "linger"]) 0 tcp_client
      "linger" (by decide) (by decide) (by decide) (by decide))

/-- Claim C15 fails at a concrete input: a master freshly created by tcp and
never bound connects with hints whose family is IPv4, not the unspecified
family. -/
theorem connect_hints_counterexample :
    (tcp_meth_connect sampleEnv
      ((tcp_global_create sampleEnv (functionCall [])).state.call
        [LuaValue.userdata 0, LuaValue.string "example.org", LuaValue.string "80"])).state.calls
      = [Call.inet_trycreate AF_INET SOCK_STREAM, Call.socket_setnonblocking 3,
         Call.inet_tryconnect 3 AF_INET "example.org" "80"
           { block := -1, total := -1, start := 100 } (connecthints_for AF_INET)] ∧
    (connecthints_for AF_INET).ai_family = AF_INET ∧
    (connecthints_for AF_INET).ai_family ≠ PF_UNSPEC := by
  decide

/-- Claim C15 as amended, at a concrete input: an IPv4 client reconnects, and
tcp6 creates a master of family IPv6. -/
theorem connect_hints_follow_family_witness :
    (tcp_meth_connect sampleEnv
      (methodCall tcp_client 5 [LuaValue.string "example.org", LuaValue.number 80])).state.calls
      = [] ++ [Call.inet_tryconnect 5 AF_INET "example.org" "80"
          { block := -1, total := -1, start := 100 } (connecthints_for AF_INET)] ∧
    (connecthints_for AF_INET).ai_family = AF_INET ∧
    (tcp_create sampleEnv (functionCall []) AF_INET6).state.classOf 0 = some tcp_master ∧
    ((tcp_create sampleEnv (functionCall []) AF_INET6).state.tcp 0).family = AF_INET6 :=
  connect_hints_follow_family sampleEnv
    (methodCall tcp_client 5 [LuaValue.string "example.org", LuaValue.number 80]) _ _ 0
    tcp_client "example.org" "80" (functionCall []) AF_INET6
    (by decide) (by decide) (by decide) rfl rfl rfl

/-- Claim C16 as amended, at concrete inputs: shutdown of the sending side of
a client, and a direction that is not a name. -/
theorem shutdown_directions_witness :
    (tcp_meth_shutdown sampleEnv (methodCall tcp_client 5 [LuaValue.string "send"])).results
      = some [LuaValue.number 1] ∧
    (tcp_meth_shutdown sampleEnv (methodCall tcp_client 5 [LuaValue.string "send"])).state.calls
      = [] ++ [Call.socket_shutdown 5 1] ∧
    (tcp_meth_shutdown sampleEnv (methodCall tcp_client 5 [LuaValue.string "send"])).state.udata
      = [sampleObject tcp_client 5] ∧
    tcp_meth_shutdown sampleEnv (methodCall tcp_client 5 [LuaValue.string "write"])
      = Outcome.error 2 ("invalid option '" ++ cstring "write" ++ "'")
          (methodCall tcp_client 5 [LuaValue.string "write"]) ∧
    "invalid option '" ++ cstring "write" ++ "'" = "invalid option 'write'" :=
  ⟨((shutdown_directions sampleEnv (methodCall tcp_client 5 [LuaValue.string "send"]) 0
      (by decide) (by decide)).2.1 "send" (by decide) (by decide)).1,
   ((shutdown_directions sampleEnv (methodCall tcp_client 5 [LuaValue.string "send"]) 0
      (by decide) (by decide)).2.1 "send" (by decide) (by decide)).2.1,
   ((shutdown_directions sampleEnv (methodCall tcp_client 5 [LuaValue.string "send"]) 0
      (by decide) (by decide)).2.1 "send" (by decide) (by decide)).2.2,
   (shutdown_directions sampleEnv (methodCall tcp_client 5 [LuaValue.string "write"]) 0
      (by decide) (by decide)).2.2.2.2.1 "write" (by decide) (by decide),
   by decide⟩

/-- Claim C16 fails at a concrete input: the direction string "send",
a NUL character, "junk" is none of the three names, and shutdown accepts it
and passes code 1 to the OS shutdown. -/
theorem shutdown_directions_counterexample :
    "send\x00junk" ∉ ["receive", "send", "both"] ∧
    (tcp_meth_shutdown sampleEnv
      (methodCall tcp_client 5 [LuaValue.string "send\x00junk"])).results
      = some [LuaValue.number 1] ∧
    (tcp_meth_shutdown sampleEnv
      (methodCall tcp_client 5 [LuaValue.string "send\x00junk"])).state.calls
      = [Call.socket_shutdown 5 1] := by
  decide

/-- Claim C17 at a concrete input: an IPv4 server reports "inet4". -/
theorem getfamily_names_witness :
    (tcp_meth_getfamily (methodCall tcp_server 5 [])).results
      = some [LuaValue.string "inet4"] ∧
    (tcp_meth_getfamily (methodCall tcp_server 5 [])).state.udata
      = [sampleObject tcp_server 5] :=
  (fun h => ⟨h.2.2.1 (by decide), h.2.2.2.2.2⟩)
    (getfamily_names (methodCall tcp_server 5 []) 0 tcp_server
      (by decide) (by decide) (by decide))

/-- Claim C19 at a concrete input: listen without argument and listen with 32 on
the same master. -/
theorem listen_default_backlog_witness :
    (tcp_meth_listen sampleEnv (methodCall tcp_master 5 [])).state.calls
      = [] ++ [Call.socket_listen 5 32] ∧
    (tcp_meth_listen sampleEnv (methodCall tcp_master 5 [LuaValue.number 32])).state.calls
      = (tcp_meth_listen sampleEnv (methodCall tcp_master 5 [])).state.calls ∧
    (tcp_meth_listen sampleEnv (methodCall tcp_master 5 [LuaValue.number 32])).results
      = (tcp_meth_listen sampleEnv (methodCall tcp_master 5 [])).results ∧
    (tcp_meth_listen sampleEnv (methodCall tcp_master 5 [LuaValue.number 32])).state.udata
      = (tcp_meth_listen sampleEnv (methodCall tcp_master 5 [])).state.udata :=
  listen_default_backlog sampleEnv (methodCall tcp_master 5 [])
    (methodCall tcp_master 5 [LuaValue.number 32]) 0
    (by decide) (by decide) (by decide) (by decide) (by decide) rfl rfl

/-- Claim C20 at a concrete input: a client with an empty buffer is not dirty. -/
theorem dirty_reports_unread_witness :
    (tcp_meth_dirty (methodCall tcp_client 5 [])).results
      = some [LuaValue.boolean (!buffer_isempty (sampleObject tcp_client 5).tcp.buf)] ∧
    ((tcp_meth_dirty (methodCall tcp_client 5 [])).results = some [LuaValue.boolean true] ↔
      (sampleObject tcp_client 5).tcp.buf.first < (sampleObject tcp_client 5).tcp.buf.last) ∧
    (tcp_meth_dirty (methodCall tcp_client 5 [])).state.udata = [sampleObject tcp_client 5] ∧
    (tcp_meth_dirty (methodCall tcp_client 5 [])).state.calls = [] :=
  dirty_reports_unread (methodCall tcp_client 5 []) 0 tcp_client
    (by decide) (by decide) (by decide)

/-- Claim C14 at concrete inputs: tcp and tcp6 where socket creation succeeds,
tcp where it fails. -/
theorem master_constructors_witness :
    ((tcp_global_create sampleEnv (functionCall [])).results = some [LuaValue.userdata 0] ∧
      (tcp_global_create sampleEnv (functionCall [])).state.classOf 0 = some tcp_master ∧
      ((tcp_global_create sampleEnv (functionCall [])).state.tcp 0).family = AF_INET ∧
      ((tcp_global_create sampleEnv (functionCall [])).state.tcp 0).tm = noTimeout) ∧
    ((tcp_global_create6 sampleEnv (functionCall [])).results = some [LuaValue.userdata 0] ∧
      (tcp_global_create6 sampleEnv (functionCall [])).state.classOf 0 = some tcp_master ∧
      ((tcp_global_create6 sampleEnv (functionCall [])).state.tcp 0).family = AF_INET6 ∧
      ((tcp_global_create6 sampleEnv (functionCall [])).state.tcp 0).tm = noTimeout) ∧
    ((tcp_global_create exhaustedEnv (functionCall [])).results
        = some [LuaValue.nil, LuaValue.string "too many open files"] ∧
      (tcp_global_create exhaustedEnv (functionCall [])).state.udata = []) :=
  ⟨(master_constructors sampleEnv (functionCall [])).1 (by decide),
   (master_constructors sampleEnv (functionCall [])).2.1 (by decide),
   (master_constructors exhaustedEnv (functionCall [])).2.2.1 "too many open files"
     (by decide)⟩

section escape
attribute [local irreducible] lua_State.tcp lua_State.classOf lua_State.setTcp auxiliar_setclass
  socket_destroy lua_State.index lua_State.setIndex

theorem call_classOf (L : lua_State) (args : List LuaValue) (r : Nat) :
    (L.call args).classOf r = L.classOf r :=
  classOf_of_udata L (L.call args) r rfl

theorem call_tcp (L : lua_State) (args : List LuaValue) (r : Nat) :
    (L.call args).tcp r = L.tcp r :=
  tcp_of_udata L (L.call args) r rfl

theorem call_index_one (L : lua_State) (ref : Nat) (args : List LuaValue) :
    (L.call (LuaValue.userdata ref :: args)).index 1 = some (LuaValue.userdata ref) := by
  unfold lua_State.index lua_State.call
  simp

/-- Claim C21: the raw descriptor escape hatch.  For every entity of any role
and every integer n given as argument, setfd returns no value, replaces only
the descriptor field of the entity (its role tag, family, timeout record,
buffer record and I/O table are unchanged, and so is every other object),
calls nothing in the layers below, so the previous descriptor is not closed,
and a getfd right afterwards returns n. -/
theorem setfd_replaces_descriptor (env : Env) (L : lua_State) (ref : Nat) (cls : String)
    (n : Int)
    (hobj : L.index 1 = some (LuaValue.userdata ref))
    (hcls : L.classOf ref = some cls)
    (hrole : cls = tcp_master ∨ cls = tcp_client ∨ cls = tcp_server)
    (hn : luaL_checknumber env L 2 = Except.ok n) :
    (tcp_meth_setfd env L).results = some [] ∧
    (tcp_meth_setfd env L).state.tcp ref = { L.tcp ref with sock := n } ∧
    (tcp_meth_setfd env L).state.classOf ref = some cls ∧
    ((tcp_meth_setfd env L).state.tcp ref).family = (L.tcp ref).family ∧
    ((tcp_meth_setfd env L).state.tcp ref).tm = (L.tcp ref).tm ∧
    ((tcp_meth_setfd env L).state.tcp ref).buf = (L.tcp ref).buf ∧
    (∀ r, r ≠ ref → (tcp_meth_setfd env L).state.tcp r = L.tcp r ∧
      (tcp_meth_setfd env L).state.classOf r = L.classOf r) ∧
    (tcp_meth_setfd env L).state.calls = L.calls ∧
    (tcp_meth_getfd ((tcp_meth_setfd env L).state.call [LuaValue.userdata ref])).results
      = some [LuaValue.number n] := by
  have hg := checkgroup_ok L ref cls 1 hobj hcls hrole
  have hlt : ref < L.udata.length := classOf_lt L ref cls hcls
  have he : tcp_meth_setfd env L
      = Outcome.ret 0 (L.modTcp ref (fun t => { t with sock := n })) := by
    simp only [tcp_meth_setfd, hg, hn]
  have ht : (L.modTcp ref (fun t => { t with sock := n })).tcp ref
      = { L.tcp ref with sock := n } := by
    rw [modTcp_tcp_self L ref _ hlt]
  rw [he]
  simp only [Outcome.state]
  refine ⟨?_, ht, ?_, by rw [ht], by rw [ht], by rw [ht], ?_, ?_, ?_⟩
  · simp [Outcome.results]
  · rw [modTcp_classOf]; exact hcls
  · intro r hr
    exact ⟨modTcp_tcp_ne L ref r _ hr, modTcp_classOf L ref r _⟩
  · exact modTcp_calls L ref _
  · have hobj2 := call_index_one (L.modTcp ref (fun t => { t with sock := n })) ref []
    have hcls2 : ((L.modTcp ref (fun t => { t with sock := n })).call
        [LuaValue.userdata ref]).classOf ref = some cls := by
      rw [call_classOf, modTcp_classOf]
      exact hcls
    have hg2 := checkgroup_ok _ ref cls 1 hobj2 hcls2 hrole
    simp only [tcp_meth_getfd, hg2]
    rw [call_tcp, ht]
    exact results_one _ [LuaValue.userdata ref] _ (by simp [lua_pushnumber, lua_State.call])

/-- Claim C25: every entity returned by create or by accept has had its
descriptor put into non-blocking mode before it is returned, whatever the
family and the timeout settings, and create applies the IPv6-only socket
option to the new descriptor if and only if the requested family is IPv6. -/
theorem nonblocking_before_return (env : Env) (L : lua_State) :
    (∀ family, (env.inet_trycreate L.calls family SOCK_STREAM).1 = none →
      (tcp_create env L family).results = some [LuaValue.userdata L.udata.length] ∧
      ((tcp_create env L family).state.tcp L.udata.length).sock
        = (env.inet_trycreate L.calls family SOCK_STREAM).2 ∧
      (tcp_create env L family).state.calls = L.calls ++
        Call.inet_trycreate family SOCK_STREAM ::
        Call.socket_setnonblocking (env.inet_trycreate L.calls family SOCK_STREAM).2 ::
        (if family = PF_INET6 then
          [Call.setsockopt (env.inet_trycreate L.calls family SOCK_STREAM).2 IPPROTO_IPV6
            IPV6_V6ONLY 1]
         else []) ∧
      Call.socket_setnonblocking (env.inet_trycreate L.calls family SOCK_STREAM).2
        ∈ (tcp_create env L family).state.calls ∧
      (Call.setsockopt (env.inet_trycreate L.calls family SOCK_STREAM).2 IPPROTO_IPV6
          IPV6_V6ONLY 1 ∈ (tcp_create env L family).state.calls.drop L.calls.length
        ↔ family = PF_INET6) ∧
      (∀ s l o v, Call.setsockopt s l o v
          ∈ (tcp_create env L family).state.calls.drop L.calls.length → family = PF_INET6)) ∧
    (∀ ref, L.index 1 = some (LuaValue.userdata ref) → L.classOf ref = some tcp_server →
      (env.inet_tryaccept L.calls (L.tcp ref).sock (L.tcp ref).family
        { (L.tcp ref).tm with start := env.timeout_gettime L.calls }).1 = none →
      (tcp_meth_accept env L).results = some [LuaValue.userdata L.udata.length] ∧
      ((tcp_meth_accept env L).state.tcp L.udata.length).sock
        = (env.inet_tryaccept L.calls (L.tcp ref).sock (L.tcp ref).family
            { (L.tcp ref).tm with start := env.timeout_gettime L.calls }).2 ∧
      (tcp_meth_accept env L).state.calls = L.calls ++
        [Call.inet_tryaccept (L.tcp ref).sock (L.tcp ref).family
           { (L.tcp ref).tm with start := env.timeout_gettime L.calls },
         Call.socket_setnonblocking
           (env.inet_tryaccept L.calls (L.tcp ref).sock (L.tcp ref).family
             { (L.tcp ref).tm with start := env.timeout_gettime L.calls }).2]) := by
  constructor
  · intro family h
    obtain ⟨L', he, hs, -, ht, hcalls⟩ := tcp_create_ok_full env L family h
    rw [he]
    simp only [Outcome.state]
    refine ⟨results_one _ _ _ hs, by rw [ht], hcalls, ?_, ?_, ?_⟩
    · rw [hcalls]; simp
    · rw [hcalls]
      by_cases hf : family = PF_INET6
      · simp [hf]
      · simp [hf]
    · intro s l o v
      rw [hcalls]
      by_cases hf : family = PF_INET6
      · intro _; exact hf
      · simp [hf]
  · intro ref hobj hcls h
    obtain ⟨L', he, hs, -, ht, hcalls, -, -⟩ := tcp_meth_accept_ok_full env L ref hobj hcls h
    rw [he]
    simp only [Outcome.state]
    exact ⟨results_one _ _ _ hs, by rw [ht], hcalls⟩

/-- Claim C26: for every master entity, bind resolves the given address and
port with hints that are exactly socket type stream, the passive flag and
the current family of the entity, every other field being zero. -/
theorem bind_hints_exact (env : Env) (L La Lp : lua_State) (ref : Nat)
    (address port : String)
    (hobj : L.index 1 = some (LuaValue.userdata ref))
    (hcls : L.classOf ref = some tcp_master)
    (haddr : luaL_checkstring env L 2 = Except.ok (address, La))
    (hport : luaL_checkstring env La 3 = Except.ok (port, Lp)) :
    (tcp_meth_bind env L).state.calls = L.calls ++
      [Call.inet_trybind (L.tcp ref).sock address port
        { ai_flags := AI_PASSIVE, ai_family := (L.tcp ref).family, ai_socktype := SOCK_STREAM,
          ai_protocol := 0, ai_addrlen := 0, ai_addr := 0, ai_canonname := 0, ai_next := 0 }] ∧
    bindhints_for (L.tcp ref).family = passiveStreamHints (L.tcp ref).family := by
  obtain ⟨n, L', he, hcalls, -, -, -⟩ := tcp_meth_bind_run env L La Lp ref address port
    hobj hcls haddr hport
  rw [he]
  exact ⟨hcalls, rfl⟩

end escape

/-- Claim C21 at a concrete input: setfd with 9 on a client holding descriptor 5. -/
theorem setfd_replaces_descriptor_witness :
    (tcp_meth_setfd sampleEnv (methodCall tcp_client 5 [LuaValue.number 9])).results = some [] ∧
    (tcp_meth_setfd sampleEnv (methodCall tcp_client 5 [LuaValue.number 9])).state.tcp 0
      = { (sampleObject tcp_client 5).tcp with sock := 9 } ∧
    (tcp_meth_setfd sampleEnv (methodCall tcp_client 5 [LuaValue.number 9])).state.classOf 0
      = some tcp_client ∧
    (tcp_meth_setfd sampleEnv (methodCall tcp_client 5 [LuaValue.number 9])).state.calls = [] ∧
    (tcp_meth_getfd ((tcp_meth_setfd sampleEnv
      (methodCall tcp_client 5 [LuaValue.number 9])).state.call [LuaValue.userdata 0])).results
      = some [LuaValue.number 9] :=
  (fun h => ⟨h.1, h.2.1, h.2.2.1, h.2.2.2.2.2.2.2.1, h.2.2.2.2.2.2.2.2⟩)
    (setfd_replaces_descriptor sampleEnv (methodCall tcp_client 5 [LuaValue.number 9]) 0
      tcp_client 9 (by decide) (by decide) (by decide) rfl)

/-- Claim C25 at concrete inputs: tcp6 sets descriptor 3 non-blocking and
IPv6-only, tcp sets it non-blocking only, accept sets descriptor 4
non-blocking. -/
theorem nonblocking_before_return_witness :
    (tcp_create sampleEnv (functionCall []) AF_INET6).state.calls
      = [] ++ Call.inet_trycreate AF_INET6 SOCK_STREAM :: Call.socket_setnonblocking 3 ::
          [Call.setsockopt 3 IPPROTO_IPV6 IPV6_V6ONLY 1] ∧
    (tcp_create sampleEnv (functionCall []) AF_INET).state.calls
      = [] ++ Call.inet_trycreate AF_INET SOCK_STREAM :: Call.socket_setnonblocking 3 :: [] ∧
    (tcp_meth_accept sampleEnv (methodCall tcp_server 5 [])).state.calls
      = [] ++ [Call.inet_tryaccept 5 AF_INET { block := -1, total := -1, start := 100 },
               Call.socket_setnonblocking 4] :=
  ⟨((nonblocking_before_return sampleEnv (functionCall [])).1 AF_INET6 (by decide)).2.2.1,
   ((nonblocking_before_return sampleEnv (functionCall [])).1 AF_INET (by decide)).2.2.1,
   ((nonblocking_before_return sampleEnv (methodCall tcp_server 5 [])).2 0 (by decide)
      (by decide) (by decide)).2.2⟩

/-- Claim C26 at a concrete input: bind of an IPv4 master to port 8080. -/
theorem bind_hints_exact_witness :
    (tcp_meth_bind sampleEnv
      (methodCall tcp_master 5 [LuaValue.string "*", LuaValue.string "8080"])).state.calls
      = [] ++ [Call.inet_trybind 5 "*" "8080"
          { ai_flags := AI_PASSIVE, ai_family := AF_INET, ai_socktype := SOCK_STREAM,
            ai_protocol := 0, ai_addrlen := 0, ai_addr := 0, ai_canonname := 0,
            ai_next := 0 }] ∧
    bindhints_for AF_INET = passiveStreamHints AF_INET :=
  bind_hints_exact sampleEnv
    (methodCall tcp_master 5 [LuaValue.string "*", LuaValue.string "8080"]) _ _ 0 "*" "8080"
    (by decide) (by decide) rfl rfl

/-! ## Frames: what no method touches -/

section frames
attribute [local irreducible] lua_State.tcp lua_State.classOf lua_State.setTcp auxiliar_setclass
  socket_destroy lua_State.index lua_State.setIndex

variable {α : Type} (g : Option String × t_tcp → α)

theorem keeps_refl (L : lua_State) : L.keeps g L :=
  ⟨Nat.le_refl _, fun _ _ => rfl⟩

theorem keeps_step (L0 L L' : lua_State) (hk : L0.keeps g L)
    (hlen : L.udata.length ≤ L'.udata.length)
    (hstep : ∀ r, r < L0.udata.length →
      g (L'.classOf r, L'.tcp r) = g (L.classOf r, L.tcp r)) :
    L0.keeps g L' :=
  ⟨Nat.le_trans hk.1 hlen, fun r hr => (hstep r hr).trans (hk.2 r hr)⟩

theorem keeps_udata (L0 L L' : lua_State) (hk : L0.keeps g L) (hu : L'.udata = L.udata) :
    L0.keeps g L' :=
  keeps_step g L0 L L' hk (by rw [hu])
    (fun r _ => by rw [classOf_of_udata L L' r hu, tcp_of_udata L L' r hu])

theorem keeps_mk (L0 L : lua_State) (s : List LuaValue) (c : List Call) (hk : L0.keeps g L) :
    L0.keeps g (lua_State.mk s L.udata c) :=
  keeps_udata g L0 L _ hk rfl

theorem keeps_modTcp (hT : ∀ c t t', t'.io = t.io → g (c, t') = g (c, t))
    (L0 L : lua_State) (ref : Nat) (f : t_tcp → t_tcp) (hf : ∀ t, (f t).io = t.io)
    (hk : L0.keeps g L) : L0.keeps g (L.modTcp ref f) :=
  keeps_step g L0 L _ hk (by simp) (fun r _ => by
    rw [modTcp_classOf, modTcp_tcp]
    split
    · next h => rw [h.1]; exact hT _ _ _ (hf _)
    · rfl)

theorem keeps_modTcp_fresh (L0 L : lua_State) (ref : Nat) (f : t_tcp → t_tcp)
    (hfresh : L0.udata.length ≤ ref) (hk : L0.keeps g L) : L0.keeps g (L.modTcp ref f) :=
  keeps_step g L0 L _ hk (by simp) (fun r hr => by
    rw [modTcp_classOf, modTcp_tcp_ne L ref r f (by omega)])

theorem keeps_setTcp_fresh (L0 L : lua_State) (ref : Nat) (t : t_tcp)
    (hfresh : L0.udata.length ≤ ref) (hk : L0.keeps g L) : L0.keeps g (L.setTcp ref t) :=
  keeps_step g L0 L _ hk (by simp) (fun r hr => by
    rw [setTcp_classOf, setTcp_tcp_ne L ref r t (by omega)])

theorem keeps_setclass (hC : ∀ c c' t, g (c', t) = g (c, t))
    (L0 L : lua_State) (cls : String) (idx : Int) (hk : L0.keeps g L) :
    L0.keeps g (auxiliar_setclass L cls idx) :=
  keeps_step g L0 L _ hk (by simp) (fun r _ => by rw [setclass_tcp]; exact hC _ _ _)

theorem keeps_setclass_fresh (L0 L : lua_State) (cls : String) (idx : Int) (ref : Nat)
    (hi : L.index idx = some (LuaValue.userdata ref)) (hfresh : L0.udata.length ≤ ref)
    (hk : L0.keeps g L) : L0.keeps g (auxiliar_setclass L cls idx) :=
  keeps_step g L0 L _ hk (by simp) (fun r hr => by
    have hne : ¬ (r = ref ∧ ref < L.udata.length) := fun h => by omega
    rw [setclass_tcp, setclass_classOf L ref r cls idx hi, if_neg hne])

theorem keeps_newuserdata (L0 L : lua_State) (hk : L0.keeps g L) :
    L0.keeps g (lua_newuserdata L).2 :=
  keeps_step g L0 L _ hk (by simp) (fun r _ => by simp)

theorem keeps_destroy (hT : ∀ c t t', t'.io = t.io → g (c, t') = g (c, t))
    (L0 L : lua_State) (ref : Nat) (hk : L0.keeps g L) : L0.keeps g (socket_destroy L ref) :=
  keeps_step g L0 L _ hk (by simp) (fun r hr => by
    rw [destroy_classOf]
    by_cases h : r = ref
    · subst h
      have hlt : r < L.udata.length := Nat.lt_of_lt_of_le hr hk.1
      rw [destroy_tcp L r hlt]
      exact hT _ _ _ rfl
    · rw [destroy_tcp_ne L r ref h])

theorem keeps_finish (hT : ∀ c t t', t'.io = t.io → g (c, t') = g (c, t))
    (e : Effect) (L0 L : lua_State) (ref : Nat) (hk : L0.keeps g L) :
    L0.keeps g (e.finish L ref).state := by
  have h1 := keeps_modTcp g hT L0 L ref (fun t => { t with buf := e.buf, tm := e.tm })
    (by intro t; rfl) hk
  unfold Effect.finish
  simp only []
  split
  · exact h1
  · exact keeps_mk g L0 _ _ _ h1

theorem keeps_reply (p : Reply) (L0 L : lua_State) (hk : L0.keeps g L) :
    L0.keeps g (p.finish L).state := by
  unfold Reply.finish
  split
  · exact hk
  · exact keeps_mk g L0 _ _ _ hk

theorem keeps_push (L0 L : lua_State) (v : LuaValue) (hk : L0.keeps g L) :
    L0.keeps g (L.push v) :=
  keeps_udata g L0 L _ hk rfl

theorem keeps_log (L0 L : lua_State) (c : Call) (hk : L0.keeps g L) :
    L0.keeps g (L.log c) :=
  keeps_udata g L0 L _ hk rfl

variable (env : Env) (L : lua_State)

theorem send_keeps (hT : ∀ c t t', t'.io = t.io → g (c, t') = g (c, t)) : L.keeps g (tcp_meth_send env L).state := by
  unfold tcp_meth_send
  split
  · exact keeps_refl g L
  · exact keeps_finish g hT _ L _ _ (keeps_log g L L _ (keeps_refl g L))

theorem receive_keeps (hT : ∀ c t t', t'.io = t.io → g (c, t') = g (c, t)) : L.keeps g (tcp_meth_receive env L).state := by
  unfold tcp_meth_receive
  split
  · exact keeps_refl g L
  · exact keeps_finish g hT _ L _ _ (keeps_log g L L _ (keeps_refl g L))

theorem getstats_keeps (hT : ∀ c t t', t'.io = t.io → g (c, t') = g (c, t)) : L.keeps g (tcp_meth_getstats env L).state := by
  unfold tcp_meth_getstats
  split
  · exact keeps_refl g L
  · exact keeps_finish g hT _ L _ _ (keeps_log g L L _ (keeps_refl g L))

theorem setstats_keeps (hT : ∀ c t t', t'.io = t.io → g (c, t') = g (c, t)) : L.keeps g (tcp_meth_setstats env L).state := by
  unfold tcp_meth_setstats
  split
  · exact keeps_refl g L
  · exact keeps_finish g hT _ L _ _ (keeps_log g L L _ (keeps_refl g L))

theorem accept_keeps (hT : ∀ c t t', t'.io = t.io → g (c, t') = g (c, t)) : L.keeps g (tcp_meth_accept env L).state := by
  unfold tcp_meth_accept
  split
  · exact keeps_refl g L
  · next server _ =>
    have h1 : L.keeps g (timeout_markstart env L server) :=
      keeps_modTcp g hT L L server _ (by intro t; rfl) (keeps_refl g L)
    simp only []
    split
    · simp only [Outcome.state, io_init, timeout_init, buffer_init]
      refine keeps_modTcp_fresh g L _ _ _ (by simp) ?_
      refine keeps_modTcp_fresh g L _ _ _ (by simp) ?_
      refine keeps_modTcp_fresh g L _ _ _ (by simp) ?_
      refine keeps_modTcp_fresh g L _ _ _ (by simp) ?_
      refine keeps_modTcp_fresh g L _ _ _ (by simp) ?_
      refine keeps_udata g L _ _ ?_ (setnonblocking_udata _ _)
      refine keeps_setTcp_fresh g L _ _ _ (by simp) ?_
      refine keeps_setclass_fresh g L _ _ _ _ (newuserdata_index_top _) (by simp) ?_
      exact keeps_newuserdata g L _ (keeps_log g L _ _ h1)
    · simp only [Outcome.state, lua_pushstring, lua_pushnil]
      exact keeps_push g L _ _ (keeps_push g L _ _ (keeps_log g L _ _ h1))

theorem bind_keeps (hT : ∀ c t t', t'.io = t.io → g (c, t') = g (c, t)) : L.keeps g (tcp_meth_bind env L).state := by
  unfold tcp_meth_bind
  split
  · exact keeps_refl g L
  · split
    · exact keeps_refl g L
    · next address La ha =>
      have hA : L.keeps g La :=
        keeps_udata g L L La (keeps_refl g L) (checkstring_frame env L La 2 address ha).1
      split
      · exact hA
      · next port Lp hp =>
        have hP : L.keeps g Lp :=
          keeps_udata g L La Lp hA (checkstring_frame env La Lp 3 port hp).1
        simp only []
        split
        · simp only [Outcome.state, lua_pushstring, lua_pushnil]
          refine keeps_push g L _ _ (keeps_push g L _ _
            (keeps_modTcp g hT L _ _ _ ?_ (keeps_log g L _ _ hP)))
          intro t; rfl
        · simp only [Outcome.state, lua_pushnumber]
          refine keeps_push g L _ _
            (keeps_modTcp g hT L _ _ _ ?_ (keeps_log g L _ _ hP))
          intro t; rfl

theorem close_keeps (hT : ∀ c t t', t'.io = t.io → g (c, t') = g (c, t)) : L.keeps g (tcp_meth_close L).state := by
  unfold tcp_meth_close
  split
  · exact keeps_refl g L
  · simp only [Outcome.state, lua_pushnumber]
    exact keeps_push g L _ _ (keeps_destroy g hT L L _ (keeps_refl g L))

theorem shutdown_keeps : L.keeps g (tcp_meth_shutdown env L).state := by
  unfold tcp_meth_shutdown
  split
  · exact keeps_refl g L
  · split
    · exact keeps_refl g L
    · next how L1 hco =>
      simp only [Outcome.state, lua_pushnumber]
      exact keeps_push g L _ _ (keeps_log g L _ _
        (keeps_udata g L L L1 (keeps_refl g L) (checkoption_frame env L L1 2 _ _ how hco).1))

theorem opt_meth_keeps (opt : List (String × String)) (sock : Int) :
    L.keeps g (opt_meth env L opt sock).state := by
  unfold opt_meth
  split
  · exact keeps_refl g L
  · next name L1 hcs =>
    have h1 : L.keeps g L1 :=
      keeps_udata g L L L1 (keeps_refl g L) (checkstring_frame env L L1 2 name hcs).1
    split
    · exact h1
    · exact keeps_reply g _ L _ (keeps_log g L _ _ h1)

theorem getoption_keeps : L.keeps g (tcp_meth_getoption env L).state := by
  unfold tcp_meth_getoption
  split
  · exact keeps_refl g L
  · exact opt_meth_keeps g env L _ _

theorem setoption_keeps : L.keeps g (tcp_meth_setoption env L).state := by
  unfold tcp_meth_setoption
  split
  · exact keeps_refl g L
  · exact opt_meth_keeps g env L _ _

theorem getfd_keeps : L.keeps g (tcp_meth_getfd L).state := by
  unfold tcp_meth_getfd
  split
  · exact keeps_refl g L
  · exact keeps_push g L _ _ (keeps_refl g L)

theorem setfd_keeps (hT : ∀ c t t', t'.io = t.io → g (c, t') = g (c, t)) : L.keeps g (tcp_meth_setfd env L).state := by
  unfold tcp_meth_setfd
  split
  · exact keeps_refl g L
  · split
    · exact keeps_refl g L
    · simp only [Outcome.state]
      refine keeps_modTcp g hT L L _ _ ?_ (keeps_refl g L)
      intro t; rfl

theorem dirty_keeps : L.keeps g (tcp_meth_dirty L).state := by
  unfold tcp_meth_dirty
  split
  · exact keeps_refl g L
  · exact keeps_push g L _ _ (keeps_refl g L)

theorem getfamily_keeps : L.keeps g (tcp_meth_getfamily L).state := by
  unfold tcp_meth_getfamily
  split
  · exact keeps_refl g L
  · split
    · exact keeps_push g L _ _ (keeps_refl g L)
    · exact keeps_push g L _ _ (keeps_refl g L)

theorem getpeername_keeps : L.keeps g (tcp_meth_getpeername env L).state := by
  unfold tcp_meth_getpeername
  split
  · exact keeps_refl g L
  · exact keeps_reply g _ L _ (keeps_log g L _ _ (keeps_refl g L))

theorem getsockname_keeps : L.keeps g (tcp_meth_getsockname env L).state := by
  unfold tcp_meth_getsockname
  split
  · exact keeps_refl g L
  · exact keeps_reply g _ L _ (keeps_log g L _ _ (keeps_refl g L))

theorem settimeout_keeps (hT : ∀ c t t', t'.io = t.io → g (c, t') = g (c, t)) : L.keeps g (tcp_meth_settimeout env L).state := by
  unfold tcp_meth_settimeout
  split
  · exact keeps_refl g L
  · unfold timeout_meth_settimeout
    split
    · exact keeps_refl g L
    · split
      · exact keeps_refl g L
      · next mode L1 hos =>
        have h1 : L.keeps g L1 :=
          keeps_udata g L L L1 (keeps_refl g L) (optstring_frame env L L1 3 _ mode hos).1
        split
        · refine keeps_push g L _ _ (keeps_modTcp g hT L L1 _ _ ?_ h1)
          intro t; rfl
        · refine keeps_push g L _ _ (keeps_modTcp g hT L L1 _ _ ?_ h1)
          intro t; rfl
        · refine keeps_push g L _ _ (keeps_modTcp g hT L L1 _ _ ?_ h1)
          intro t; rfl
        · exact h1


theorem connect_keeps (hT : ∀ c t t', t'.io = t.io → g (c, t') = g (c, t))
    (hC : ∀ c c' t, g (c', t) = g (c, t)) : L.keeps g (tcp_meth_connect env L).state := by
  unfold tcp_meth_connect
  split
  · exact keeps_refl g L
  · next tcp _ =>
    split
    · exact keeps_refl g L
    · next address La ha =>
      have hA : L.keeps g La :=
        keeps_udata g L L La (keeps_refl g L) (checkstring_frame env L La 2 address ha).1
      split
      · exact hA
      · next port Lp hp =>
        have hP : L.keeps g Lp :=
          keeps_udata g L La Lp hA (checkstring_frame env La Lp 3 port hp).1
        have h1 : L.keeps g (timeout_markstart env Lp tcp) :=
          keeps_modTcp g hT L Lp _ _ (by intro t; rfl) hP
        simp only []
        split
        · simp only [Outcome.state, lua_pushstring, lua_pushnil]
          refine keeps_push g L _ _ (keeps_push g L _ _ (keeps_setclass g hC L _ _ _
            (keeps_modTcp g hT L _ _ _ ?_ (keeps_log g L _ _ h1))))
          intro t; rfl
        · simp only [Outcome.state, lua_pushnumber]
          refine keeps_push g L _ _ (keeps_setclass g hC L _ _ _
            (keeps_modTcp g hT L _ _ _ ?_ (keeps_log g L _ _ h1)))
          intro t; rfl

theorem listen_keeps (hC : ∀ c c' t, g (c', t) = g (c, t)) :
    L.keeps g (tcp_meth_listen env L).state := by
  unfold tcp_meth_listen
  split
  · exact keeps_refl g L
  · split
    · exact keeps_refl g L
    · simp only []
      split
      · simp only [Outcome.state, lua_pushstring, lua_pushnil]
        exact keeps_push g L _ _ (keeps_push g L _ _ (keeps_log g L _ _ (keeps_refl g L)))
      · simp only [Outcome.state, lua_pushnumber]
        exact keeps_push g L _ _ (keeps_setclass g hC L _ _ _
          (keeps_log g L _ _ (keeps_refl g L)))

end frames

section constant
attribute [local irreducible] lua_State.tcp lua_State.classOf lua_State.setTcp auxiliar_setclass
  socket_destroy lua_State.index lua_State.setIndex

/-- Every operation keeps whatever depends on the I/O table only. -/
theorem operation_keeps {α : Type} (g : Option String × t_tcp → α)
    (hT : ∀ c t t', t'.io = t.io → g (c, t') = g (c, t))
    (hC : ∀ c c' t, g (c', t) = g (c, t)) (env : Env) (op : Operation) (L : lua_State) :
    L.keeps g (op.run env L).state := by
  cases op with
  | connect => exact connect_keeps g env L hT hC
  | bind => exact bind_keeps g env L hT
  | listen => exact listen_keeps g env L hC
  | accept => exact accept_keeps g env L hT
  | send => exact send_keeps g env L hT
  | receive => exact receive_keeps g env L hT
  | shutdown => exact shutdown_keeps g env L
  | setfd => exact setfd_keeps g env L hT
  | setoption => exact setoption_keeps g env L
  | settimeout => exact settimeout_keeps g env L hT
  | close => exact close_keeps g L hT

theorem runOperations_keeps {α : Type} (g : Option String × t_tcp → α)
    (hT : ∀ c t t', t'.io = t.io → g (c, t') = g (c, t))
    (hC : ∀ c c' t, g (c', t) = g (c, t)) (env : Env) (ref : Nat)
    (ops : List (Operation × List LuaValue)) :
    ∀ L0 L : lua_State, L0.keeps g L → L0.keeps g (runOperations env ref L ops) := by
  induction ops with
  | nil => intro L0 L hk; exact hk
  | cons p rest ih =>
    intro L0 L hk
    obtain ⟨op, args⟩ := p
    simp only [runOperations]
    apply ih
    have h1 : L0.keeps g (L.call (LuaValue.userdata ref :: args)) :=
      keeps_udata g L0 L _ hk rfl
    have h2 := operation_keeps g hT hC env op (L.call (LuaValue.userdata ref :: args))
    exact ⟨Nat.le_trans h1.1 h2.1,
      fun r hr => (h2.2 r (Nat.lt_of_lt_of_le hr h1.1)).trans (h1.2 r hr)⟩

/-- The connect factory binds the I/O table of the object it allocates to that
object, on every exit. -/
theorem factory_io (env : Env) (L La Lb Lc Ld Le : lua_State)
    (remoteaddr remoteserv : String) (localaddr localserv : Option String) (family : Int)
    (h1 : luaL_checkstring env L 1 = Except.ok (remoteaddr, La))
    (h2 : luaL_checkstring env La 2 = Except.ok (remoteserv, Lb))
    (h3 : luaL_optstring env Lb 3 none = Except.ok (localaddr, Lc))
    (h4 : luaL_optstring env Lc 4 (some "0") = Except.ok (localserv, Ld))
    (h5 : inet_optfamily env Ld 5 "unspec" = Except.ok (family, Le)) :
    ((tcp_global_connect env L).state.tcp Le.udata.length).io = ownIo Le.udata.length := by
  simp only [tcp_global_connect, h1, h2, h3, h4, h5]
  cases localaddr with
  | none =>
    simp only []
    split
    · simp [Outcome.state, lua_pushstring, lua_pushnil, destroy_tcp, ownIo]
    · simp [Outcome.state, ownIo]
  | some la =>
    simp only []
    split
    · simp [Outcome.state, lua_pushstring, lua_pushnil, ownIo]
    · split
      · simp [Outcome.state, lua_pushstring, lua_pushnil, destroy_tcp, ownIo]
      · simp [Outcome.state, ownIo]

/-- Claim C22: the I/O function table of an entity is set when the entity is
constructed, by create, by accept or by the standalone connect factory, to
the socket send, receive and error-translate functions over the descriptor
field of that very entity, and no operation on an existing entity (bind,
connect, listen, accept, close, shutdown, setfd, setoption, settimeout, send,
receive), alone or in any sequence, changes the I/O table of any existing
entity. -/
theorem io_table_constant (env : Env) (L : lua_State) :
    (∀ family, (env.inet_trycreate L.calls family SOCK_STREAM).1 = none →
      ((tcp_create env L family).state.tcp L.udata.length).io = ownIo L.udata.length) ∧
    (∀ ref, L.index 1 = some (LuaValue.userdata ref) → L.classOf ref = some tcp_server →
      (env.inet_tryaccept L.calls (L.tcp ref).sock (L.tcp ref).family
        { (L.tcp ref).tm with start := env.timeout_gettime L.calls }).1 = none →
      ((tcp_meth_accept env L).state.tcp L.udata.length).io = ownIo L.udata.length) ∧
    (∀ (La Lb Lc Ld Le : lua_State) (remoteaddr remoteserv : String)
        (localaddr localserv : Option String) (family : Int),
      luaL_checkstring env L 1 = Except.ok (remoteaddr, La) →
      luaL_checkstring env La 2 = Except.ok (remoteserv, Lb) →
      luaL_optstring env Lb 3 none = Except.ok (localaddr, Lc) →
      luaL_optstring env Lc 4 (some "0") = Except.ok (localserv, Ld) →
      inet_optfamily env Ld 5 "unspec" = Except.ok (family, Le) →
      ((tcp_global_connect env L).state.tcp Le.udata.length).io = ownIo Le.udata.length) ∧
    (∀ (op : Operation) (r : Nat), r < L.udata.length →
      ((op.run env L).state.tcp r).io = (L.tcp r).io) ∧
    (∀ (ref : Nat) (ops : List (Operation × List LuaValue)) (r : Nat), r < L.udata.length →
      ((runOperations env ref L ops).tcp r).io = (L.tcp r).io) := by
  refine ⟨?_, ?_, ?_, ?_, ?_⟩
  · intro family h
    obtain ⟨L', he, -, -, ht, -⟩ := tcp_create_ok_full env L family h
    rw [he]
    simp only [Outcome.state]
    rw [ht]; rfl
  · intro ref hobj hcls h
    obtain ⟨L', he, -, -, ht, -, -, -⟩ := tcp_meth_accept_ok_full env L ref hobj hcls h
    rw [he]
    simp only [Outcome.state]
    rw [ht]; rfl
  · intro La Lb Lc Ld Le remoteaddr remoteserv localaddr localserv family h1 h2 h3 h4 h5
    exact factory_io env L La Lb Lc Ld Le remoteaddr remoteserv localaddr localserv family
      h1 h2 h3 h4 h5
  · intro op r hr
    exact (operation_keeps (fun v => v.2.io) (fun _ _ _ h => h) (fun _ _ _ => rfl) env op L).2
      r hr
  · intro ref ops r hr
    exact (runOperations_keeps (fun v => v.2.io) (fun _ _ _ h => h) (fun _ _ _ => rfl) env ref
      ops L L (keeps_refl _ L)).2 r hr

/-- Every method of the method table other than connect and listen keeps
whatever does not depend on more of the payload than the I/O table. -/
theorem method_keeps {α : Type} (g : Option String × t_tcp → α)
    (hT : ∀ c t t', t'.io = t.io → g (c, t') = g (c, t)) (env : Env) (L : lua_State)
    (name : String) (f : CFunction) (o : Outcome)
    (hm : (name, f) ∈ tcp_methods)
    (hc : f ≠ CFunction.tcp_meth_connect) (hl : f ≠ CFunction.tcp_meth_listen)
    (ho : f.run env L = some o) : L.keeps g o.state := by
  cases f with
  | tcp_global_create => simp [tcp_methods] at hm
  | tcp_global_create6 => simp [tcp_methods] at hm
  | tcp_global_connect => simp [tcp_methods] at hm
  | auxiliar_tostring => simp [CFunction.run] at ho
  | tcp_meth_connect => exact absurd rfl hc
  | tcp_meth_listen => exact absurd rfl hl
  | tcp_meth_getfamily =>
    simp only [CFunction.run, Option.some.injEq] at ho; subst ho; exact getfamily_keeps g L
  | tcp_meth_bind =>
    simp only [CFunction.run, Option.some.injEq] at ho; subst ho; exact bind_keeps g env L hT
  | tcp_meth_send =>
    simp only [CFunction.run, Option.some.injEq] at ho; subst ho; exact send_keeps g env L hT
  | tcp_meth_getstats =>
    simp only [CFunction.run, Option.some.injEq] at ho; subst ho
    exact getstats_keeps g env L hT
  | tcp_meth_setstats =>
    simp only [CFunction.run, Option.some.injEq] at ho; subst ho
    exact setstats_keeps g env L hT
  | tcp_meth_getsockname =>
    simp only [CFunction.run, Option.some.injEq] at ho; subst ho
    exact getsockname_keeps g env L
  | tcp_meth_getpeername =>
    simp only [CFunction.run, Option.some.injEq] at ho; subst ho
    exact getpeername_keeps g env L
  | tcp_meth_shutdown =>
    simp only [CFunction.run, Option.some.injEq] at ho; subst ho
    exact shutdown_keeps g env L
  | tcp_meth_receive =>
    simp only [CFunction.run, Option.some.injEq] at ho; subst ho
    exact receive_keeps g env L hT
  | tcp_meth_accept =>
    simp only [CFunction.run, Option.some.injEq] at ho; subst ho
    exact accept_keeps g env L hT
  | tcp_meth_close =>
    simp only [CFunction.run, Option.some.injEq] at ho; subst ho; exact close_keeps g L hT
  | tcp_meth_getoption =>
    simp only [CFunction.run, Option.some.injEq] at ho; subst ho
    exact getoption_keeps g env L
  | tcp_meth_setoption =>
    simp only [CFunction.run, Option.some.injEq] at ho; subst ho
    exact setoption_keeps g env L
  | tcp_meth_settimeout =>
    simp only [CFunction.run, Option.some.injEq] at ho; subst ho
    exact settimeout_keeps g env L hT
  | tcp_meth_getfd =>
    simp only [CFunction.run, Option.some.injEq] at ho; subst ho; exact getfd_keeps g L
  | tcp_meth_setfd =>
    simp only [CFunction.run, Option.some.injEq] at ho; subst ho; exact setfd_keeps g env L hT
  | tcp_meth_dirty =>
    simp only [CFunction.run, Option.some.injEq] at ho; subst ho; exact dirty_keeps g L

/-- Claim C24: only connect and a successful listen change a role tag.  For
every existing entity and every function of the method table other than
connect and listen (bind whether it succeeds or fails, accept, shutdown,
close, setfd, getfd, setoption, getoption, settimeout, dirty, getfamily,
getsockname, getpeername, send, receive, getstats, setstats), the role tag of
the entity after the call is its role tag before the call; a listen that
does not return the success value leaves the role tags as they are; and a
master on which bind was called is still a master. -/
theorem role_frame (env : Env) (L : lua_State) (r : Nat) (hr : r < L.udata.length) :
    (∀ (name : String) (f : CFunction) (o : Outcome), (name, f) ∈ tcp_methods →
      f ≠ CFunction.tcp_meth_connect → f ≠ CFunction.tcp_meth_listen →
      f.run env L = some o → o.state.classOf r = L.classOf r) ∧
    (∀ (name : String) (f : CFunction), (name, f) ∈ tcp_methods →
      f ≠ CFunction.auxiliar_tostring → (f.run env L).isSome = true) ∧
    ((tcp_meth_listen env L).results ≠ some [LuaValue.number 1] →
      (tcp_meth_listen env L).state.classOf r = L.classOf r) ∧
    (L.index 1 = some (LuaValue.userdata r) → L.classOf r = some tcp_master →
      (tcp_meth_bind env L).state.classOf r = some tcp_master) := by
  refine ⟨?_, ?_, ?_, ?_⟩
  · intro name f o hm hc hl ho
    exact (method_keeps Prod.fst (fun _ _ _ _ => rfl) env L name f o hm hc hl ho).2 r hr
  · intro name f _ hf
    cases f <;> first | rfl | exact absurd rfl hf
  · intro hres
    cases hck : auxiliar_checkclass L tcp_master 1 with
    | error e =>
      obtain ⟨narg, msg⟩ := e
      simp only [tcp_meth_listen, hck, Outcome.state]
    | ok tcp =>
      cases hb : luaL_optnumber env L 2 32 with
      | error e =>
        obtain ⟨narg, msg⟩ := e
        simp only [tcp_meth_listen, hck, hb, Outcome.state]
      | ok backlog =>
        by_cases herr : env.socket_listen L.calls (L.tcp tcp).sock backlog = IO_DONE
        · exfalso
          apply hres
          simp only [tcp_meth_listen, hck, hb]
          rw [if_neg (not_not.mpr herr)]
          exact results_one _ L.stack _ (by simp [lua_pushnumber])
        · simp only [tcp_meth_listen, hck, hb]
          rw [if_pos herr]
          simp [Outcome.state, lua_pushstring, lua_pushnil]
  · intro _ hcls
    exact ((bind_keeps Prod.fst env L (fun _ _ _ _ => rfl)).2 r hr).trans hcls

end constant

/-- Claim C22 at concrete inputs: the three constructors, and a master that is
bound, listened on, given another descriptor, connected and closed. -/
theorem io_table_constant_witness :
    ((tcp_create sampleEnv (functionCall []) AF_INET).state.tcp 0).io = ownIo 0 ∧
    ((tcp_meth_accept sampleEnv (methodCall tcp_server 5 [])).state.tcp 1).io = ownIo 1 ∧
    ((tcp_global_connect sampleEnv
      (functionCall [LuaValue.string "example.org", LuaValue.string "80"])).state.tcp 0).io
      = ownIo 0 ∧
    ((runOperations sampleEnv 0 (methodCall tcp_master 5 [])
      [(Operation.bind, [LuaValue.string "*", LuaValue.string "8080"]),
       (Operation.listen, []), (Operation.setfd, [LuaValue.number 9]),
       (Operation.connect, [LuaValue.string "example.org", LuaValue.string "80"]),
       (Operation.close, [])]).tcp 0).io = ((methodCall tcp_master 5 []).tcp 0).io :=
  ⟨(io_table_constant sampleEnv (functionCall [])).1 AF_INET (by decide),
   (io_table_constant sampleEnv (methodCall tcp_server 5 [])).2.1 0 (by decide) (by decide)
     (by decide),
   (io_table_constant sampleEnv
      (functionCall [LuaValue.string "example.org", LuaValue.string "80"])).2.2.1
      _ _ _ _ (functionCall [LuaValue.string "example.org", LuaValue.string "80"])
      "example.org" "80" none (some "0") PF_UNSPEC rfl rfl rfl rfl rfl,
   (io_table_constant sampleEnv (methodCall tcp_master 5 [])).2.2.2.2 0 _ 0 (by decide)⟩

/-- Claim C24 at concrete inputs: a master whose bind fails is still a master,
and a server given another descriptor is still a server. -/
theorem role_frame_witness :
    (tcp_meth_bind unbindableEnv
      (methodCall tcp_master 5 [LuaValue.string "*", LuaValue.string "80"])).state.classOf 0
      = (methodCall tcp_master 5 [LuaValue.string "*", LuaValue.string "80"]).classOf 0 ∧
    (tcp_meth_setfd sampleEnv (methodCall tcp_server 5 [LuaValue.number 9])).state.classOf 0
      = (methodCall tcp_server 5 [LuaValue.number 9]).classOf 0 ∧
    (tcp_meth_listen deafEnv (methodCall tcp_master 5 [])).state.classOf 0
      = (methodCall tcp_master 5 []).classOf 0 :=
  ⟨(role_frame unbindableEnv
      (methodCall tcp_master 5 [LuaValue.string "*", LuaValue.string "80"]) 0 (by decide)).1
      "bind" CFunction.tcp_meth_bind _ (by decide) (by decide) (by decide) rfl,
   (role_frame sampleEnv (methodCall tcp_server 5 [LuaValue.number 9]) 0 (by decide)).1
      "setfd" CFunction.tcp_meth_setfd _ (by decide) (by decide) (by decide) rfl,
   (role_frame deafEnv (methodCall tcp_master 5 []) 0 (by decide)).2.2.1 (by decide)⟩

end Luasocket

namespace Slua

/-! ## The flag word a push stores -/

theorem set_append_last {α : Type} (xs : List α) (a b : α) :
    (xs ++ [a]).set xs.length b = xs ++ [b] := by
  induction xs with
  | nil => rfl
  | cons x xs ih => simp [ih]

theorem getD_append_last {α : Type} (xs : List α) (a d : α) :
    (xs ++ [a]).getD xs.length d = a := by
  induction xs with
  | nil => rfl
  | cons x xs ih => simp [ih]

theorem index_last (L : lua_State) (s : List Value) (v : Value) (h : L.stack = s ++ [v]) :
    L.index (-1) = some v := by
  simp [lua_State.index, h]

/-- A block that has just been allocated, after its fields and its metatable
have been written. -/
theorem new_block (env : Env) (L : lua_State) (tn : String) (f : UserData → UserData) :
    setupMetaTable env ((lua_newuserdata L).2.modUd (lua_newuserdata L).1 f) tn
      = { L with
          udata := L.udata ++
            [{ f { flag := 0, parent := 0, ud := 0, meta := none } with
               meta := some (env.metatableOf tn) }]
          stack := L.stack ++ [Value.userdata L.udata.length] } := by
  have ht : ((lua_newuserdata L).2.modUd (lua_newuserdata L).1 f).index (-1)
      = some (Value.userdata L.udata.length) :=
    index_last _ L.stack _ rfl
  simp only [setupMetaTable, ht]
  simp [lua_State.modUd, lua_State.ud, lua_newuserdata, set_append_last, getD_append_last]

theorem modUd_modUd (L : lua_State) (ref : Nat) (f g : UserData → UserData) :
    (L.modUd ref f).modUd ref g = L.modUd ref (fun u => g (f u)) := by
  simp only [lua_State.modUd, lua_State.ud]
  congr 1
  by_cases h : ref < L.udata.length
  · simp [List.getD_eq_getElem?_getD, List.getElem?_set, h]
  · simp [List.getD_eq_getElem?_getD, List.set_eq_of_length_le (Nat.le_of_not_lt h),
      List.getElem?_eq_none (Nat.le_of_not_lt h)]

/-- Claim C28: pushType computes the userdata flag word exactly.  The public
overload stores UD_AUTOGC if a collector is supplied, else 0, or-ed with
UD_UOBJECT if the type is a UObject, else 0; the specialisation for
LuaStruct stores UD_AUTOGC if a collector is supplied, else 0, or-ed with
UD_USTRUCT; the private overload whose collector is a stack index stores
UD_AUTOGC or-ed with UD_UOBJECT if the type is a UObject, else 0.  In all
three the parent pointer is null, the object pointer is the one given, and a
null object pushes nil and allocates no userdata.  The three flag constants
are different single bits. -/
theorem pushType_flag_word (env : Env) (L : lua_State) (cls : Nat) (tn : String)
    (setupmt gc : Option Nat) (gcidx : Int) (F : Bool) :
    (cls ≠ 0 →
      pushType env L cls tn setupmt gc F
        = (1, { L with
            udata := L.udata ++
              [{ flag := (if gc ≠ none then UD_AUTOGC else 0) ||| (if F then UD_UOBJECT else 0)
                 parent := 0, ud := cls, meta := some (env.metatableOf tn) }]
            stack := L.stack ++ [Value.userdata L.udata.length] }) ∧
      pushType_LuaStruct env L cls tn setupmt gc
        = (1, { L with
            udata := L.udata ++
              [{ flag := (if gc ≠ none then UD_AUTOGC else 0) ||| UD_USTRUCT
                 parent := 0, ud := cls, meta := some (env.metatableOf tn) }]
            stack := L.stack ++ [Value.userdata L.udata.length] }) ∧
      pushType_gcIndex env L cls tn setupmt gcidx F
        = (1, { L with
            udata := L.udata ++
              [{ flag := UD_AUTOGC ||| (if F then UD_UOBJECT else 0)
                 parent := 0, ud := cls, meta := some (env.metatableOf tn) }]
            stack := L.stack ++ [Value.userdata L.udata.length] })) ∧
    (cls = 0 →
      pushType env L cls tn setupmt gc F = (1, { L with stack := L.stack ++ [Value.nil] }) ∧
      pushType_LuaStruct env L cls tn setupmt gc
        = (1, { L with stack := L.stack ++ [Value.nil] }) ∧
      pushType_gcIndex env L cls tn setupmt gcidx F
        = (1, { L with stack := L.stack ++ [Value.nil] })) ∧
    UD_AUTOGC = 2 ^ 0 ∧ UD_UOBJECT = 2 ^ 6 ∧ UD_USTRUCT = 2 ^ 7 ∧
    UD_AUTOGC &&& UD_UOBJECT = 0 ∧ UD_AUTOGC &&& UD_USTRUCT = 0 ∧
    UD_UOBJECT &&& UD_USTRUCT = 0 := by
  refine ⟨fun h => ⟨?_, ?_, ?_⟩, fun h => ?_, by decide, by decide, by decide, by decide,
    by decide, by decide⟩
  · simp only [pushType, h, if_false]
    cases F <;> cases gc <;>
      simp [modUd_modUd, new_block, UD_AUTOGC, UD_NOFLAG, UD_UOBJECT]
  · simp only [pushType_LuaStruct, h, if_false]
    cases gc <;> simp [modUd_modUd, new_block, UD_AUTOGC, UD_NOFLAG, UD_USTRUCT]
  · simp only [pushType_gcIndex, h, if_false]
    cases F <;> simp [modUd_modUd, new_block, UD_AUTOGC, UD_UOBJECT]
  · subst h
    simp [pushType, pushType_LuaStruct, pushType_gcIndex, lua_pushnil, lua_State.push]

/-- Claim C28 at concrete inputs: a UObject with a collector, a struct
without one, a UObject collected through a stack index, and a null object. -/
theorem pushType_flag_word_witness :
    ((pushType sampleEnv (emptyState []) 9 "UObject" none (some 1) true).2.ud 0).flag = 65 ∧
    ((pushType_LuaStruct sampleEnv (emptyState []) 9 "LuaStruct" none none).2.ud 0).flag
      = 128 ∧
    ((pushType_gcIndex sampleEnv (emptyState []) 9 "UObject" none 1 true).2.ud 0).flag = 65 ∧
    ((pushType sampleEnv (emptyState []) 9 "UObject" none (some 1) true).2.ud 0).parent = 0 ∧
    pushType sampleEnv (emptyState []) 0 "UObject" none (some 1) true
      = (1, emptyState [Value.nil]) :=
  ⟨by rw [((pushType_flag_word sampleEnv (emptyState []) 9 "UObject" none (some 1) 1 true).1
        (by decide)).1]; decide,
   by rw [((pushType_flag_word sampleEnv (emptyState []) 9 "LuaStruct" none none 1 true).1
        (by decide)).2.1]; decide,
   by rw [((pushType_flag_word sampleEnv (emptyState []) 9 "UObject" none (some 1) 1 true).1
        (by decide)).2.2]; decide,
   by rw [((pushType_flag_word sampleEnv (emptyState []) 9 "UObject" none (some 1) 1 true).1
        (by decide)).1]; decide,
   ((pushType_flag_word sampleEnv (emptyState []) 0 "UObject" none (some 1) 1 true).2.1
      rfl).1⟩

/-- Claim C29: dispose resets the delegate to its unbound state and is
idempotent.  For every delegate state, bound to a Lua function and a
signature function, to only one of them, or to none, after dispose both
members are null, as the constructor leaves them; the Lua function object
is deleted once if there was one and never otherwise; and a second dispose
changes neither the delegate nor the deletions made. -/
theorem dispose_idempotent (d : ULuaDelegate) (deleted : List Nat) :
    (d.dispose deleted).1.luafunction = 0 ∧
    (d.dispose deleted).1.ufunction = 0 ∧
    (d.dispose deleted).1 = ULuaDelegate.new ∧
    (d.dispose deleted).2 = deleted ++ (if d.luafunction ≠ 0 then [d.luafunction] else []) ∧
    ((d.dispose deleted).2.length ≤ deleted.length + 1) ∧
    (d.dispose deleted).1.dispose (d.dispose deleted).2 = d.dispose deleted ∧
    (((d.dispose deleted).1.dispose (d.dispose deleted).2).2.length ≤ deleted.length + 1) := by
  have h4 : (d.dispose deleted).2
      = deleted ++ (if d.luafunction ≠ 0 then [d.luafunction] else []) := by
    by_cases h : d.luafunction = 0 <;> simp [ULuaDelegate.dispose, SafeDelete, h]
  have h6 : (d.dispose deleted).1.dispose (d.dispose deleted).2 = d.dispose deleted := by
    simp [ULuaDelegate.dispose, SafeDelete]
  have h5 : (d.dispose deleted).2.length ≤ deleted.length + 1 := by
    rw [h4]
    by_cases h : d.luafunction = 0 <;> simp [h]
  refine ⟨rfl, rfl, rfl, h4, h5, h6, ?_⟩
  rw [h6]; exact h5

/-! ## A freed userdata -/

section freed

variable (env : Env) (T : TypeDesc) (M : lua_State) (p : Int) (r : Nat) (m : Metatable)

theorem push_index_top (v : Value) : (M.push v).index (-1) = some v :=
  index_last _ M.stack v rfl

theorem pop_push (v : Value) : lua_pop (M.push v) = M := by
  simp [lua_pop, lua_State.push]

theorem pop_tostring_push (v : Value) : lua_pop (lua_tostring env (M.push v)).2 = M := by
  unfold lua_tostring
  rw [push_index_top]
  cases v <;> simp [lua_pop, lua_State.push]

theorem tag_nil (v : Value) (hv : v ≠ Value.nil) : v.tag ≠ LUA_TNIL := by
  cases v <;> simp_all [Value.tag, LUA_TNIL, LUA_TBOOLEAN, LUA_TLIGHTUSERDATA, LUA_TNUMBER,
    LUA_TSTRING, LUA_TTABLE, LUA_TFUNCTION, LUA_TUSERDATA]

theorem isnil_push (v : Value) (hv : v ≠ Value.nil) : lua_isnil (M.push v) (-1) = false := by
  simp [lua_isnil, lua_type, push_index_top, tag_nil v hv]

theorem type_userdata (hidx : M.index p = some (Value.userdata r)) :
    lua_type M p = LUA_TUSERDATA := by
  simp [lua_type, hidx, Value.tag]

theorem testudata_ptr (hidx : M.index p = some (Value.userdata r))
    (hmeta : (M.ud r).meta = some m) (tn : String) :
    luaL_testudata M p tn = if m.registry = some tn then Pointer.block r else Pointer.null := by
  simp [luaL_testudata, hidx, hmeta]

theorem getmetafield_name (hidx : M.index p = some (Value.userdata r))
    (hmeta : (M.ud r).meta = some m) (hname : m.name ≠ Value.nil) :
    luaL_getmetafield_name M p = (m.name.tag, M.push m.name) := by
  simp [luaL_getmetafield_name, lua_State.metatable, hidx, hmeta, hname]

theorem check_freed (checkfree : Bool) (hflag : (M.ud r).flag &&& UD_HADFREE ≠ 0) :
    CHECK_UD_VALID M p checkfree (Pointer.block r)
      = some (if checkfree then
          Res.error (LuaError.hadBeenFreed (lua_absindex M p) (M.ud r).ud) M
        else Res.ok 0 M) := by
  unfold CHECK_UD_VALID
  simp only []
  rw [if_pos hflag]
  cases checkfree <;> rfl

theorem maybeAnUDTable_userdata (rec : lua_State → Int → Bool → Res Nat) (checkfree : Bool)
    (hidx : M.index p = some (Value.userdata r)) :
    maybeAnUDTable rec M p checkfree = Res.ok 0 M := by
  have : lua_istable M p = false := by
    simp [lua_istable, type_userdata M p r hidx, LUA_TUSERDATA, LUA_TTABLE]
  simp [maybeAnUDTable, this]

/-- What `testudata` answers on a freed userdata whose box pointer is null:
an error or null when the metatable is the one it looks for, null
otherwise, with the state as it was. -/
theorem testudata_freed (rec : lua_State → Int → Bool → Res Nat) (checkfree : Bool)
    (hidx : M.index p = some (Value.userdata r))
    (hflag : (M.ud r).flag &&& UD_HADFREE ≠ 0) (hud : (M.ud r).ud = 0)
    (hmeta : (M.ud r).meta = some m) (hname : m.name ≠ Value.nil) :
    testudata env T rec M p checkfree = Res.ok 0 M ∨
    (checkfree = true ∧
      testudata env T rec M p checkfree
        = Res.error (LuaError.hadBeenFreed (lua_absindex M p) 0) M) := by
  have hchk := check_freed M p r checkfree hflag
  rw [hud] at hchk
  have hmaybe := maybeAnUDTable_userdata M p r rec checkfree hidx
  have hisud : lua_isuserdata M p = true := by
    simp [lua_isuserdata, type_userdata M p r hidx]
  have hgm := getmetafield_name M p r m hidx hmeta hname
  have htu : lua_touserdata M p = Pointer.block r := by simp [lua_touserdata, hidx]
  unfold testudata
  cases hk : T.kind with
  | uobjectChild =>
    simp only [testudata_UObjectChild, testudata_ptr M p r m hidx hmeta]
    by_cases hreg : m.registry = some "UObject"
    · simp only [hreg, if_true, hchk]
      cases checkfree
      · left; rfl
      · right; exact ⟨rfl, rfl⟩
    · left
      simp only [hreg, if_false, CHECK_UD_VALID, hisud, hgm, true_and, and_true, if_true,
        isnil_push M m.name hname, pop_tostring_push, htu, hud]
      simp
  | uobject =>
    simp only [testudata_UObject, testudata_ptr M p r m hidx hmeta]
    by_cases hreg : m.registry = some "UObject"
    · simp only [hreg, if_true, hchk]
      cases checkfree
      · left; rfl
      · right; exact ⟨rfl, rfl⟩
    · left
      simp only [hreg, if_false, CHECK_UD_VALID, hmaybe]
  | plain =>
    simp only [testudata_plain, testudata_ptr M p r m hidx hmeta]
    by_cases hreg : m.registry = some T.typeName
    · simp only [hreg, if_true, hchk]
      cases checkfree
      · left; rfl
      · right; exact ⟨rfl, rfl⟩
    · left
      simp only [hreg, if_false, CHECK_UD_VALID, hmaybe]

/-- The body of `checkUD` on a freed userdata whose box pointer is null. -/
theorem checkUD_body_freed (rec : lua_State → Int → Bool → Res Nat)
    (hidx : M.index p = some (Value.userdata r))
    (hflag : (M.ud r).flag &&& UD_HADFREE ≠ 0) (hud : (M.ud r).ud = 0)
    (hmeta : (M.ud r).meta = some m) (hname : m.name ≠ Value.nil) :
    checkUD_body env T rec M p false = Res.ok 0 M ∧
    ∃ e, checkUD_body env T rec M p true = Res.error e M := by
  have hnil : lua_isnil M p = false := by
    simp [lua_isnil, type_userdata M p r hidx, LUA_TUSERDATA, LUA_TNIL]
  have hgm := getmetafield_name M p r m hidx hmeta hname
  have htu : lua_touserdata M p = Pointer.block r := by simp [lua_touserdata, hidx]
  have hpop : lua_pop (if m.name.tag = LUA_TSTRING then (lua_tostring env (M.push m.name)).2
      else M.push m.name) = M := by
    split
    · exact pop_tostring_push env M _
    · exact pop_push M _
  have rest : ∀ checkfree : Bool,
      testudata env T rec M p checkfree = Res.ok 0 M →
      checkUD_body env T rec M p checkfree
        = if checkfree then
            (if (if m.name.tag = LUA_TSTRING then (lua_tostring env (M.push m.name)).1
                 else none) = none then Res.error (LuaError.expectUserdataAt p) M
             else if env.isBaseTypeOf (if m.name.tag = LUA_TSTRING then
                  (lua_tostring env (M.push m.name)).1 else none) T.typeName then
               Res.error (LuaError.hadBeenFreed (lua_absindex M p) 0) M
             else Res.error (LuaError.expectUserdata T.typeName
               (if m.name.tag = LUA_TSTRING then (lua_tostring env (M.push m.name)).1
                else none)) M)
          else Res.ok 0 M := by
    intro checkfree ht
    have hchk := check_freed M p r checkfree hflag
    rw [hud] at hchk
    simp only [checkUD_body, hnil, ht, hgm, hpop, htu, hchk]
    cases checkfree <;> simp
  constructor
  · rcases testudata_freed env T M p r m rec false hidx hflag hud hmeta hname with h | h
    · rw [rest false h]; rfl
    · exact absurd h.1 (by decide)
  · rcases testudata_freed env T M p r m rec true hidx hflag hud hmeta hname with h | h
    · rw [rest true h]
      simp only [if_true]
      generalize (if m.name.tag = LUA_TSTRING then (lua_tostring env (M.push m.name)).1
        else none) = typearg
      by_cases h1 : typearg = none
      · exact ⟨_, by rw [if_pos h1]⟩
      · by_cases h2 : env.isBaseTypeOf typearg T.typeName = true
        · exact ⟨_, by rw [if_neg h1, if_pos h2]⟩
        · exact ⟨_, by rw [if_neg h1, if_neg h2]⟩
    · refine ⟨LuaError.hadBeenFreed (lua_absindex M p) 0, ?_⟩
      simp only [checkUD_body, hnil, h.2]
      rfl

end freed

section collected

theorem ud_set_self (L : lua_State) (r : Nat) (u : UserData) (h : r < L.udata.length)
    (s : List Value) (d : List Nat) :
    ({ L with udata := L.udata.set r u, stack := s, deleted := d } : lua_State).ud r = u := by
  simp [lua_State.ud, List.getD_eq_getElem?_getD, List.getElem?_set, h]

theorem ud_of_udata (L M : lua_State) (r : Nat) (h : M.udata = L.udata) : M.ud r = L.ud r := by
  simp [lua_State.ud, h]

/-- What the two collectors do to the userdata at argument 1. -/
theorem gc_run (L : lua_State) (r : Nat)
    (hobj : L.index 1 = some (Value.userdata r)) (hr : r < L.udata.length) :
    gcWeakUObject L = Res.ok 0
      { L with
        udata := L.udata.set r { L.ud r with flag := (L.ud r).flag ||| UD_HADFREE, ud := 0 }
        deleted := if (L.ud r).ud ≠ 0 then L.deleted ++ [(L.ud r).ud] else L.deleted } ∧
    gcSharedUD L = Res.ok 0
      { L with
        udata := L.udata.set r { L.ud r with flag := (L.ud r).flag ||| UD_HADFREE, ud := 0 }
        deleted := if (L.ud r).ud ≠ 0 then L.deleted ++ [(L.ud r).ud] else L.deleted } := by
  have ht : lua_type L 1 = LUA_TUSERDATA := type_userdata L 1 r hobj
  have hp : lua_touserdata L 1 = Pointer.block r := by simp [lua_touserdata, hobj]
  constructor <;>
    simp [gcWeakUObject, gcSharedUD, luaL_checktype, ht, hp, SafeDelete, lua_State.modUd,
      lua_State.ud, List.getD_eq_getElem?_getD, List.getElem?_set, hr]

theorem hadfree_bits (flag : Nat) :
    (flag ||| UD_HADFREE).testBit 2 = true ∧
    (∀ i, i ≠ 2 → (flag ||| UD_HADFREE).testBit i = flag.testBit i) ∧
    (flag ||| UD_HADFREE) &&& UD_HADFREE ≠ 0 := by
  have h4 : UD_HADFREE = 2 ^ 2 := by decide
  refine ⟨?_, ?_, ?_⟩
  · rw [Nat.testBit_or, h4, Nat.testBit_two_pow_self]; simp
  · intro i hi
    rw [Nat.testBit_or, h4, Nat.testBit_two_pow_of_ne (Ne.symm hi)]; simp
  · intro h0
    have : ((flag ||| UD_HADFREE) &&& UD_HADFREE).testBit 2 = true := by
      rw [Nat.testBit_and, Nat.testBit_or, h4, Nat.testBit_two_pow_self]; simp
    rw [h0] at this
    simp at this

/-- Claim C27: use of a userdata after it has been freed is detected.  After
gcWeakUObject or gcSharedUD has run on a userdata, its flag word has
UD_HADFREE set and every other flag bit as before, and on every later state
with that heap and at every index that holds the userdata, checkUD returns
null when called with checkfree = false and raises a Lua error when called
with checkfree = true, whatever the type asked for; here the userdata
carries a metatable with a `__name`, as the metatables made by
luaL_newmetatable do.  On a nil argument checkUD returns null in both
modes. -/
theorem freed_userdata_detected (env : Env) (T : TypeDesc) (L : lua_State) (r : Nat)
    (m : Metatable)
    (hobj : L.index 1 = some (Value.userdata r)) (hr : r < L.udata.length)
    (hmeta : (L.ud r).meta = some m) (hname : m.name ≠ Value.nil) :
    ∃ L', gcWeakUObject L = Res.ok 0 L' ∧ gcSharedUD L = Res.ok 0 L' ∧
      (L'.ud r).flag = (L.ud r).flag ||| UD_HADFREE ∧
      (L'.ud r).flag.testBit 2 = true ∧
      (∀ i, i ≠ 2 → (L'.ud r).flag.testBit i = (L.ud r).flag.testBit i) ∧
      (∀ (M : lua_State) (p : Int), M.udata = L'.udata →
        M.index p = some (Value.userdata r) →
        checkUD env T M p false = Res.ok 0 M ∧
        (∃ e, checkUD env T M p true = Res.error e M) ∧
        (∀ fuel, checkUD_fuel env T (fuel + 1) M p false = Res.ok 0 M ∧
          ∃ e, checkUD_fuel env T (fuel + 1) M p true = Res.error e M)) ∧
      (∀ (M : lua_State) (p : Int) (checkfree : Bool), M.index p = some Value.nil →
        checkUD env T M p checkfree = Res.ok 0 M) := by
  obtain ⟨hw, hs⟩ := gc_run L r hobj hr
  refine ⟨_, hw, hs, ?_, ?_, ?_, ?_, ?_⟩
  · rw [ud_set_self L r _ hr]
  · rw [ud_set_self L r _ hr]; exact (hadfree_bits _).1
  · intro i hi
    rw [ud_set_self L r _ hr]; exact (hadfree_bits _).2.1 i hi
  · intro M p hM hidx
    have hu : M.ud r = { L.ud r with flag := (L.ud r).flag ||| UD_HADFREE, ud := 0 } := by
      rw [ud_of_udata _ M r hM, ud_set_self L r _ hr]
    have hflag : (M.ud r).flag &&& UD_HADFREE ≠ 0 := by
      rw [hu]; exact (hadfree_bits _).2.2
    have hud : (M.ud r).ud = 0 := by rw [hu]
    have hmeta' : (M.ud r).meta = some m := by rw [hu]; exact hmeta
    have key := fun rec => checkUD_body_freed env T M p r m rec hidx hflag hud hmeta' hname
    exact ⟨(key _).1, (key _).2, fun fuel => ⟨(key _).1, (key _).2⟩⟩
  · intro M p checkfree hidx
    have : lua_isnil M p = true := by simp [lua_isnil, lua_type, hidx, Value.tag]
    simp [checkUD, checkUD_fuel, checkUD_body, this]

end collected

/-- Claim C27 at a concrete input: a weak UObject userdata with the flag word
UD_WEAKUPTR | UD_AUTOGC and box 9 is collected, then checked as a UObject. -/
theorem freed_userdata_detected_witness :
    ∃ L', gcWeakUObject (udCall "UObject" 257 9 []) = Res.ok 0 L' ∧
      gcSharedUD (udCall "UObject" 257 9 []) = Res.ok 0 L' ∧
      (L'.ud 0).flag = ((udCall "UObject" 257 9 []).ud 0).flag ||| UD_HADFREE ∧
      (L'.ud 0).flag.testBit 2 = true ∧
      (∀ i, i ≠ 2 →
        (L'.ud 0).flag.testBit i = ((udCall "UObject" 257 9 []).ud 0).flag.testBit i) ∧
      (∀ (M : lua_State) (p : Int), M.udata = L'.udata →
        M.index p = some (Value.userdata 0) →
        checkUD sampleEnv (plainType "UObject") M p false = Res.ok 0 M ∧
        (∃ e, checkUD sampleEnv (plainType "UObject") M p true = Res.error e M) ∧
        (∀ fuel,
          checkUD_fuel sampleEnv (plainType "UObject") (fuel + 1) M p false = Res.ok 0 M ∧
          ∃ e, checkUD_fuel sampleEnv (plainType "UObject") (fuel + 1) M p true
            = Res.error e M)) ∧
      (∀ (M : lua_State) (p : Int) (checkfree : Bool), M.index p = some Value.nil →
        checkUD sampleEnv (plainType "UObject") M p checkfree = Res.ok 0 M) :=
  freed_userdata_detected sampleEnv (plainType "UObject") (udCall "UObject" 257 9 []) 0
    { registry := some "UObject", name := Value.string "UObject" }
    (by decide) (by decide) (by decide) (by decide)

/-! ## Two unfoldings of `checkUD` are enough -/

section fuel

variable (env : Env) (T : TypeDesc)

theorem maybeAnUDTable_congr (rec1 rec2 : lua_State → Int → Bool → Res Nat)
    (h : ∀ L q c, lua_type L q = LUA_TUSERDATA → rec1 L q c = rec2 L q c)
    (L : lua_State) (p : Int) (checkfree : Bool) :
    maybeAnUDTable rec1 L p checkfree = maybeAnUDTable rec2 L p checkfree := by
  unfold maybeAnUDTable
  split
  · simp only []
    split
    · next ht =>
      have hq : lua_type (lua_getfield_cppinst L p) (lua_absindex (lua_getfield_cppinst L p) (-1))
          = LUA_TUSERDATA := by
        have hne : (lua_getfield_cppinst L p).stack ≠ [] := by
          intro h0
          simp [lua_type, lua_State.index, h0, LUA_TNONE, LUA_TUSERDATA] at ht
        have : (lua_getfield_cppinst L p).index (lua_absindex (lua_getfield_cppinst L p) (-1))
            = (lua_getfield_cppinst L p).index (-1) := by
          have hl : 0 < (lua_getfield_cppinst L p).stack.length := List.length_pos.mpr hne
          simp only [lua_absindex, lua_State.index]
          have h1 : ¬ (0 : Int) < -1 := by decide
          have h2 : (0 : Int) < ((lua_getfield_cppinst L p).stack.length : Int) + -1 + 1 := by
            omega
          simp only [h1, h2, if_false, if_true]
          have h3 : ((-1 : Int) < 0 ∧ (-(-1 : Int)).toNat
              ≤ (lua_getfield_cppinst L p).stack.length) := by
            constructor
            · decide
            · simp; omega
          rw [if_pos h3]
          congr 1
          simp
        simp only [lua_type, this] at ht ⊢
        exact ht
      rw [h _ _ _ hq]
    · rfl
  · rfl

theorem testudata_congr (rec1 rec2 : lua_State → Int → Bool → Res Nat)
    (h : ∀ L q c, lua_type L q = LUA_TUSERDATA → rec1 L q c = rec2 L q c)
    (L : lua_State) (p : Int) (checkfree : Bool) :
    testudata env T rec1 L p checkfree = testudata env T rec2 L p checkfree := by
  simp only [testudata, testudata_UObjectChild, testudata_UObject, testudata_plain,
    maybeAnUDTable_congr rec1 rec2 h]

theorem checkUD_body_congr (rec1 rec2 : lua_State → Int → Bool → Res Nat)
    (h : ∀ L q c, lua_type L q = LUA_TUSERDATA → rec1 L q c = rec2 L q c)
    (L : lua_State) (p : Int) (checkfree : Bool) :
    checkUD_body env T rec1 L p checkfree = checkUD_body env T rec2 L p checkfree := by
  simp only [checkUD_body, testudata_congr env T rec1 rec2 h]

theorem maybeAnUDTable_not_table (rec : lua_State → Int → Bool → Res Nat)
    (L : lua_State) (p : Int) (checkfree : Bool) (h : lua_type L p = LUA_TUSERDATA) :
    maybeAnUDTable rec L p checkfree = Res.ok 0 L := by
  have : lua_istable L p = false := by simp [lua_istable, h, LUA_TUSERDATA, LUA_TTABLE]
  simp [maybeAnUDTable, this]

theorem checkUD_body_userdata (rec1 rec2 : lua_State → Int → Bool → Res Nat)
    (L : lua_State) (p : Int) (checkfree : Bool) (h : lua_type L p = LUA_TUSERDATA) :
    checkUD_body env T rec1 L p checkfree = checkUD_body env T rec2 L p checkfree := by
  simp only [checkUD_body, testudata, testudata_UObjectChild, testudata_UObject,
    testudata_plain, maybeAnUDTable_not_table _ L p checkfree h]

/-- More than two unfoldings of `checkUD` give what two give. -/
theorem checkUD_fuel_enough (n : Nat) (L : lua_State) (p : Int) (checkfree : Bool) :
    checkUD_fuel env T (n + 2) L p checkfree = checkUD env T L p checkfree := by
  simp only [checkUD, checkUD_fuel]
  apply checkUD_body_congr
  intro L' q c hq
  exact checkUD_body_userdata env T _ _ L' q c hq

end fuel

/-! ## One binding per wrapper -/

section binding

variable (env : Env) (L : lua_State) (n0 w wp : Nat) (wrap : LuaDelegateWrap)

theorem checkUD_wrapper (hw : L.wrapperAt w wp wrap)
    (hidx : L.index 1 = some (Value.userdata w)) :
    checkUD env LuaDelegateWrap.type L 1 true = Res.ok wp L := by
  obtain ⟨-, hreg, hfree, hsp, hsr, hud, hpos, -⟩ := hw
  cases hm : (L.ud w).meta with
  | none => simp [hm] at hreg
  | some m =>
    have hreg' : m.registry = some "LuaDelegateWrap" := by simpa [hm] using hreg
    have hnil : lua_isnil L 1 = false := by
      simp [lua_isnil, type_userdata L 1 w hidx, LUA_TUSERDATA, LUA_TNIL]
    have hptr : luaL_testudata L 1 "LuaDelegateWrap" = Pointer.block w := by
      simp [luaL_testudata, hidx, hm, hreg']
    have hne : wp ≠ 0 := Nat.pos_iff_ne_zero.mp hpos
    simp [checkUD, checkUD_fuel, checkUD_body, hnil, testudata, LuaDelegateWrap.type,
      testudata_plain, hptr, CHECK_UD_VALID, hfree, hsp, hsr, hud, hne]

theorem existsIn_luaDelegate (i n : Nat) :
    (UObjectPtr.luaDelegate i).existsIn n = true ↔ i < n := by
  simp [UObjectPtr.existsIn]

theorem existsIn_mono (o : UObjectPtr) (n n' : Nat) (h : n ≤ n')
    (ho : o.existsIn n = true) : o.existsIn n' = true := by
  cases o with
  | luaDelegate i =>
    rw [existsIn_luaDelegate] at ho ⊢
    omega
  | null => rfl
  | other q => rfl

theorem bound_set (d : Nat) (x : FScriptDelegate) (hd : 0 < d) (hl : d ≤ L.delegates.length)
    (M : lua_State) (hM : M.delegates = L.delegates.set (d - 1) x) :
    M.bound d = x.object := by
  have : d - 1 < L.delegates.length := by omega
  simp [lua_State.bound, hM, List.getElem?_set, this]

theorem ownedRefs_of_refs (M : lua_State) (h : M.refs = L.refs) :
    ownedRefs n0 M = ownedRefs n0 L := by
  simp [ownedRefs, h]

/-- What `clear` does on an intact wrapper: the object bound, if it is a
`ULuaDelegate`, loses its reference and is disposed, and the script delegate
is unbound; nothing else changes. -/
theorem clear_run (hw : L.wrapperAt w wp wrap) :
    ∃ L', clear L wp = some L' ∧
      L'.stack = L.stack ∧ L'.udata = L.udata ∧ L'.wraps = L.wraps ∧ L'.vars = L.vars ∧
      L'.delegates = L.delegates.set (wrap.delegate - 1) (FScriptDelegate.mk UObjectPtr.null "") ∧
      L'.objects.length = L.objects.length ∧
      L'.bound wrap.delegate = UObjectPtr.null ∧
      (∀ o ∈ L'.refs, o ∈ L.refs) ∧
      (∀ i, L.bound wrap.delegate = UObjectPtr.luaDelegate i →
        UObjectPtr.luaDelegate i ∉ L'.refs ∧
        L'.refs = L.refs.filter (fun o => o ≠ UObjectPtr.luaDelegate i) ∧
        L'.objects[i]? = some ULuaDelegate.new ∧
        L'.deleted = L.deleted ++
          (if (L.objects.getD i ULuaDelegate.new).luafunction ≠ 0 then
            [(L.objects.getD i ULuaDelegate.new).luafunction] else [])) ∧
      ((∀ i, L.bound wrap.delegate ≠ UObjectPtr.luaDelegate i) →
        L'.refs = L.refs ∧ L'.objects = L.objects ∧ L'.deleted = L.deleted) := by
  obtain ⟨-, -, -, -, -, -, -, hwrap, hd0, hdl, -, hbound⟩ := hw
  have hlt : wrap.delegate - 1 < L.delegates.length := by omega
  obtain ⟨d, hdget⟩ : ∃ d, L.delegates[wrap.delegate - 1]? = some d :=
    ⟨_, List.getElem?_eq_getElem hlt⟩
  have hb : L.bound wrap.delegate = d.object := by simp [lua_State.bound, hdget]
  cases hobj : d.object with
  | luaDelegate i =>
    have hi : i < L.objects.length := by
      rw [hb, hobj, existsIn_luaDelegate] at hbound
      exact hbound
    obtain ⟨o, hoget⟩ : ∃ o, L.objects[i]? = some o := ⟨_, List.getElem?_eq_getElem hi⟩
    have hc : clear L wp = some
        { L with
          refs := L.refs.filter (fun x => x ≠ UObjectPtr.luaDelegate i)
          objects := L.objects.set i ULuaDelegate.new
          deleted := L.deleted ++ (if o.luafunction ≠ 0 then [o.luafunction] else [])
          delegates := L.delegates.set (wrap.delegate - 1)
            (FScriptDelegate.mk UObjectPtr.null "") } := by
      by_cases ho : o.luafunction = 0 <;>
        simp [clear, hwrap, hdget, hobj, hoget, removeRef, ULuaDelegate.dispose, SafeDelete,
          ULuaDelegate.new, ho]
    refine ⟨_, hc, rfl, rfl, rfl, rfl, rfl, ?_, ?_, ?_, ?_, ?_⟩
    · simp
    · exact bound_set L wrap.delegate (FScriptDelegate.mk UObjectPtr.null "") hd0 hdl _ rfl
    · intro x hx
      simp only [List.mem_filter] at hx
      exact hx.1
    · intro j hj
      rw [hb, hobj] at hj
      cases hj
      refine ⟨?_, rfl, ?_, ?_⟩
      · simp
      · simp [List.getElem?_set, hi]
      · simp [List.getD_eq_getElem?_getD, hoget]
    · intro hno
      exact absurd (hb.trans hobj) (hno i)
  | null =>
    have hc : clear L wp = some
        { L with
          delegates := L.delegates.set (wrap.delegate - 1)
            (FScriptDelegate.mk UObjectPtr.null "") } := by
      simp [clear, hwrap, hdget, hobj]
    refine ⟨_, hc, rfl, rfl, rfl, rfl, rfl, rfl, ?_, ?_, ?_, ?_⟩
    · exact bound_set L wrap.delegate (FScriptDelegate.mk UObjectPtr.null "") hd0 hdl _ rfl
    · intro x hx; exact hx
    · intro j hj
      rw [hb, hobj] at hj
      cases hj
    · intro _; exact ⟨rfl, rfl, rfl⟩
  | other q =>
    have hc : clear L wp = some
        { L with
          delegates := L.delegates.set (wrap.delegate - 1)
            (FScriptDelegate.mk UObjectPtr.null "") } := by
      simp [clear, hwrap, hdget, hobj]
    refine ⟨_, hc, rfl, rfl, rfl, rfl, rfl, rfl, ?_, ?_, ?_, ?_⟩
    · exact bound_set L wrap.delegate (FScriptDelegate.mk UObjectPtr.null "") hd0 hdl _ rfl
    · intro x hx; exact hx
    · intro j hj
      rw [hb, hobj] at hj
      cases hj
    · intro _; exact ⟨rfl, rfl, rfl⟩

end binding

section steps

variable (env : Env) (L : lua_State) (n0 w wp : Nat) (wrap : LuaDelegateWrap)

theorem wrapperAt_of_fields (M : lua_State) (hw : L.wrapperAt w wp wrap)
    (hu : M.udata = L.udata) (hwr : M.wraps = L.wraps)
    (hdl : M.delegates.length = L.delegates.length)
    (hrefs : ∀ o ∈ M.refs, o.existsIn M.objects.length = true)
    (hb : (M.bound wrap.delegate).existsIn M.objects.length = true) :
    M.wrapperAt w wp wrap := by
  obtain ⟨h1, h2, h3, h4, h5, h6, h7, h8, h9, h10, -, -⟩ := hw
  have hud : M.ud w = L.ud w := ud_of_udata L M w hu
  exact ⟨by rw [hu]; exact h1, by rw [hud]; exact h2, by rw [hud]; exact h3,
    by rw [hud]; exact h4, by rw [hud]; exact h5, by rw [hud]; exact h6, h7,
    by rw [hwr]; exact h8, h9, by rw [hdl]; exact h10, hrefs, hb⟩

theorem restack_wrapperAt (s : List Value) (hw : L.wrapperAt w wp wrap) :
    ({ L with stack := s } : lua_State).wrapperAt w wp wrap :=
  wrapperAt_of_fields L w wp wrap _ hw rfl rfl rfl hw.2.2.2.2.2.2.2.2.2.2.1
    hw.2.2.2.2.2.2.2.2.2.2.2

theorem ownedRefs_filter (i : Nat) (M : lua_State)
    (h : M.refs = L.refs.filter (fun o => o ≠ UObjectPtr.luaDelegate i)) :
    ownedRefs n0 M = (ownedRefs n0 L).filter (fun o => o ≠ UObjectPtr.luaDelegate i) := by
  simp only [ownedRefs, h, List.filter_filter]
  congr 1
  funext o
  exact Bool.and_comm _ _

/-- After `clear` on a state that satisfies the invariant: the wrapper is
intact, nothing is bound, nothing made since is referenced. -/
theorem clear_step (hinv : L.oneBinding n0 w wp wrap) :
    ∃ L', clear L wp = some L' ∧ L'.wrapperAt w wp wrap ∧
      L'.stack = L.stack ∧ L'.udata = L.udata ∧ L'.wraps = L.wraps ∧ L'.vars = L.vars ∧
      L'.objects.length = L.objects.length ∧
      L'.delegates.length = L.delegates.length ∧
      L'.bound wrap.delegate = UObjectPtr.null ∧
      ownedRefs n0 L' = [] ∧
      (∀ i, L.bound wrap.delegate = UObjectPtr.luaDelegate i →
        UObjectPtr.luaDelegate i ∉ L'.refs ∧ L'.objects[i]? = some ULuaDelegate.new) := by
  obtain ⟨hw, hn0, hown⟩ := hinv
  obtain ⟨L', hc, hst, hu, hwr, hv, hdel, hlen, hb, hsub, hyes, hno⟩ := clear_run L w wp wrap hw
  have hrefs : ∀ o ∈ L'.refs, o.existsIn L'.objects.length = true := by
    intro o ho
    rw [hlen]
    exact hw.2.2.2.2.2.2.2.2.2.2.1 o (hsub o ho)
  have hw' : L'.wrapperAt w wp wrap :=
    wrapperAt_of_fields L w wp wrap L' hw hu hwr (by rw [hdel]; simp) hrefs
      (by rw [hb]; rfl)
  refine ⟨L', hc, hw', hst, hu, hwr, hv, hlen, by rw [hdel]; simp, hb, ?_,
    fun i hi => ⟨(hyes i hi).1, (hyes i hi).2.2.1⟩⟩
  cases hbd : L.bound wrap.delegate with
  | luaDelegate i =>
    rw [ownedRefs_filter L n0 i L' (hyes i hbd).2.1, hown, hbd]
    simp only []
    split <;> simp
  | null =>
    have h := hno (by intro i hi; rw [hbd] at hi; cases hi)
    rw [ownedRefs_of_refs L n0 L' h.1, hown, hbd]
  | other q =>
    have h := hno (by intro i hi; rw [hbd] at hi; cases hi)
    rw [ownedRefs_of_refs L n0 L' h.1, hown, hbd]

theorem index_one (a : Value) (s : List Value) :
    ({ L with stack := a :: s } : lua_State).index 1 = some a := by
  simp [lua_State.index]

/-- A `Clear` call on a state that satisfies the invariant. -/
theorem Clear_step (hinv : L.oneBinding n0 w wp wrap) :
    ∃ L', LuaDelegate.Clear env { L with stack := [Value.userdata w] } = Res.ok 0 L' ∧
      L'.oneBinding n0 w wp wrap ∧
      L'.bound wrap.delegate = UObjectPtr.null ∧ ownedRefs n0 L' = [] ∧
      L'.objects.length = L.objects.length ∧
      (∀ i, L.bound wrap.delegate = UObjectPtr.luaDelegate i →
        UObjectPtr.luaDelegate i ∉ L'.refs ∧ L'.objects[i]? = some ULuaDelegate.new) := by
  have hinv' : ({ L with stack := [Value.userdata w] } : lua_State).oneBinding n0 w wp wrap :=
    ⟨restack_wrapperAt L w wp wrap _ hinv.1, hinv.2.1, hinv.2.2⟩
  obtain ⟨L', hc, hw', -, -, -, -, hlen, -, hb, hown, hrel⟩ := clear_step _ n0 w wp wrap hinv'
  have hck := checkUD_wrapper env _ w wp wrap hinv'.1 (index_one L _ [])
  have hne : wp ≠ 0 := Nat.pos_iff_ne_zero.mp hinv.1.2.2.2.2.2.2.1
  refine ⟨L', ?_, ⟨hw', ?_, ?_⟩, hb, hown, hlen, hrel⟩
  · simp only [LuaDelegate.Clear, hck, hne, ne_eq, not_false_eq_true, if_true, hc]
  · rw [hlen]; exact hinv.2.1
  · rw [hown, hb]

/-- A `Bind` call with any argument on a state that satisfies the invariant:
the previous binding is released first; a function is then bound through a
new object, which is the one object referenced; any other argument is an
argument error, raised with nothing bound and nothing referenced. -/
theorem Bind_step (arg : Value) (hinv : L.oneBinding n0 w wp wrap) :
    ∃ L', (LuaDelegate.Bind env { L with stack := [Value.userdata w, arg] }).state = some L' ∧
      L'.oneBinding n0 w wp wrap ∧
      (∀ i, L.bound wrap.delegate = UObjectPtr.luaDelegate i →
        UObjectPtr.luaDelegate i ∉ L'.refs ∧ L'.objects[i]? = some ULuaDelegate.new) ∧
      ((∃ f, arg = Value.function f) →
        LuaDelegate.Bind env { L with stack := [Value.userdata w, arg] } = Res.ok 1 L' ∧
        L'.bound wrap.delegate = UObjectPtr.luaDelegate L.objects.length ∧
        ownedRefs n0 L' = [UObjectPtr.luaDelegate L.objects.length] ∧
        L'.objects[L.objects.length]? =
          some { luafunction := L.vars + 1, ufunction := wrap.ufunc }) ∧
      ((∀ f, arg ≠ Value.function f) →
        LuaDelegate.Bind env { L with stack := [Value.userdata w, arg] }
          = Res.error (LuaError.typeExpected 2 LUA_TFUNCTION) L' ∧
        L'.bound wrap.delegate = UObjectPtr.null ∧ ownedRefs n0 L' = []) := by
  have hinv' : ({ L with stack := [Value.userdata w, arg] } : lua_State).oneBinding n0 w wp wrap :=
    ⟨restack_wrapperAt L w wp wrap _ hinv.1, hinv.2.1, hinv.2.2⟩
  obtain ⟨L1, hc, hw1, hst, hu, hwr, hv, hlen, hdlen, hb, hown, hrel⟩ :=
    clear_step _ n0 w wp wrap hinv'
  have hck := checkUD_wrapper env _ w wp wrap hinv'.1 (index_one L _ [arg])
  have hne : wp ≠ 0 := Nat.pos_iff_ne_zero.mp hinv.1.2.2.2.2.2.2.1
  have hlen' : L1.objects.length = L.objects.length := hlen
  have hst' : L1.stack = [Value.userdata w, arg] := hst
  have hv' : L1.vars = L.vars := hv
  obtain ⟨-, -, -, -, -, -, -, hwrap1, hd0, hdl1, hrefs1, -⟩ := hw1
  have hn0 : n0 ≤ L1.objects.length := by rw [hlen']; exact hinv.2.1
  have hfresh : UObjectPtr.luaDelegate L1.objects.length ∉ L1.refs := by
    intro hmem
    exact Nat.lt_irrefl _ ((existsIn_luaDelegate _ _).mp (hrefs1 _ hmem))
  have htype : lua_type ({ L1 with objects := L1.objects ++ [ULuaDelegate.new] } : lua_State) 2
      = arg.tag := by
    simp [lua_type, lua_State.index, hst']
  by_cases hf : ∃ f, arg = Value.function f
  · obtain ⟨f, rfl⟩ := hf
    have hdl2 : ¬ (wrap.delegate = 0 ∨ L1.delegates.length < wrap.delegate) := by omega
    have hrun : LuaDelegate.Bind env { L with stack := [Value.userdata w, Value.function f] }
        = Res.ok 1
          { L1 with
            stack := L1.stack ++ [Value.lightuserdata (UObjectPtr.luaDelegate L1.objects.length)]
            vars := L1.vars + 1
            objects := L1.objects ++
              [{ luafunction := L1.vars + 1, ufunction := wrap.ufunc }]
            delegates := L1.delegates.set (wrap.delegate - 1)
              (FScriptDelegate.mk (UObjectPtr.luaDelegate L1.objects.length) "EventTrigger")
            refs := L1.refs ++ [UObjectPtr.luaDelegate L1.objects.length] } := by
      simp only [LuaDelegate.Bind, hck, hne, ne_eq, not_false_eq_true, if_true, hc, NewObject,
        if_false, hwrap1, ULuaDelegate.bindFunction, luaL_checktype, htype]
      simp [Value.tag, hdl2, addRef, hfresh, lua_pushlightuserdata, lua_State.push,
        set_append_last, getD_append_last, ULuaDelegate.new]
    rw [hrun]
    have hbnew : ∀ M : lua_State,
        M.delegates = L1.delegates.set (wrap.delegate - 1)
          (FScriptDelegate.mk (UObjectPtr.luaDelegate L1.objects.length) "EventTrigger") →
        M.bound wrap.delegate = UObjectPtr.luaDelegate L1.objects.length :=
      fun M hM => bound_set L1 wrap.delegate _ hd0 hdl1 M hM
    have hownnew : ∀ M : lua_State,
        M.refs = L1.refs ++ [UObjectPtr.luaDelegate L1.objects.length] →
        ownedRefs n0 M = [UObjectPtr.luaDelegate L1.objects.length] := by
      intro M hM
      have h1 : ownedRefs n0 L1 = [] := hown
      simp only [ownedRefs] at h1 ⊢
      rw [hM, List.filter_append, h1]
      simp [hn0]
    refine ⟨_, rfl, ⟨?_, ?_, ?_⟩, ?_, fun _ => ⟨rfl, ?_, ?_, ?_⟩, fun hno => absurd rfl (hno f)⟩
    · refine wrapperAt_of_fields L w wp wrap _ hinv.1 hu hwr ?_ ?_ ?_
      · simp only [List.length_set]; exact hdlen
      · intro o ho
        simp only [List.mem_append, List.mem_singleton] at ho
        simp only [List.length_append, List.length_singleton]
        rcases ho with ho | ho
        · exact existsIn_mono o _ _ (Nat.le_succ _) (hrefs1 o ho)
        · rw [ho]; exact (existsIn_luaDelegate _ _).mpr (Nat.lt_succ_self _)
      · rw [hbnew _ rfl]
        simp only [List.length_append, List.length_singleton]
        exact (existsIn_luaDelegate _ _).mpr (Nat.lt_succ_self _)
    · simp only [List.length_append, List.length_singleton]; omega
    · rw [hownnew _ rfl, hbnew _ rfl]
      simp [hn0]
    · intro i hi
      have hr := hrel i hi
      have hilt : i < L1.objects.length := by
        have := hr.2
        exact (List.getElem?_eq_some_iff.mp this).1
      refine ⟨?_, ?_⟩
      · simp only [List.mem_append, List.mem_singleton, not_or]
        refine ⟨hr.1, ?_⟩
        intro h; cases h; exact Nat.lt_irrefl _ hilt
      · simp only []
        rw [List.getElem?_append_left hilt]; exact hr.2
    · rw [hbnew _ rfl, hlen']
    · rw [hownnew _ rfl, hlen']
    · simp only []
      rw [← hlen', ← hv']
      simp
  · have hnf : ∀ f, arg ≠ Value.function f := fun f h => hf ⟨f, h⟩
    have htag : arg.tag ≠ LUA_TFUNCTION := by
      cases arg <;> first
        | exact absurd rfl (hnf _)
        | simp [Value.tag, LUA_TNIL, LUA_TBOOLEAN, LUA_TLIGHTUSERDATA, LUA_TNUMBER, LUA_TSTRING,
            LUA_TTABLE, LUA_TFUNCTION, LUA_TUSERDATA]
    have hrun : LuaDelegate.Bind env { L with stack := [Value.userdata w, arg] }
        = Res.error (LuaError.typeExpected 2 LUA_TFUNCTION)
          { L1 with objects := L1.objects ++ [ULuaDelegate.new] } := by
      simp only [LuaDelegate.Bind, hck, hne, ne_eq, not_false_eq_true, if_true, hc, NewObject,
        if_false, hwrap1, ULuaDelegate.bindFunction, luaL_checktype, htype, htag]
    rw [hrun]
    have hb3 : ({ L1 with objects := L1.objects ++ [ULuaDelegate.new] } : lua_State).bound
        wrap.delegate = UObjectPtr.null := hb
    have hown3 : ownedRefs n0 ({ L1 with objects := L1.objects ++ [ULuaDelegate.new] } : lua_State)
        = [] := hown
    refine ⟨_, rfl, ⟨?_, ?_, ?_⟩, ?_, fun hyes => absurd hyes hf, fun _ => ⟨rfl, hb3, hown3⟩⟩
    · refine wrapperAt_of_fields L w wp wrap _ hinv.1 hu hwr ?_ ?_ ?_
      · exact hdlen
      · intro o ho
        simp only [List.length_append, List.length_singleton]
        exact existsIn_mono o _ _ (Nat.le_succ _) (hrefs1 o ho)
      · rw [hb3]; rfl
    · simp only [List.length_append, List.length_singleton]; omega
    · rw [hown3, hb3]
    · intro i hi
      have hr := hrel i hi
      have hilt : i < L1.objects.length := (List.getElem?_eq_some_iff.mp hr.2).1
      refine ⟨hr.1, ?_⟩
      simp only []
      rw [List.getElem?_append_left hilt]; exact hr.2

end steps

section sequences

variable (env : Env) (n0 w wp : Nat) (wrap : LuaDelegateWrap)

theorem op_step (op : DelegateOp) (L : lua_State) (hinv : L.oneBinding n0 w wp wrap) :
    ∃ L', (op.run env w L).state = some L' ∧ L'.oneBinding n0 w wp wrap := by
  cases op with
  | Bind arg =>
    obtain ⟨L', h1, h2, _⟩ := Bind_step env L n0 w wp wrap arg hinv
    exact ⟨L', h1, h2⟩
  | Clear =>
    obtain ⟨L', h1, h2, _⟩ := Clear_step env L n0 w wp wrap hinv
    refine ⟨L', ?_, h2⟩
    show (LuaDelegate.Clear env { L with stack := [Value.userdata w] }).state = some L'
    rw [h1]
    rfl

theorem runDelegateOps_inv (ops : List DelegateOp) :
    ∀ L : lua_State, L.oneBinding n0 w wp wrap →
      ∃ L', runDelegateOps env w L ops = some L' ∧ L'.oneBinding n0 w wp wrap := by
  induction ops with
  | nil => intro L hinv; exact ⟨L, rfl, hinv⟩
  | cons op rest ih =>
    intro L hinv
    obtain ⟨L1, h1, hinv1⟩ := op_step env n0 w wp wrap op L hinv
    obtain ⟨L2, h2, hinv2⟩ := ih L1 hinv1
    refine ⟨L2, ?_, hinv2⟩
    simp only [runDelegateOps, h1]
    exact h2

theorem runDelegateOps_append (ops1 ops2 : List DelegateOp) :
    ∀ L L1 : lua_State, runDelegateOps env w L ops1 = some L1 →
      runDelegateOps env w L (ops1 ++ ops2) = runDelegateOps env w L1 ops2 := by
  induction ops1 with
  | nil =>
    intro L L1 h
    simp only [runDelegateOps, Option.some.injEq] at h
    rw [h]
    rfl
  | cons op rest ih =>
    intro L L1 h
    simp only [runDelegateOps, List.cons_append] at h ⊢
    cases hs : (op.run env w L).state with
    | none => rw [hs] at h; cases h
    | some M =>
      rw [hs] at h
      simp only [] at h ⊢
      exact ih M L1 h

theorem oneBinding_start (L0 : lua_State) (h0 : L0.wrapperAt w wp wrap) :
    L0.oneBinding L0.objects.length w wp wrap := by
  refine ⟨h0, Nat.le_refl _, ?_⟩
  have hrefs := h0.2.2.2.2.2.2.2.2.2.2.1
  have hb := h0.2.2.2.2.2.2.2.2.2.2.2
  have hown : ownedRefs L0.objects.length L0 = [] := by
    unfold ownedRefs
    rw [List.filter_eq_nil_iff]
    intro o ho
    have := hrefs o ho
    cases o with
    | luaDelegate i =>
      rw [existsIn_luaDelegate] at this
      simp only [decide_eq_true_eq, not_le]
      exact this
    | null => simp
    | other q => simp
  rw [hown]
  cases hbd : L0.bound wrap.delegate with
  | luaDelegate i =>
    rw [hbd, existsIn_luaDelegate] at hb
    simp only []
    rw [if_neg (by omega)]
  | null => rfl
  | other q => rfl

theorem ownedRefs_le_one (L : lua_State) (hinv : L.oneBinding n0 w wp wrap) :
    (ownedRefs n0 L).length ≤ 1 := by
  rw [hinv.2.2]
  split
  · split <;> simp
  · simp

end sequences

/-- C30 (amended): on a single-cast wrapper, after any sequence of `Bind` and
`Clear` calls and one more call, every call ends in a defined state and at
most one `ULuaDelegate` made for the wrapper is referenced; the call has
removed the reference of the previously bound object and disposed it; a
`Bind` with a function returns 1 and binds and references exactly one new
object (count 1), a `Clear` returns 0 with count 0, and a `Bind` with an
argument that is not a function raises the argument-type error with the
delegate unbound and count 0. -/
theorem one_live_binding (env : Env) (L0 : lua_State) (w wp : Nat) (wrap : LuaDelegateWrap)
    (ops : List DelegateOp) (op : DelegateOp) (h0 : L0.wrapperAt w wp wrap) :
    ∃ L L', runDelegateOps env w L0 ops = some L ∧
      (op.run env w L).state = some L' ∧
      runDelegateOps env w L0 (ops ++ [op]) = some L' ∧
      (ownedRefs L0.objects.length L).length ≤ 1 ∧
      (ownedRefs L0.objects.length L').length ≤ 1 ∧
      (∀ i, L.bound wrap.delegate = UObjectPtr.luaDelegate i →
        UObjectPtr.luaDelegate i ∉ L'.refs ∧ L'.objects[i]? = some ULuaDelegate.new) ∧
      (∀ f, op = DelegateOp.Bind (Value.function f) →
        op.run env w L = Res.ok 1 L' ∧
        L'.bound wrap.delegate = UObjectPtr.luaDelegate L.objects.length ∧
        ownedRefs L0.objects.length L' = [UObjectPtr.luaDelegate L.objects.length] ∧
        L'.objects[L.objects.length]? =
          some { luafunction := L.vars + 1, ufunction := wrap.ufunc }) ∧
      (op = DelegateOp.Clear →
        op.run env w L = Res.ok 0 L' ∧
        L'.bound wrap.delegate = UObjectPtr.null ∧ ownedRefs L0.objects.length L' = []) ∧
      (∀ arg, op = DelegateOp.Bind arg → (∀ f, arg ≠ Value.function f) →
        op.run env w L = Res.error (LuaError.typeExpected 2 LUA_TFUNCTION) L' ∧
        L'.bound wrap.delegate = UObjectPtr.null ∧ ownedRefs L0.objects.length L' = []) := by
  obtain ⟨L, hrun, hinv⟩ := runDelegateOps_inv env L0.objects.length w wp wrap ops L0
    (oneBinding_start w wp wrap L0 h0)
  have happ := runDelegateOps_append env w ops [op] L0 L hrun
  cases op with
  | Bind arg =>
    obtain ⟨L', hst, hinv', hprev, hfun, hnot⟩ :=
      Bind_step env L L0.objects.length w wp wrap arg hinv
    have hst' : ((DelegateOp.Bind arg).run env w L).state = some L' := hst
    refine ⟨L, L', hrun, hst', ?_, ownedRefs_le_one _ w wp wrap L hinv,
      ownedRefs_le_one _ w wp wrap L' hinv', hprev, ?_, ?_, ?_⟩
    · rw [happ]
      simp only [runDelegateOps, hst']
    · intro f hf
      cases hf
      exact hfun ⟨f, rfl⟩
    · intro hc
      cases hc
    · intro a ha hne
      cases ha
      exact hnot hne
  | Clear =>
    obtain ⟨L', hres, hinv', hb, hown, _, hprev⟩ :=
      Clear_step env L L0.objects.length w wp wrap hinv
    have hres' : DelegateOp.Clear.run env w L = Res.ok 0 L' := hres
    have hst' : (DelegateOp.Clear.run env w L).state = some L' := by
      rw [hres']
      rfl
    refine ⟨L, L', hrun, hst', ?_, ownedRefs_le_one _ w wp wrap L hinv,
      ownedRefs_le_one _ w wp wrap L' hinv', hprev, ?_, ?_, ?_⟩
    · rw [happ]
      simp only [runDelegateOps, hst']
    · intro f hf
      cases hf
    · intro _
      exact ⟨hres', hb, hown⟩
    · intro a ha
      cases ha

/-- A wrapper as `LuaDelegate::push` makes it, after a `Bind` and a `Clear`
and then a further `Bind` of a function. -/
theorem one_live_binding_witness :
    wrapperState.wrapperAt 0 1 { delegate := 1, ufunc := 7 } ∧
    ∃ L L', runDelegateOps sampleEnv 0 wrapperState
        [DelegateOp.Bind (Value.function 1), DelegateOp.Clear] = some L ∧
      ((DelegateOp.Bind (Value.function 2)).run sampleEnv 0 L).state = some L' ∧
      (ownedRefs wrapperState.objects.length L').length ≤ 1 :=
  ⟨by decide,
   (one_live_binding sampleEnv wrapperState 0 1 { delegate := 1, ufunc := 7 }
      [DelegateOp.Bind (Value.function 1), DelegateOp.Clear]
      (DelegateOp.Bind (Value.function 2)) (by decide)).imp
    (fun _ h => h.imp (fun _ h' => ⟨h'.1, h'.2.1, h'.2.2.2.2.1⟩))⟩

/-- A `Bind` whose second argument is not a function, made on a wrapper bound
by an earlier `Bind`: the earlier binding has been released by the time the
argument check raises, so no `ULuaDelegate` is referenced after this `Bind`. -/
theorem bind_count_counterexample :
    wrapperState.wrapperAt 0 1 { delegate := 1, ufunc := 7 } ∧
    (runDelegateOps sampleEnv 0 wrapperState [DelegateOp.Bind (Value.function 1)]).map
      (fun L => ownedRefs 0 L) = some [UObjectPtr.luaDelegate 0] ∧
    (runDelegateOps sampleEnv 0 wrapperState
      [DelegateOp.Bind (Value.function 1), DelegateOp.Bind (Value.number 42)]).map
      (fun L => (ownedRefs 0 L).length) = some 0 ∧
    (runDelegateOps sampleEnv 0 wrapperState
      [DelegateOp.Bind (Value.function 1), DelegateOp.Bind (Value.number 42)]).map
      (fun L => (L.refs, L.bound 1)) = some ([], UObjectPtr.null) ∧
    (∃ L L', runDelegateOps sampleEnv 0 wrapperState
        [DelegateOp.Bind (Value.function 1)] = some L ∧
      (DelegateOp.Bind (Value.number 42)).run sampleEnv 0 L
        = Res.error (LuaError.typeExpected 2 LUA_TFUNCTION) L' ∧
      ownedRefs 0 L' = []) :=
  ⟨by decide, by decide, by decide, by decide, _, _, rfl, rfl, rfl⟩

end Slua
